import Mathlib

/-!
# Night cityscape: rasterisation primitives, occupancy grid and layout engine

A shallow embedding of `src/algorithms/algorithms.cpp` and of the layout part,
the animation step and the draw calls of `src/scene/city_scene.cpp`, followed by
the properties proved about it.

Conventions of the embedding.

* A C++ `int` is a Lean `Int`.  Signed overflow is undefined behaviour in C++, so
  the embedding describes the runs in which no `int` operation overflows.
* `std::vector<T>` is `List T`; `emplace_back` appends at the end.
* A `for` loop over an integer interval is a fold over the list of the values
  the loop variable takes, in order.
* The `while` loops of `bresenhamLine` and `midpointCircle` are recursive
  functions with a fuel argument; they return `none` when the fuel runs out
  before the loop is left.
* The shift `a << 1` is `2 * a`.
* `float` values are elements of an abstract type `F`; the few float operations
  the layout code performs are fields of `FloatOps F`.
* `srand` and `rand` of the C library are fields of `RandModel R`, where `R` is
  the type of states of the global generator.
* `render` is the list of its calls of `glDrawElements`, in order; it is `none`
  when a vector would be read past its end.
-/

namespace CityLayout

/-! ## `algorithms.cpp` -/

/-- The function `abs` of the C library on `int`. -/
def cAbs (a : Int) : Int := if a < 0 then -a else a

/-- The `while (true)` loop of `bresenhamLine` (algorithms.cpp:12-18) started in
the loop state `(x, y, err)` and run for at most `fuel` iterations: the cells
pushed to `pts` from here on, or `none` when the fuel runs out before `break`. -/
def bresenhamLoop (x1 y1 dx dy sx sy : Int) :
    Nat → Int → Int → Int → Option (List (Int × Int))
  | 0, _, _, _ => none
  | fuel + 1, x, y, err =>
    if x = x1 ∧ y = y1 then some [(x, y)]
    else
      let e2 := 2 * err
      let errX := if e2 ≥ dy then err + dy else err
      let xN := if e2 ≥ dy then x + sx else x
      let errY := if e2 ≤ dx then errX + dx else errX
      let yN := if e2 ≤ dx then y + sy else y
      (bresenhamLoop x1 y1 dx dy sx sy fuel xN yN errY).map (fun pts => (x, y) :: pts)

/-- The function `bresenhamLine` (algorithms.cpp:4-20) with its loop bounded by `fuel`. -/
def bresenhamRun (fuel : Nat) (x0 y0 x1 y1 : Int) : Option (List (Int × Int)) :=
  let dx := cAbs (x1 - x0)
  let sx : Int := if x0 < x1 then 1 else -1
  let dy := -cAbs (y1 - y0)
  let sy : Int := if y0 < y1 then 1 else -1
  let err := dx + dy
  bresenhamLoop x1 y1 dx dy sx sy fuel x0 y0 err

/-- Number of loop iterations that is always enough for `bresenhamLine` to reach its `break`
(see `bresenhamRun_of_le`). -/
def bresenhamFuel (x0 y0 x1 y1 : Int) : Nat :=
  (x1 - x0).natAbs + (y1 - y0).natAbs + 1

/-- The function `bresenhamLine` (algorithms.cpp:4-20) as a total function: the
loop is given `bresenhamFuel` iterations, which is enough for it to finish. -/
def bresenhamLine (x0 y0 x1 y1 : Int) : List (Int × Int) :=
  (bresenhamRun (bresenhamFuel x0 y0 x1 y1) x0 y0 x1 y1).getD []

/-- Two cells are 8-connected neighbours (or equal): they differ by at most 1 in each axis. -/
def Adjacent8 (p q : Int × Int) : Prop :=
  |q.1 - p.1| ≤ 1 ∧ |q.2 - p.2| ≤ 1

/-- The eight points pushed by one iteration of the loop of `midpointCircle`
(algorithms.cpp:30-37) for the octant point `(x, y)`, in the order of the source. -/
def circlePoints (cx cy x y : Int) : List (Int × Int) :=
  [(cx + x, cy + y), (cx + y, cy + x), (cx - y, cy + x), (cx - x, cy + y),
   (cx - x, cy - y), (cx - y, cy - x), (cx + y, cy - x), (cx + x, cy - y)]

/-- The `while (x >= y)` loop of `midpointCircle` (algorithms.cpp:29-47) started in
the loop state `(x, y, dx, dy, err)` and run for at most `fuel` iterations: the
points pushed from here on, or `none` when the fuel runs out while `x >= y` still
holds.  The shift `err << 1` is `2 * err`. -/
def midpointCircleLoop (cx cy : Int) :
    Nat → Int → Int → Int → Int → Int → Option (List (Int × Int))
  | 0, x, y, _, _, _ => if x ≥ y then none else some []
  | fuel + 1, x, y, dx, dy, err =>
    if x ≥ y then
      let yN := y + 1
      let errY := err + dy
      let dyN := dy + 2
      let xN := if 2 * errY + dx > 0 then x - 1 else x
      let errN := if 2 * errY + dx > 0 then errY + dx else errY
      let dxN := if 2 * errY + dx > 0 then dx + 2 else dx
      (midpointCircleLoop cx cy fuel xN yN dxN dyN errN).map
        (fun pts => circlePoints cx cy x y ++ pts)
    else some []

/-- The function `midpointCircle` (algorithms.cpp:22-49) with its loop bounded by
`fuel`.  The shift `r << 1` is `2 * r`. -/
def midpointCircleRun (fuel : Nat) (cx cy r : Int) : Option (List (Int × Int)) :=
  let x := r
  let y : Int := 0
  let dx := 1 - 2 * r
  let dy : Int := 0
  let err : Int := 0
  midpointCircleLoop cx cy fuel x y dx dy err

/-- Number of loop iterations that is always enough for `midpointCircle` to leave its loop
(see `midpointCircleRun_of_le`). -/
def midpointCircleFuel (r : Int) : Nat := (r + 1).toNat

/-- The function `midpointCircle` (algorithms.cpp:22-49) as a total function: the
loop is given `midpointCircleFuel` iterations, which is enough for it to finish. -/
def midpointCircle (cx cy r : Int) : List (Int × Int) :=
  (midpointCircleRun (midpointCircleFuel r) cx cy r).getD []

/-! ## The C library and `float` -/

/-- The `float` operations the scene code performs, on an abstract type `F` of floats. -/
structure FloatOps (F : Type) where
  /-- Addition of floats. -/
  add : F → F → F
  /-- Multiplication of floats. -/
  mul : F → F → F
  /-- Conversion `(int)f`. -/
  toInt : F → Int
  /-- The literal `0.0f`. -/
  zero : F
  /-- The literal `0.7f`. -/
  point7 : F
  /-- The literal `2.0f`. -/
  two : F
  /-- The literal `3.0f`. -/
  three : F
  /-- The literal `15.0f`. -/
  fifteen : F

/-- The global pseudo-random generator of the C library: `srand seed` is the
generator state after `srand(seed)`, and `rand r` is the value returned by
`rand()` in state `r` (never negative) together with the next state. -/
structure RandModel (R : Type) where
  /-- State of the generator after `srand(seed)`. -/
  srand : Nat → R
  /-- Value returned by `rand()` and the state it leaves. -/
  rand : R → Nat × R

/-! ## `city_scene.h` -/

/-- The struct `CityConfig` (city_scene.h:11-20). -/
structure CityConfig (F : Type) where
  citySize : Int
  numBuildings : Int
  numSkyscrapers : Int
  numTowers : Int
  numOfficeBuildings : Int
  buildingStyle : Int
  towerWidth : F
  towerHeight : F
  buildingWidth : F
  buildingHeight : F
  skyscraperWidth : F
  skyscraperHeight : F
  pondRadius : F

/-- The data members of class `CityScene` (city_scene.h:39-52) that the layout
code reads or writes; the mesh and texture handles are left out. -/
structure CityScene (F : Type) where
  roadCells : List (Int × Int)
  buildingCells : List (Int × Int)
  buildingHeights : List F
  buildingTypes : List Int
  treeCells : List (Int × Int)
  streetLamps : List (Int × Int)
  carPosition : Int × Int
  pond_cx : Int
  pond_cy : Int
  pond_r : Int
  config : CityConfig F
  gridSize : Int
  waterTime : F
  ripplePhase : F
  occupiedGrid : List (List Bool)

/-! ## `city_scene.cpp`: the occupancy grid -/

/-- The values taken by `i` in `for (int i = lo; i <= hi; i++)`, in order. -/
def intRange (lo hi : Int) : List Int :=
  (List.range (hi + 1 - lo).toNat).map (fun (k : Nat) => lo + (k : Int))

/-- The values taken by `i` in `for (int i = lo; i < hi; i += 6)`, in order. -/
def strideSix (lo hi : Int) : List Int :=
  (List.range ((hi - lo + 5) / 6).toNat).map (fun (k : Nat) => lo + 6 * (k : Int))

/-- The read `occupiedGrid[i][j]`, for indices inside the vectors. -/
def gridGet (g : List (List Bool)) (i j : Int) : Bool :=
  (g.getD i.toNat []).getD j.toNat false

/-- The write `occupiedGrid[i][j] = true`, for indices inside the vectors. -/
def gridSet (g : List (List Bool)) (i j : Int) : List (List Bool) :=
  g.set i.toNat ((g.getD i.toNat []).set j.toNat true)

/-- The method `CityScene::isGridCellFree` (city_scene.cpp:104-113).  The early
`return false` makes the result the conjunction over all visited cells; the
method is `const` and returns only the flag. -/
def isGridCellFree {F : Type} (s : CityScene F) (x z size : Int) : Bool :=
  (intRange (x - Int.tdiv size 2) (x + Int.tdiv size 2)).all fun i =>
    (intRange (z - Int.tdiv size 2) (z + Int.tdiv size 2)).all fun j =>
      !(decide (i < 0) || decide (i ≥ s.gridSize) || decide (j < 0) || decide (j ≥ s.gridSize)
        || gridGet s.occupiedGrid i j)

/-- The method `CityScene::markGridCells` (city_scene.cpp:115-123). -/
def markGridCells {F : Type} (s : CityScene F) (x z size : Int) : CityScene F :=
  { s with
    occupiedGrid :=
      (intRange (x - Int.tdiv size 2) (x + Int.tdiv size 2)).foldl
        (fun g i =>
          (intRange (z - Int.tdiv size 2) (z + Int.tdiv size 2)).foldl
            (fun g j =>
              if i ≥ 0 ∧ i < s.gridSize ∧ j ≥ 0 ∧ j < s.gridSize then gridSet g i j else g)
            g)
        s.occupiedGrid }

/-! ## `city_scene.cpp`: the layout engine -/

/-- The method `CityScene::getFuturisticHeight` (city_scene.cpp:226-233). -/
def getFuturisticHeight {F : Type} (ops : FloatOps F) (s : CityScene F) (type : Int)
    (_index : Int) : F :=
  if type = 0 then s.config.skyscraperHeight
  else if type = 1 then s.config.towerHeight
  else if type = 2 then ops.mul s.config.buildingHeight ops.point7
  else ops.fifteen

/-- The search loop of `placeBuildingsRandomly` and of `placeTrees`
(city_scene.cpp:186-194 and 246-254) with `n` attempts left: each attempt draws
`x = lo + rand() % (gridSize - 2*lo)` and then `z` likewise, and the loop stops
at the first draw with `isGridCellFree(x, z, size)`.  The result is `some (x, z)`
when `validPos` ends up true, and the generator state. -/
def findFreeCell {F R : Type} (rm : RandModel R) (s : CityScene F) (lo size : Int) :
    Nat → R → Option (Int × Int) × R
  | 0, r => (none, r)
  | n + 1, r =>
    let x := lo + Int.tmod ((rm.rand r).1 : Int) (s.gridSize - 2 * lo)
    let r1 := (rm.rand r).2
    let z := lo + Int.tmod ((rm.rand r1).1 : Int) (s.gridSize - 2 * lo)
    let r2 := (rm.rand r1).2
    if isGridCellFree s x z size then (some (x, z), r2)
    else findFreeCell rm s lo size n r2

/-- The counting loop of the mixed style (city_scene.cpp:208-213): the numbers
`(skyscrapersPlaced, towersPlaced, buildingsPlaced)` found by scanning `buildingTypes`. -/
def countPlaced (buildingTypes : List Int) : Int × Int × Int :=
  buildingTypes.foldl
    (fun c t =>
      if t = 0 then (c.1 + 1, c.2.1, c.2.2)
      else if t = 1 then (c.1, c.2.1 + 1, c.2.2)
      else (c.1, c.2.1, c.2.2 + 1))
    (0, 0, 0)

/-- The type chosen for the next building (city_scene.cpp:201-218). -/
def nextBuildingType {F : Type} (s : CityScene F) : Int :=
  if s.config.buildingStyle = 1 then 0
  else if s.config.buildingStyle = 2 then 1
  else
    let placed := countPlaced s.buildingTypes
    if placed.1 < s.config.numSkyscrapers then 0
    else if placed.2.1 < s.config.numTowers then 1
    else 2

/-- The body of `if (validPos)` in `placeBuildingsRandomly` (city_scene.cpp:196-222):
the building found at `(x, z)` in iteration `i` is recorded, its 5x5 area marked,
and its type and height pushed. -/
def recordBuilding {F : Type} (ops : FloatOps F) (s : CityScene F) (x z i : Int) : CityScene F :=
  let s1 := { s with buildingCells := s.buildingCells ++ [(x, z)] }
  let s2 := markGridCells s1 x z 5
  let type := nextBuildingType s2
  let s3 := { s2 with buildingTypes := s2.buildingTypes ++ [type] }
  { s3 with buildingHeights := s3.buildingHeights ++ [getFuturisticHeight ops s3 type i] }

/-- One iteration of the outer loop of `placeBuildingsRandomly`
(city_scene.cpp:182-222), for loop index `i`. -/
def placeBuildingStep {F R : Type} (ops : FloatOps F) (rm : RandModel R)
    (st : CityScene F × R) (i : Int) : CityScene F × R :=
  match findFreeCell rm st.1 5 5 100 st.2 with
  | (some (x, z), r) => (recordBuilding ops st.1 x z i, r)
  | (none, r) => (st.1, r)

/-- The method `CityScene::placeBuildingsRandomly` (city_scene.cpp:173-224). -/
def placeBuildingsRandomly {F R : Type} (ops : FloatOps F) (rm : RandModel R)
    (s : CityScene F) (_r : R) : CityScene F × R :=
  let s0 := { s with buildingCells := [], buildingHeights := [], buildingTypes := [] }
  (intRange 0 (s.config.numBuildings - 1)).foldl (placeBuildingStep ops rm) (s0, rm.srand 12345)

/-- One iteration of the outer loop of `placeTrees` (city_scene.cpp:243-259). -/
def placeTreeStep {F R : Type} (rm : RandModel R) (st : CityScene F × R) (_i : Int) :
    CityScene F × R :=
  match findFreeCell rm st.1 3 3 50 st.2 with
  | (some (x, z), r) =>
    (markGridCells { st.1 with treeCells := st.1.treeCells ++ [(x, z)] } x z 3, r)
  | (none, r) => (st.1, r)

/-- The method `CityScene::placeTrees` (city_scene.cpp:235-261). -/
def placeTrees {F R : Type} (rm : RandModel R) (s : CityScene F) (_r : R) : CityScene F × R :=
  let s0 := { s with treeCells := [] }
  let numTrees := s.config.citySize * 8
  (intRange 0 (numTrees - 1)).foldl (placeTreeStep rm) (s0, rm.srand 54321)

/-- One of the four guarded lamp placements of `placeStreetLamps`
(for instance city_scene.cpp:270-273): `inGrid` is the first conjunct of the
guard and `(x, z)` the candidate cell. -/
def placeLampAt {F : Type} (s : CityScene F) (inGrid : Bool) (x z : Int) : CityScene F :=
  if inGrid ∧ isGridCellFree s x z 1 then
    markGridCells { s with streetLamps := s.streetLamps ++ [(x, z)] } x z 1
  else s

/-- The method `CityScene::placeStreetLamps` (city_scene.cpp:263-294). -/
def placeStreetLamps {F : Type} (s : CityScene F) : CityScene F :=
  let s0 := { s with streetLamps := [] }
  let center := Int.tdiv s.gridSize 2
  let s1 := (strideSix 8 (s.gridSize - 8)).foldl
    (fun s i =>
      if cAbs (i - center) > 3 then
        placeLampAt (placeLampAt s (decide (center + 2 < s.gridSize)) i (center + 2))
          (decide (center - 2 ≥ 0)) i (center - 2)
      else s)
    s0
  (strideSix 8 (s.gridSize - 8)).foldl
    (fun s j =>
      if cAbs (j - center) > 3 then
        placeLampAt (placeLampAt s (decide (center + 2 < s.gridSize)) (center + 2) j)
          (decide (center - 2 ≥ 0)) (center - 2) j
      else s)
    s1

/-- The method `CityScene::placeRandomCar` (city_scene.cpp:296-300). -/
def placeRandomCar {F : Type} (s : CityScene F) : CityScene F :=
  let center := Int.tdiv s.gridSize 2
  { s with carPosition := (center - 5, center) }

/-- The road part of `generateFuturisticLayout` (city_scene.cpp:127-140): both
roads are rasterised, appended to `roadCells`, and every road cell is marked
with the default size 1. -/
def layRoads {F : Type} (s : CityScene F) : CityScene F :=
  let center := Int.tdiv s.gridSize 2
  let road1 := bresenhamLine 5 center (s.gridSize - 5) center
  let road2 := bresenhamLine center 5 center (s.gridSize - 5)
  let s1 := { s with roadCells := s.roadCells ++ road1 ++ road2 }
  s1.roadCells.foldl (fun s cell => markGridCells s cell.1 cell.2 1) s1

/-- The pond part of `generateFuturisticLayout` (city_scene.cpp:155-169). -/
def markPond {F : Type} (ops : FloatOps F) (s : CityScene F) : CityScene F :=
  let center := Int.tdiv s.gridSize 2
  let s1 := { s with pond_cx := center + 8, pond_cy := center - 8,
                     pond_r := ops.toInt s.config.pondRadius }
  { s1 with
    occupiedGrid :=
      (intRange (max 0 (s1.pond_cx - s1.pond_r)) (min (s1.gridSize - 1) (s1.pond_cx + s1.pond_r))).foldl
        (fun g i =>
          (intRange (max 0 (s1.pond_cy - s1.pond_r))
              (min (s1.gridSize - 1) (s1.pond_cy + s1.pond_r))).foldl
            (fun g j =>
              let dx := i - s1.pond_cx
              let dy := j - s1.pond_cy
              if dx * dx + dy * dy ≤ s1.pond_r * s1.pond_r then
                if i ≥ 0 ∧ i < s1.gridSize ∧ j ≥ 0 ∧ j < s1.gridSize then gridSet g i j else g
              else g)
            g)
        s1.occupiedGrid }

/-- The method `CityScene::generateFuturisticLayout` (city_scene.cpp:125-171). -/
def generateFuturisticLayout {F R : Type} (ops : FloatOps F) (rm : RandModel R)
    (s : CityScene F) (r : R) : CityScene F × R :=
  let s1 := layRoads s
  let b := placeBuildingsRandomly ops rm s1 r
  let t := placeTrees rm b.1 b.2
  let s4 := placeStreetLamps t.1
  let s5 := placeRandomCar s4
  (markPond ops s5, t.2)

/-- The first part of `CityScene::init` (city_scene.cpp:25-45): the configuration
is stored, `gridSize` chosen from `citySize`, and the occupancy grid created all free. -/
def initGrid {F : Type} (s : CityScene F)
    (citySize numBuildings buildingStyle : Int)
    (towerW towerH buildingW buildingH skyW skyH pondR : F)
    (numSky numTow numOff : Int) : CityScene F :=
  let config : CityConfig F :=
    { citySize := citySize, numBuildings := numBuildings, numSkyscrapers := numSky,
      numTowers := numTow, numOfficeBuildings := numOff, buildingStyle := buildingStyle,
      towerWidth := towerW, towerHeight := towerH, buildingWidth := buildingW,
      buildingHeight := buildingH, skyscraperWidth := skyW, skyscraperHeight := skyH,
      pondRadius := pondR }
  let gridSize : Int := if citySize = 1 then 50 else if citySize = 2 then 70 else 100
  { s with config := config, gridSize := gridSize,
           occupiedGrid := List.replicate gridSize.toNat (List.replicate gridSize.toNat false) }

/-- The method `CityScene::init` (city_scene.cpp:24-94), without the creation of
meshes and textures and without the console output. -/
def init {F R : Type} (ops : FloatOps F) (rm : RandModel R) (s : CityScene F) (r : R)
    (citySize numBuildings buildingStyle : Int)
    (towerW towerH buildingW buildingH skyW skyH pondR : F)
    (numSky numTow numOff : Int) : CityScene F × R :=
  let s1 := initGrid s citySize numBuildings buildingStyle towerW towerH buildingW buildingH
    skyW skyH pondR numSky numTow numOff
  let g := generateFuturisticLayout ops rm s1 r
  ({ g.1 with waterTime := ops.zero, ripplePhase := ops.zero }, g.2)

/-- The method `CityScene::update` (city_scene.cpp:311-315). -/
def update {F : Type} (ops : FloatOps F) (s : CityScene F) (dt : F) : CityScene F :=
  { s with waterTime := ops.add s.waterTime (ops.mul dt ops.two),
           ripplePhase := ops.add s.ripplePhase (ops.mul dt ops.three) }

/-! ## `city_scene.cpp`: rendering -/

/-- The features of the scene, in the order in which `CityScene::render` draws them. -/
inductive Feature where
  | ground
  | road
  | pond
  | building
  | tree
  | lamp
  | car
  deriving DecidableEq

/-- One call of `glDrawElements` in `CityScene::render` (city_scene.cpp:317-479),
with the scene data that its model matrix is built from: the grid cell passed to
`cellToWorld`; for a road cell whether the quad is rotated (`c.first == center`);
for a building the height and the type read from `buildingHeights[i]` and
`buildingTypes[i]`.  The constructors are named after the comments of the source. -/
inductive DrawCall (F : Type) where
  | ground : DrawCall F
  | road (cell : Int × Int) (rotated : Bool) : DrawCall F
  | pond : DrawCall F
  | building (cell : Int × Int) (height : F) (type : Int) : DrawCall F
  | treeTrunk (cell : Int × Int) : DrawCall F
  | treeFoliage (cell : Int × Int) : DrawCall F
  | lampPole (cell : Int × Int) : DrawCall F
  | lampHead (cell : Int × Int) : DrawCall F
  | carBody (cell : Int × Int) : DrawCall F
  | carRoof (cell : Int × Int) : DrawCall F
  | headlight1 (cell : Int × Int) : DrawCall F
  | headlight2 (cell : Int × Int) : DrawCall F
  deriving DecidableEq

/-- The feature that a draw call belongs to: the section of `render` that issues it. -/
def DrawCall.feature {F : Type} : DrawCall F → Feature
  | DrawCall.ground => Feature.ground
  | DrawCall.road _ _ => Feature.road
  | DrawCall.pond => Feature.pond
  | DrawCall.building _ _ _ => Feature.building
  | DrawCall.treeTrunk _ => Feature.tree
  | DrawCall.treeFoliage _ => Feature.tree
  | DrawCall.lampPole _ => Feature.lamp
  | DrawCall.lampHead _ => Feature.lamp
  | DrawCall.carBody _ => Feature.car
  | DrawCall.carRoof _ => Feature.car
  | DrawCall.headlight1 _ => Feature.car
  | DrawCall.headlight2 _ => Feature.car

/-- One iteration of the building loop of `render` (city_scene.cpp:379-406) for
index `i`: `buildingCells[i]`, `buildingHeights[i]` and `buildingTypes[i]` are read
and one cube is drawn.  Reading a vector past its end has no defined result, which
is `none` here. -/
def renderBuilding {F : Type} (s : CityScene F) (acc : Option (List (DrawCall F))) (i : Nat) :
    Option (List (DrawCall F)) :=
  match acc, s.buildingCells[i]?, s.buildingHeights[i]?, s.buildingTypes[i]? with
  | some t, some c, some h, some ty => some (t ++ [DrawCall.building c h ty])
  | _, _, _, _ => none

/-- The method `CityScene::render` (city_scene.cpp:317-479) as the sequence of its
calls of `glDrawElements`; shader uniforms, textures and matrices are left out. -/
def render {F : Type} (s : CityScene F) : Option (List (DrawCall F)) :=
  let center := Int.tdiv s.gridSize 2
  let t0 : List (DrawCall F) := [DrawCall.ground]
  let t1 := s.roadCells.foldl (fun t c => t ++ [DrawCall.road c (decide (c.1 = center))]) t0
  let t2 := t1 ++ [DrawCall.pond]
  let t3 := (List.range s.buildingCells.length).foldl (renderBuilding s) (some t2)
  t3.map fun t3 =>
    let t4 := s.treeCells.foldl
      (fun t c => t ++ [DrawCall.treeTrunk c] ++ [DrawCall.treeFoliage c]) t3
    let t5 := s.streetLamps.foldl
      (fun t c => t ++ [DrawCall.lampPole c] ++ [DrawCall.lampHead c]) t4
    t5 ++ [DrawCall.carBody s.carPosition] ++ [DrawCall.carRoof s.carPosition]
      ++ [DrawCall.headlight1 s.carPosition] ++ [DrawCall.headlight2 s.carPosition]

/-! ## Vocabulary of the statements -/

/-- The vectors of `occupiedGrid` have the shape `gridSize × gridSize` that `init` gives them. -/
def GridShape {F : Type} (s : CityScene F) : Prop :=
  0 ≤ s.gridSize ∧ s.occupiedGrid.length = s.gridSize.toNat ∧
    ∀ row ∈ s.occupiedGrid, row.length = s.gridSize.toNat

/-- The cell `(i, j)` lies inside `[0, gridSize) × [0, gridSize)`. -/
def InGrid {F : Type} (s : CityScene F) (i j : Int) : Prop :=
  0 ≤ i ∧ i < s.gridSize ∧ 0 ≤ j ∧ j < s.gridSize

/-- The cell `(i, j)` lies in the square visited by `isGridCellFree(x, z, size)` and
`markGridCells(x, z, size)`: `x - size/2 ≤ i ≤ x + size/2` and likewise for `j`, with
the truncating integer division of C++. -/
def InSquare (x z size i j : Int) : Prop :=
  x - Int.tdiv size 2 ≤ i ∧ i ≤ x + Int.tdiv size 2 ∧
    z - Int.tdiv size 2 ≤ j ∧ j ≤ z + Int.tdiv size 2

/-- The cell `(i, j)` of the grid is currently marked occupied. -/
def Occupied {F : Type} (s : CityScene F) (i j : Int) : Prop :=
  gridGet s.occupiedGrid i j = true

/-- The grid `g` with every existing cell `(a, b)` for which `P a b` holds set to
`true`; the closed form of what a sequence of writes `occupiedGrid[i][j] = true` does. -/
def orGrid (P : Nat → Nat → Bool) (g : List (List Bool)) : List (List Bool) :=
  g.mapIdx (fun a row => row.mapIdx (fun b v => v || P a b))

/-- The cells written by `markGridCells(x, z, size)` on a grid of size `gridSize`,
as a predicate on vector indices. -/
def markedCells (gridSize x z size : Int) (a b : Nat) : Bool :=
  (intRange (x - Int.tdiv size 2) (x + Int.tdiv size 2)).any fun i =>
    (intRange (z - Int.tdiv size 2) (z + Int.tdiv size 2)).any fun j =>
      decide (i ≥ 0 ∧ i < gridSize ∧ j ≥ 0 ∧ j < gridSize) && (a == i.toNat && b == j.toNat)

/-- The cells written by the pond loops of `generateFuturisticLayout` for a pond
of centre `(cx, cy)` and radius `r`, as a predicate on vector indices. -/
def pondCells (gridSize cx cy r : Int) (a b : Nat) : Bool :=
  (intRange (max 0 (cx - r)) (min (gridSize - 1) (cx + r))).any fun i =>
    (intRange (max 0 (cy - r)) (min (gridSize - 1) (cy + r))).any fun j =>
      decide ((i - cx) * (i - cx) + (j - cy) * (j - cy) ≤ r * r ∧
        (i ≥ 0 ∧ i < gridSize ∧ j ≥ 0 ∧ j < gridSize)) && (a == i.toNat && b == j.toNat)

/-- Every cell occupied in `s` is occupied in `t`. -/
def GridLe {F : Type} (s t : CityScene F) : Prop :=
  ∀ i j, Occupied s i j → Occupied t i j

/-- The scene on entry to `generateFuturisticLayout` and after each of its six
steps: roads, buildings, trees, lamps, car, pond. -/
def layoutStages {F R : Type} (ops : FloatOps F) (rm : RandModel R)
    (s : CityScene F) (r : R) : List (CityScene F) :=
  let s1 := layRoads s
  let b := placeBuildingsRandomly ops rm s1 r
  let t := placeTrees rm b.1 b.2
  let s4 := placeStreetLamps t.1
  let s5 := placeRandomCar s4
  [s, s1, b.1, t.1, s4, s5, markPond ops s5]

/-- The scene `t` has the road cells, grid size and configuration of `s`, and the
grid shape of `s` if `s` has one. -/
def Keeps {F : Type} (s t : CityScene F) : Prop :=
  t.roadCells = s.roadCells ∧ t.gridSize = s.gridSize ∧ t.config = s.config ∧
    (GridShape s → GridShape t)

/-- The first `n` candidate cells that the search loop of `placeBuildingsRandomly`
or `placeTrees` would draw from generator state `r` if it never stopped early:
each takes two calls of `rand()`, `x` first. -/
def candidateCells {R : Type} (rm : RandModel R) (gridSize lo : Int) : Nat → R → List (Int × Int)
  | 0, _ => []
  | n + 1, r =>
    (lo + Int.tmod ((rm.rand r).1 : Int) (gridSize - 2 * lo),
      lo + Int.tmod ((rm.rand (rm.rand r).2).1 : Int) (gridSize - 2 * lo))
      :: candidateCells rm gridSize lo n (rm.rand (rm.rand r).2).2

/-- The generator state after `n` calls of `rand()`. -/
def skipDraws {R : Type} (rm : RandModel R) : Nat → R → R
  | 0, r => r
  | n + 1, r => skipDraws rm n (rm.rand r).2

/-- Invariant of the loop of `placeBuildingsRandomly` entered in scene `s0`: the
5x5 square of every recorded building lies in the grid, is occupied now, was free
in `s0`, and the squares of different buildings are disjoint. -/
def BuildingsInv {F : Type} (s0 t : CityScene F) : Prop :=
  Keeps s0 t ∧ GridLe s0 t ∧ GridShape t ∧
  (∀ c ∈ t.buildingCells, ∀ i j, InSquare c.1 c.2 5 i j →
    InGrid t i j ∧ Occupied t i j ∧ ¬ Occupied s0 i j) ∧
  t.buildingCells.Pairwise
    (fun p q => ∀ i j, ¬ (InSquare p.1 p.2 5 i j ∧ InSquare q.1 q.2 5 i j))

/-- The points pushed for a list of octant points: eight mirror images each. -/
def mirrorAll (cx cy : Int) : List (Int × Int) → List (Int × Int)
  | [] => []
  | p :: ps => circlePoints cx cy p.1 p.2 ++ mirrorAll cx cy ps

/-- What the loop of `midpointCircle` keeps true of the octant points `(x, y)` it
plots for radius `r`: they lie in the octant `0 ≤ y ≤ x ≤ r`, and `x*x + y*y` is
within `x - y` below and `x + y - 1` above `r*r` (the upper bound for `r ≥ 1`). -/
def OctantPoint (r x y : Int) : Prop :=
  0 ≤ y ∧ y ≤ x ∧ x ≤ r ∧ r * r + y - x ≤ x * x + y * y ∧
    (1 ≤ r → x * x + y * y ≤ r * r + x + y - 1)

/-- The scene in `generateFuturisticLayout` just before the pond step: roads,
buildings, trees, lamps and the car are placed. -/
def beforePond {F R : Type} (ops : FloatOps F) (rm : RandModel R)
    (s : CityScene F) (r : R) : CityScene F :=
  placeRandomCar (placeStreetLamps (placeTrees rm
    (placeBuildingsRandomly ops rm (layRoads s) r).1
    (placeBuildingsRandomly ops rm (layRoads s) r).2).1)

/-- The type of the `k`-th placed building under quota-priority placement with
quotas `S` for skyscrapers and `T` for towers: skyscraper (0) below `S`, tower (1)
below `S + T`, office (2) from there on. -/
def quotaType (S T : Int) (k : Nat) : Int :=
  if (k : Int) < S then 0 else if (k : Int) < S + T then 1 else 2

/-- One counter per type, advanced for a building of type `t`. -/
def bumpCounter (c : Int × Int × Int) (t : Int) : Int × Int × Int :=
  if t = 0 then (c.1 + 1, c.2.1, c.2.2)
  else if t = 1 then (c.1, c.2.1 + 1, c.2.2)
  else (c.1, c.2.1, c.2.2 + 1)

/-- The mixed-style decision taken from the counters `c` instead of a scan of the
placed list: skyscraper while its quota `S` is not met, then tower while `T` is
not met, then office. -/
def typeFromCounters (S T : Int) (c : Int × Int × Int) : Int :=
  if c.1 < S then 0 else if c.2.1 < T then 1 else 2

/-- The design with explicit counters, as the design notes of the spec word it:
the types given to the next `n` placed buildings when the decision is taken from
one counter per type, kept up to date after every placement, starting from `c`. -/
def counterTypes (S T : Int) : Nat → Int × Int × Int → List Int
  | 0, _ => []
  | n + 1, c =>
    typeFromCounters S T c :: counterTypes S T n (bumpCounter c (typeFromCounters S T c))

/-- Invariant of a placement loop entered in scene `s0`, for features of footprint
`size` recorded in `cells`: every recorded square lies in the grid, is occupied
now, was free in `s0`, and the squares of different features are disjoint. -/
def PlacedInv {F : Type} (size : Int) (cells : List (Int × Int)) (s0 t : CityScene F) : Prop :=
  Keeps s0 t ∧ GridLe s0 t ∧ GridShape t ∧
  (∀ c ∈ cells, ∀ i j, InSquare c.1 c.2 size i j →
    InGrid t i j ∧ Occupied t i j ∧ ¬ Occupied s0 i j) ∧
  cells.Pairwise
    (fun p q => ∀ i j, ¬ (InSquare p.1 p.2 size i j ∧ InSquare q.1 q.2 size i j))

/-- One visit of a lamp candidate `c`: when the single cell `c` is free a lamp is
recorded there and the cell marked (size 1); otherwise nothing changes. -/
def visitLamp {F : Type} (s : CityScene F) (c : Int × Int) : CityScene F :=
  if isGridCellFree s c.1 c.2 1 then
    markGridCells { s with streetLamps := s.streetLamps ++ [c] } c.1 c.2 1
  else s

/-- The lamp candidates along one road, in visiting order: for every position `i`
of the sweep with `|i - center| > 3`, the cells of `pair i`. -/
def lampsAlong (center : Int) (pair : Int → List (Int × Int)) : List Int → List (Int × Int)
  | [] => []
  | i :: is => (if cAbs (i - center) > 3 then pair i else []) ++ lampsAlong center pair is

/-- The lamp candidates of a grid of size `gridSize`, in visiting order: with
`c = gridSize/2`, the cells `(i, c+2)`, `(i, c-2)` along the horizontal road and
then `(c+2, j)`, `(c-2, j)` along the vertical road, for `i`, `j` in 8, 14, 20, …
below `gridSize - 8` with `|i - c| > 3`. -/
def lampCandidates (gridSize : Int) : List (Int × Int) :=
  lampsAlong (Int.tdiv gridSize 2)
      (fun i => [(i, Int.tdiv gridSize 2 + 2), (i, Int.tdiv gridSize 2 - 2)])
      (strideSix 8 (gridSize - 8)) ++
    lampsAlong (Int.tdiv gridSize 2)
      (fun j => [(Int.tdiv gridSize 2 + 2, j), (Int.tdiv gridSize 2 - 2, j)])
      (strideSix 8 (gridSize - 8))

/-- The scene in `generateFuturisticLayout` after roads, buildings and trees. -/
def afterTrees {F R : Type} (ops : FloatOps F) (rm : RandModel R)
    (s : CityScene F) (r : R) : CityScene F :=
  (placeTrees rm (placeBuildingsRandomly ops rm (layRoads s) r).1
    (placeBuildingsRandomly ops rm (layRoads s) r).2).1

/-- The scene `s` with the configured pond radius replaced by `p`, everything else
as it is. -/
def setPond {F : Type} (s : CityScene F) (p : F) : CityScene F :=
  { s with config := { s.config with pondRadius := p } }

/-- Exactness of a placement loop entered in scene `s0`, for features of footprint
`size` recorded in `cells`: the grid has its shape and size, and a cell of the grid
is occupied exactly when it was occupied in `s0` or lies in a recorded square. -/
def MarkedExactly {F : Type} (size : Int) (cells : List (Int × Int)) (s0 t : CityScene F) :
    Prop :=
  GridShape t ∧ t.gridSize = s0.gridSize ∧
  ∀ i j, InGrid s0 i j →
    (Occupied t i j ↔ Occupied s0 i j ∨ ∃ c ∈ cells, InSquare c.1 c.2 size i j)

/-! ## Concrete scenes -/

/-- Float operations on the one-element type, for runs in which no float matters;
`(int)pondRadius` is 5. -/
def unitFloatOps : FloatOps Unit :=
  { add := fun _ _ => (), mul := fun _ _ => (), toInt := fun _ => 5, zero := (),
    point7 := (), two := (), three := (), fifteen := () }

/-- A generator whose `rand()` always returns 20. -/
def constRand : RandModel Unit :=
  { srand := fun _ => (), rand := fun _ => (20, ()) }

/-- A newly constructed `CityScene` over the one-element float type: the vectors
are empty; the scalar members, which the constructor leaves unset, are 0. -/
def newScene : CityScene Unit :=
  { roadCells := [], buildingCells := [], buildingHeights := [], buildingTypes := [],
    treeCells := [], streetLamps := [], carPosition := (0, 0),
    pond_cx := 0, pond_cy := 0, pond_r := 0,
    config :=
      { citySize := 0, numBuildings := 0, numSkyscrapers := 0, numTowers := 0,
        numOfficeBuildings := 0, buildingStyle := 0, towerWidth := (), towerHeight := (),
        buildingWidth := (), buildingHeight := (), skyscraperWidth := (),
        skyscraperHeight := (), pondRadius := () },
    gridSize := 0, waterTime := (), ripplePhase := (), occupiedGrid := [] }

/-- The scene as `init` has it just before `generateFuturisticLayout` for a small
city (`citySize = 1`, so `gridSize = 50`) with 5 skyscrapers requested (style 1):
nothing placed and an all-free 50 x 50 grid. -/
def smallCity : CityScene Unit :=
  initGrid newScene 1 5 1 () () () () () () () 5 0 0


/-- The scene as `init` has it just before `generateFuturisticLayout` for a small
city in the mixed style (style 3) with 2 skyscrapers, 2 towers and 3 offices
requested: nothing placed and an all-free 50 x 50 grid. -/
def mixedCity : CityScene Unit :=
  initGrid newScene 1 7 3 () () () () () () () 2 2 3

/-- A scene state on the 50 x 50 grid with one road cell, no building, one tree,
one lamp and the car at `(20, 25)`. -/
def parkScene : CityScene Unit :=
  { smallCity with roadCells := [(5, 25)], treeCells := [(23, 23)], streetLamps := [(8, 27)],
                   carPosition := (20, 25) }

/-- A linear congruential generator in the style of the C library's `rand()`:
the state is the seed, and a draw returns bits 16 to 30 of the next state. -/
def lcgRand : RandModel Nat :=
  { srand := fun seed => seed,
    rand := fun r => ((r * 1103515245 + 12345) % 2147483648 / 65536 % 32768,
                      (r * 1103515245 + 12345) % 2147483648) }

/-! ## Properties of `bresenhamLine` -/

theorem cAbs_nonneg (a : Int) : 0 ≤ cAbs a := by
  unfold cAbs; split <;> omega

theorem cAbs_eq_natAbs (a : Int) : cAbs a = (a.natAbs : Int) := by
  unfold cAbs; split <;> omega

/-- More fuel does not change a result already reached. -/
theorem bresenhamLoop_mono (x1 y1 dx dy sx sy : Int) (k : Nat) :
    ∀ (fuel : Nat) (x y err : Int) (pts : List (Int × Int)),
      bresenhamLoop x1 y1 dx dy sx sy fuel x y err = some pts →
      bresenhamLoop x1 y1 dx dy sx sy (fuel + k) x y err = some pts := by
  intro fuel
  induction fuel with
  | zero => intro x y err pts h; simp [bresenhamLoop] at h
  | succ n ih =>
    intro x y err pts h
    rw [Nat.succ_add]
    simp only [bresenhamLoop] at h ⊢
    by_cases hxy : x = x1 ∧ y = y1
    · rw [if_pos hxy] at h ⊢; exact h
    · rw [if_neg hxy] at h ⊢
      simp only [Option.map_eq_some'] at h ⊢
      obtain ⟨rest, hrest, hpts⟩ := h
      exact ⟨rest, ih _ _ _ _ hrest, hpts⟩

/-- Shape of any finished run of the loop: it starts at the current cell, its
last cell is the destination, no earlier cell is the destination, and
consecutive cells are 8-connected. -/
theorem bresenhamLoop_shape (x1 y1 dx dy sx sy : Int)
    (hsx : sx = 1 ∨ sx = -1) (hsy : sy = 1 ∨ sy = -1) :
    ∀ (fuel : Nat) (x y err : Int) (pts : List (Int × Int)),
      bresenhamLoop x1 y1 dx dy sx sy fuel x y err = some pts →
      pts.head? = some (x, y) ∧
      (∃ front, pts = front ++ [(x1, y1)] ∧ ∀ p ∈ front, p ≠ (x1, y1)) ∧
      pts.Chain' Adjacent8 := by
  intro fuel
  induction fuel with
  | zero => intro x y err pts h; simp [bresenhamLoop] at h
  | succ n ih =>
    intro x y err pts h
    simp only [bresenhamLoop] at h
    by_cases hxy : x = x1 ∧ y = y1
    · rw [if_pos hxy] at h
      obtain ⟨rfl, rfl⟩ := hxy
      cases h
      exact ⟨rfl, ⟨[], by simp⟩, by simp⟩
    · rw [if_neg hxy] at h
      simp only [Option.map_eq_some'] at h
      obtain ⟨rest, hrest, rfl⟩ := h
      obtain ⟨hhead, ⟨front, hfront, hne⟩, hchain⟩ := ih _ _ _ _ hrest
      refine ⟨rfl, ⟨(x, y) :: front, by simp [hfront], ?_⟩, ?_⟩
      · intro p hp
        rcases List.mem_cons.1 hp with rfl | hp
        · intro hEq
          apply hxy
          simpa using hEq
        · exact hne p hp
      · rw [List.chain'_cons']
        refine ⟨?_, hchain⟩
        intro q hq
        rw [hhead] at hq
        cases Option.some.inj (Option.mem_def.1 hq)
        unfold Adjacent8
        constructor
        · dsimp only
          split <;> rw [abs_le] <;> omega
        · dsimp only
          split <;> rw [abs_le] <;> omega

/-- The loop reaches its `break`.  After `a` steps in x and `b` steps in y the
error term is `(b+1)*dx - (a+1)*ady`; the x coordinate is never stepped past
`dx` steps nor the y coordinate past `ady` steps, and every iteration steps at
least one of them, so `dx - a + (ady - b) + 1` iterations are enough. -/
theorem bresenhamLoop_terminates (x0 y0 dx ady sx sy : Int) (hdx : 0 ≤ dx) (hady : 0 ≤ ady) :
    ∀ (fuel : Nat) (x y err a b : Int),
      x = x0 + sx * a → y = y0 + sy * b → err = (b + 1) * dx - (a + 1) * ady →
      0 ≤ a → a ≤ dx → 0 ≤ b → b ≤ ady → (dx - a) + (ady - b) < fuel →
      ∃ pts, bresenhamLoop (x0 + sx * dx) (y0 + sy * ady) dx (-ady) sx sy fuel x y err
        = some pts := by
  intro fuel
  induction fuel with
  | zero => intro x y err a b _ _ _ h0 h1 h2 h3 hf; omega
  | succ n ih =>
    intro x y err a b hx hy herr ha0 ha hb0 hb hf
    simp only [bresenhamLoop]
    by_cases hxy : x = x0 + sx * dx ∧ y = y0 + sy * ady
    · rw [if_pos hxy]; exact ⟨_, rfl⟩
    · rw [if_neg hxy]
      have hnot : ¬ (a = dx ∧ b = ady) := by
        rintro ⟨rfl, rfl⟩; exact hxy ⟨hx, hy⟩
      -- the x coordinate is not stepped once it has arrived
      have hxstep : 2 * err ≥ -ady → a < dx := by
        intro hge
        by_contra hcon
        have hadx : a = dx := by omega
        have hblt : b + 1 ≤ ady := by omega
        have hprod : 0 ≤ (ady - (b + 1)) * dx := mul_nonneg (by omega) hdx
        subst hadx
        nlinarith
      -- nor is the y coordinate
      have hystep : 2 * err ≤ dx → b < ady := by
        intro hle
        by_contra hcon
        have hbdy : b = ady := by omega
        have halt : a + 1 ≤ dx := by omega
        have hprod : 0 ≤ (dx - (a + 1)) * ady := mul_nonneg (by omega) hady
        subst hbdy
        nlinarith
      by_cases h1 : 2 * err ≥ -ady <;> by_cases h2 : 2 * err ≤ dx
      · have := hxstep h1
        have := hystep h2
        obtain ⟨pts, hpts⟩ := ih (x + sx) (y + sy) (err + -ady + dx) (a + 1) (b + 1)
          (by rw [hx]; ring) (by rw [hy]; ring) (by rw [herr]; ring)
          (by omega) (by omega) (by omega) (by omega) (by omega)
        exact ⟨(x, y) :: pts, by simp only [if_pos h1, if_pos h2, hpts, Option.map_some']⟩
      · have := hxstep h1
        obtain ⟨pts, hpts⟩ := ih (x + sx) y (err + -ady) (a + 1) b
          (by rw [hx]; ring) hy (by rw [herr]; ring)
          (by omega) (by omega) (by omega) (by omega) (by omega)
        exact ⟨(x, y) :: pts, by simp only [if_pos h1, if_neg h2, hpts, Option.map_some']⟩
      · have := hystep h2
        obtain ⟨pts, hpts⟩ := ih x (y + sy) (err + dx) a (b + 1)
          hx (by rw [hy]; ring) (by rw [herr]; ring)
          (by omega) (by omega) (by omega) (by omega) (by omega)
        exact ⟨(x, y) :: pts, by simp only [if_neg h1, if_pos h2, hpts, Option.map_some']⟩
      · exfalso; omega

/-- With `bresenhamFuel` iterations or more the loop of `bresenhamLine` finishes,
and its result is `bresenhamLine`. -/
theorem bresenhamRun_of_le (x0 y0 x1 y1 : Int) (fuel : Nat)
    (hfuel : bresenhamFuel x0 y0 x1 y1 ≤ fuel) :
    bresenhamRun fuel x0 y0 x1 y1 = some (bresenhamLine x0 y0 x1 y1) := by
  have hx1 : x1 = x0 + (if x0 < x1 then (1 : Int) else -1) * cAbs (x1 - x0) := by
    unfold cAbs; split <;> split <;> omega
  have hy1 : y1 = y0 + (if y0 < y1 then (1 : Int) else -1) * cAbs (y1 - y0) := by
    unfold cAbs; split <;> split <;> omega
  obtain ⟨pts, hpts⟩ := bresenhamLoop_terminates x0 y0 (cAbs (x1 - x0)) (cAbs (y1 - y0))
    (if x0 < x1 then (1 : Int) else -1) (if y0 < y1 then (1 : Int) else -1)
    (cAbs_nonneg _) (cAbs_nonneg _) (bresenhamFuel x0 y0 x1 y1)
    x0 y0 (cAbs (x1 - x0) + -cAbs (y1 - y0)) 0 0 (by ring) (by ring) (by ring)
    le_rfl (cAbs_nonneg _) le_rfl (cAbs_nonneg _)
    (by unfold bresenhamFuel; rw [cAbs_eq_natAbs, cAbs_eq_natAbs]; omega)
  rw [← hx1, ← hy1] at hpts
  have hcanon : bresenhamRun (bresenhamFuel x0 y0 x1 y1) x0 y0 x1 y1 = some pts := hpts
  have hline : bresenhamLine x0 y0 x1 y1 = pts := by
    unfold bresenhamLine; rw [hcanon]; rfl
  obtain ⟨k, rfl⟩ := Nat.exists_eq_add_of_le hfuel
  rw [hline]
  exact bresenhamLoop_mono _ _ _ _ _ _ k _ _ _ _ _ hpts

/-- The facts about the output of `bresenhamLine` used below. -/
theorem bresenhamLine_shape (x0 y0 x1 y1 : Int) :
    (bresenhamLine x0 y0 x1 y1).head? = some (x0, y0) ∧
    (∃ front, bresenhamLine x0 y0 x1 y1 = front ++ [(x1, y1)] ∧ ∀ p ∈ front, p ≠ (x1, y1)) ∧
    (bresenhamLine x0 y0 x1 y1).Chain' Adjacent8 := by
  have hrun := bresenhamRun_of_le x0 y0 x1 y1 _ le_rfl
  exact bresenhamLoop_shape x1 y1 _ _ _ _ (by split <;> simp) (by split <;> simp) _ _ _ _ _ hrun

/-- C1: for all integer endpoints the loop of `bresenhamLine` finishes and the
output is non-empty, starts at `(x0,y0)`, ends at `(x1,y1)`, and every two
consecutive cells differ by at most 1 in x and at most 1 in y. -/
theorem bresenhamLine_endpoints_connected (x0 y0 x1 y1 : Int) :
    bresenhamRun (bresenhamFuel x0 y0 x1 y1) x0 y0 x1 y1 = some (bresenhamLine x0 y0 x1 y1) ∧
    bresenhamLine x0 y0 x1 y1 ≠ [] ∧
    (bresenhamLine x0 y0 x1 y1).head? = some (x0, y0) ∧
    (bresenhamLine x0 y0 x1 y1).getLast? = some (x1, y1) ∧
    (bresenhamLine x0 y0 x1 y1).Chain' (fun p q => |q.1 - p.1| ≤ 1 ∧ |q.2 - p.2| ≤ 1) := by
  obtain ⟨hhead, ⟨front, hfront, _⟩, hchain⟩ := bresenhamLine_shape x0 y0 x1 y1
  refine ⟨bresenhamRun_of_le x0 y0 x1 y1 _ le_rfl, ?_, hhead, ?_, hchain⟩
  · rw [hfront]; simp
  · rw [hfront]; simp

/-- C2: for all integer endpoints the loop of `bresenhamLine` terminates (every
fuel from `bresenhamFuel` on gives the same finite output), and it stops exactly
at the destination: `(x1,y1)` is the last cell, no earlier cell equals it, and it
occurs exactly once. -/
theorem bresenhamLine_terminates_at_destination (x0 y0 x1 y1 : Int) :
    (∀ fuel, bresenhamFuel x0 y0 x1 y1 ≤ fuel →
      bresenhamRun fuel x0 y0 x1 y1 = some (bresenhamLine x0 y0 x1 y1)) ∧
    (bresenhamLine x0 y0 x1 y1).getLast? = some (x1, y1) ∧
    (∀ p ∈ (bresenhamLine x0 y0 x1 y1).dropLast, p ≠ (x1, y1)) ∧
    (bresenhamLine x0 y0 x1 y1).count (x1, y1) = 1 := by
  obtain ⟨_, ⟨front, hfront, hne⟩, _⟩ := bresenhamLine_shape x0 y0 x1 y1
  refine ⟨fun fuel h => bresenhamRun_of_le x0 y0 x1 y1 fuel h, ?_, ?_, ?_⟩
  · rw [hfront]; simp
  · rw [hfront, List.dropLast_concat]; exact hne
  · rw [hfront, List.count_append, List.count_eq_zero_of_not_mem]
    · simp
    · intro hmem; exact hne _ hmem rfl

/-! ## The occupancy grid -/

theorem mem_intRange (lo hi i : Int) : i ∈ intRange lo hi ↔ lo ≤ i ∧ i ≤ hi := by
  unfold intRange
  simp only [List.mem_map, List.mem_range]
  constructor
  · rintro ⟨k, hk, rfl⟩; omega
  · intro h
    exact ⟨(i - lo).toNat, by omega, by omega⟩

theorem orGrid_congr (P Q : Nat → Nat → Bool) (h : ∀ a b, P a b = Q a b) (g : List (List Bool)) :
    orGrid P g = orGrid Q g := by
  have : P = Q := funext fun a => funext fun b => h a b
  rw [this]

theorem orGrid_false (g : List (List Bool)) : orGrid (fun _ _ => false) g = g := by
  unfold orGrid
  rw [List.mapIdx_eq_iff]
  intro a
  cases hrow : g[a]? with
  | none => rfl
  | some row =>
    simp only [Option.map_some', Bool.or_false]
    congr 1
    symm
    rw [List.mapIdx_eq_iff]
    intro b
    cases row[b]? <;> rfl

theorem orGrid_orGrid (P Q : Nat → Nat → Bool) (g : List (List Bool)) :
    orGrid Q (orGrid P g) = orGrid (fun a b => P a b || Q a b) g := by
  unfold orGrid
  rw [List.mapIdx_mapIdx]
  congr 1
  funext a row
  simp only [Function.comp]
  rw [List.mapIdx_mapIdx]
  congr 1
  funext b v
  simp [Function.comp, Bool.or_assoc]

theorem getElem?_orGrid (P : Nat → Nat → Bool) (g : List (List Bool)) (a : Nat) :
    (orGrid P g)[a]? = (g[a]?).map (fun row => row.mapIdx (fun b v => v || P a b)) := by
  unfold orGrid
  rw [List.getElem?_mapIdx]

theorem length_orGrid (P : Nat → Nat → Bool) (g : List (List Bool)) :
    (orGrid P g).length = g.length := by
  unfold orGrid
  rw [List.length_mapIdx]

theorem row_length_orGrid (P : Nat → Nat → Bool) (g : List (List Bool)) (n : Nat)
    (h : ∀ row ∈ g, row.length = n) : ∀ row ∈ orGrid P g, row.length = n := by
  intro row hrow
  unfold orGrid at hrow
  rw [List.mem_mapIdx] at hrow
  obtain ⟨a, ha, rfl⟩ := hrow
  rw [List.length_mapIdx]
  exact h _ (List.getElem_mem _)

/-- A write `occupiedGrid[i][j] = true` in closed form. -/
theorem gridSet_eq_orGrid (g : List (List Bool)) (i j : Int) :
    gridSet g i j = orGrid (fun a b => a == i.toNat && b == j.toNat) g := by
  unfold gridSet
  apply List.ext_getElem?
  intro a
  rw [getElem?_orGrid, List.getElem?_set, List.getD_eq_getElem?_getD]
  by_cases hia : i.toNat = a
  · subst hia
    rw [if_pos rfl]
    cases hrow : g[i.toNat]? with
    | none =>
      have : ¬ i.toNat < g.length := by
        intro hlt
        rw [List.getElem?_eq_getElem hlt] at hrow
        cases hrow
      rw [if_neg this]; rfl
    | some row =>
      have : i.toNat < g.length := by
        by_contra hge
        rw [List.getElem?_eq_none (by omega)] at hrow
        cases hrow
      rw [if_pos this]
      simp only [Option.getD_some, Option.map_some', Option.some.injEq]
      apply List.ext_getElem?
      intro b
      rw [List.getElem?_set, List.getElem?_mapIdx]
      by_cases hjb : j.toNat = b
      · subst hjb
        rw [if_pos rfl]
        by_cases hlt : j.toNat < row.length
        · rw [if_pos hlt, List.getElem?_eq_getElem hlt]; simp
        · rw [if_neg hlt, List.getElem?_eq_none (by omega)]; rfl
      · rw [if_neg hjb]
        have : (b == j.toNat) = false := by
          rw [beq_eq_false_iff_ne]; exact fun h => hjb h.symm
        cases row[b]? <;> simp [this]
  · rw [if_neg hia]
    have hne : (a == i.toNat) = false := by
      rw [beq_eq_false_iff_ne]; exact fun h => hia h.symm
    cases hrow : g[a]? with
    | none => rfl
    | some row =>
      simp only [Option.map_some', hne, Bool.false_and, Bool.or_false, Option.some.injEq]
      symm
      rw [List.mapIdx_eq_iff]
      intro b
      cases row[b]? <;> rfl

/-- A loop whose body sets cells to `true` sets the union of what its iterations set. -/
theorem foldl_orGrid {α : Type} (f : List (List Bool) → α → List (List Bool))
    (P : α → Nat → Nat → Bool) (hf : ∀ g x, f g x = orGrid (P x) g) :
    ∀ (l : List α) (g : List (List Bool)),
      l.foldl f g = orGrid (fun a b => l.any (fun x => P x a b)) g := by
  intro l
  induction l with
  | nil => intro g; simp only [List.foldl_nil, List.any_nil]; exact (orGrid_false g).symm
  | cons x l ih =>
    intro g
    rw [List.foldl_cons, ih, hf, orGrid_orGrid]
    apply orGrid_congr
    intro a b
    simp only [List.any_cons]

/-- The grid left by `markGridCells` in closed form. -/
theorem markGridCells_occupiedGrid {F : Type} (s : CityScene F) (x z size : Int) :
    (markGridCells s x z size).occupiedGrid
      = orGrid (markedCells s.gridSize x z size) s.occupiedGrid := by
  unfold markGridCells
  dsimp only
  rw [foldl_orGrid _ (fun i a b =>
      (intRange (z - Int.tdiv size 2) (z + Int.tdiv size 2)).any fun j =>
        decide (i ≥ 0 ∧ i < s.gridSize ∧ j ≥ 0 ∧ j < s.gridSize) && (a == i.toNat && b == j.toNat))]
  · rfl
  · intro g i
    rw [foldl_orGrid _ (fun j a b =>
      decide (i ≥ 0 ∧ i < s.gridSize ∧ j ≥ 0 ∧ j < s.gridSize) && (a == i.toNat && b == j.toNat))]
    intro g j
    by_cases hg : i ≥ 0 ∧ i < s.gridSize ∧ j ≥ 0 ∧ j < s.gridSize
    · rw [if_pos hg, gridSet_eq_orGrid]
      apply orGrid_congr
      intro a b
      simp [hg]
    · rw [if_neg hg]
      conv_lhs => rw [← orGrid_false g]
      apply orGrid_congr
      intro a b
      simp [hg]

/-- Reading a cell after a batch of writes. -/
theorem gridGet_orGrid (P : Nat → Nat → Bool) (g : List (List Bool)) (i j : Int) :
    gridGet (orGrid P g) i j = true ↔
      gridGet g i j = true ∨
        (P i.toNat j.toNat = true ∧ ∃ row, g[i.toNat]? = some row ∧ j.toNat < row.length) := by
  unfold gridGet
  rw [List.getD_eq_getElem?_getD, List.getD_eq_getElem?_getD, List.getD_eq_getElem?_getD,
    List.getD_eq_getElem?_getD, getElem?_orGrid]
  cases hrow : g[i.toNat]? with
  | none => simp
  | some row =>
    simp only [Option.map_some', Option.getD_some, List.getElem?_mapIdx]
    by_cases hlt : j.toNat < row.length
    · rw [List.getElem?_eq_getElem hlt]
      simp [hlt]
    · rw [List.getElem?_eq_none (by omega)]
      simp [hlt]

theorem gridGet_orGrid_of_gridGet (P : Nat → Nat → Bool) (g : List (List Bool)) (i j : Int)
    (h : gridGet g i j = true) : gridGet (orGrid P g) i j = true :=
  (gridGet_orGrid P g i j).2 (Or.inl h)

/-- In a grid of the right shape every cell inside the bounds exists in the vectors. -/
theorem gridShape_exists_row {F : Type} {s : CityScene F} (hs : GridShape s) {i j : Int}
    (hin : InGrid s i j) : ∃ row, s.occupiedGrid[i.toNat]? = some row ∧ j.toNat < row.length := by
  obtain ⟨_, hlen, hrows⟩ := hs
  obtain ⟨hi0, hi, hj0, hj⟩ := hin
  have hlt : i.toNat < s.occupiedGrid.length := by omega
  refine ⟨s.occupiedGrid[i.toNat], List.getElem?_eq_getElem hlt, ?_⟩
  rw [hrows _ (List.getElem_mem _)]
  omega

theorem markedCells_iff (gridSize x z size i j : Int) (hi : 0 ≤ i) (hj : 0 ≤ j) :
    markedCells gridSize x z size i.toNat j.toNat = true ↔
      (0 ≤ i ∧ i < gridSize ∧ 0 ≤ j ∧ j < gridSize) ∧ InSquare x z size i j := by
  unfold markedCells InSquare
  simp only [List.any_eq_true, mem_intRange, Bool.and_eq_true, decide_eq_true_eq, beq_iff_eq]
  constructor
  · rintro ⟨i', ⟨h1, h2⟩, j', ⟨h3, h4⟩, ⟨h5, h6, h7, h8⟩, h9, h10⟩
    have : i = i' := by omega
    have : j = j' := by omega
    subst i' j'
    exact ⟨⟨h5, h6, h7, h8⟩, h1, h2, h3, h4⟩
  · rintro ⟨⟨h5, h6, h7, h8⟩, h1, h2, h3, h4⟩
    exact ⟨i, ⟨h1, h2⟩, j, ⟨h3, h4⟩, ⟨h5, h6, h7, h8⟩, rfl, rfl⟩

theorem markGridCells_gridSize {F : Type} (s : CityScene F) (x z size : Int) :
    (markGridCells s x z size).gridSize = s.gridSize := rfl

theorem markGridCells_gridShape {F : Type} (s : CityScene F) (x z size : Int)
    (hs : GridShape s) : GridShape (markGridCells s x z size) := by
  obtain ⟨h0, hlen, hrows⟩ := hs
  refine ⟨h0, ?_, ?_⟩
  · rw [markGridCells_occupiedGrid, length_orGrid]; exact hlen
  · rw [markGridCells_occupiedGrid]
    exact row_length_orGrid _ _ _ hrows

/-- Cells stay occupied across `markGridCells`. -/
theorem markGridCells_mono {F : Type} (s : CityScene F) (x z size i j : Int)
    (h : Occupied s i j) : Occupied (markGridCells s x z size) i j := by
  unfold Occupied at h ⊢
  rw [markGridCells_occupiedGrid]
  exact gridGet_orGrid_of_gridGet _ _ _ _ h

/-- What `markGridCells` does to the cells of the grid. -/
theorem occupied_markGridCells {F : Type} (s : CityScene F) (x z size i j : Int)
    (hs : GridShape s) (hin : InGrid s i j) :
    Occupied (markGridCells s x z size) i j ↔ Occupied s i j ∨ InSquare x z size i j := by
  unfold Occupied
  rw [markGridCells_occupiedGrid, gridGet_orGrid, markedCells_iff _ _ _ _ _ _ hin.1 hin.2.2.1]
  constructor
  · rintro (h | ⟨⟨_, h⟩, _⟩)
    · exact Or.inl h
    · exact Or.inr h
  · rintro (h | h)
    · exact Or.inl h
    · exact Or.inr ⟨⟨hin, h⟩, gridShape_exists_row hs hin⟩

/-- What `isGridCellFree` computes. -/
theorem isGridCellFree_iff {F : Type} (s : CityScene F) (x z size : Int) :
    isGridCellFree s x z size = true ↔
      ∀ i j, InSquare x z size i j → InGrid s i j ∧ ¬ Occupied s i j := by
  unfold isGridCellFree InSquare InGrid Occupied
  simp only [List.all_eq_true, mem_intRange, Bool.not_eq_true', Bool.or_eq_false_iff,
    decide_eq_false_iff_not, not_lt, ge_iff_le, not_le, Bool.not_eq_true]
  constructor
  · intro h i j ⟨h1, h2, h3, h4⟩
    obtain ⟨⟨⟨⟨a, b⟩, c⟩, d⟩, e⟩ := h i ⟨h1, h2⟩ j ⟨h3, h4⟩
    exact ⟨⟨a, b, c, d⟩, e⟩
  · intro h i ⟨h1, h2⟩ j ⟨h3, h4⟩
    obtain ⟨⟨a, b, c, d⟩, e⟩ := h i j ⟨h1, h2, h3, h4⟩
    exact ⟨⟨⟨⟨a, b⟩, c⟩, d⟩, e⟩

theorem isGridCellFree_eq_false {F : Type} (s : CityScene F) (x z size i j : Int)
    (hsq : InSquare x z size i j) (h : ¬ InGrid s i j ∨ Occupied s i j) :
    isGridCellFree s x z size = false := by
  rw [← Bool.not_eq_true, isGridCellFree_iff]
  intro hall
  obtain ⟨hin, hfree⟩ := hall i j hsq
  rcases h with h | h
  · exact h hin
  · exact hfree h

/-- C3: `isGridCellFree(x,z,size)` is true exactly when every cell `(i,j)` with
`x-size/2 ≤ i ≤ x+size/2` and `z-size/2 ≤ j ≤ z+size/2` lies inside
`[0,gridSize) × [0,gridSize)` and is unoccupied; with size 1 this is the single
cell `(x,z)`.  The method only returns the flag: the grid is not an output. -/
theorem isGridCellFree_spec {F : Type} (s : CityScene F) (x z size : Int) :
    (isGridCellFree s x z size = true ↔
      ∀ i j, (x - Int.tdiv size 2 ≤ i ∧ i ≤ x + Int.tdiv size 2 ∧
              z - Int.tdiv size 2 ≤ j ∧ j ≤ z + Int.tdiv size 2) →
        (0 ≤ i ∧ i < s.gridSize ∧ 0 ≤ j ∧ j < s.gridSize) ∧
          gridGet s.occupiedGrid i j = false) ∧
    (isGridCellFree s x z 1 = true ↔
      (0 ≤ x ∧ x < s.gridSize ∧ 0 ≤ z ∧ z < s.gridSize) ∧
        gridGet s.occupiedGrid x z = false) := by
  have key := isGridCellFree_iff s x z
  unfold InSquare InGrid Occupied at key
  simp only [Bool.not_eq_true] at key
  refine ⟨key size, ?_⟩
  rw [key 1]
  have h1 : Int.tdiv 1 2 = 0 := by decide
  rw [h1]
  constructor
  · intro h; exact h x z ⟨by omega, by omega, by omega, by omega⟩
  · intro h i j ⟨a, b, c, d⟩
    have : i = x := by omega
    have : j = z := by omega
    subst i j
    exact h

/-- C4: on a grid of shape `gridSize × gridSize`, after `markGridCells(x,z,size)` a
cell of the grid is occupied exactly when it was occupied before or lies in the
square `[x-size/2, x+size/2] × [z-size/2, z+size/2]`; the call always returns (cells
of the square outside the grid are skipped), and the grid keeps its size and shape. -/
theorem markGridCells_spec {F : Type} (s : CityScene F) (x z size : Int) (hs : GridShape s) :
    (∀ i j, (0 ≤ i ∧ i < s.gridSize ∧ 0 ≤ j ∧ j < s.gridSize) →
      (gridGet (markGridCells s x z size).occupiedGrid i j = true ↔
        gridGet s.occupiedGrid i j = true ∨
          (x - Int.tdiv size 2 ≤ i ∧ i ≤ x + Int.tdiv size 2 ∧
           z - Int.tdiv size 2 ≤ j ∧ j ≤ z + Int.tdiv size 2))) ∧
    (markGridCells s x z size).gridSize = s.gridSize ∧
    (markGridCells s x z size).occupiedGrid.length = s.gridSize.toNat ∧
    (∀ row ∈ (markGridCells s x z size).occupiedGrid, row.length = s.gridSize.toNat) := by
  have hshape := markGridCells_gridShape s x z size hs
  refine ⟨fun i j hin => occupied_markGridCells s x z size i j hs hin, rfl, hshape.2.1, hshape.2.2⟩

/-- C5: on a grid of shape `gridSize × gridSize` and for `size ≥ 1`, after
`markGridCells(x,z,size)` the query `isGridCellFree(x,z,size)` is false, and so is
`isGridCellFree(x2,z2,size2)` for every region whose square contains a cell that the
call marked (a cell of the marked square inside the grid). -/
theorem isGridCellFree_after_markGridCells {F : Type} (s : CityScene F) (x z size : Int)
    (hs : GridShape s) (hsize : 1 ≤ size) :
    isGridCellFree (markGridCells s x z size) x z size = false ∧
    ∀ x2 z2 size2 i j,
      (x - Int.tdiv size 2 ≤ i ∧ i ≤ x + Int.tdiv size 2 ∧
        z - Int.tdiv size 2 ≤ j ∧ j ≤ z + Int.tdiv size 2) →
      (0 ≤ i ∧ i < s.gridSize ∧ 0 ≤ j ∧ j < s.gridSize) →
      (x2 - Int.tdiv size2 2 ≤ i ∧ i ≤ x2 + Int.tdiv size2 2 ∧
        z2 - Int.tdiv size2 2 ≤ j ∧ j ≤ z2 + Int.tdiv size2 2) →
      isGridCellFree (markGridCells s x z size) x2 z2 size2 = false := by
  have hoverlap : ∀ x2 z2 size2 i j, InSquare x z size i j → InGrid s i j →
      InSquare x2 z2 size2 i j →
      isGridCellFree (markGridCells s x z size) x2 z2 size2 = false := by
    intro x2 z2 size2 i j hsq hin hsq2
    exact isGridCellFree_eq_false _ _ _ _ i j hsq2
      (Or.inr ((occupied_markGridCells s x z size i j hs hin).2 (Or.inr hsq)))
  refine ⟨?_, hoverlap⟩
  have hhalf : 0 ≤ Int.tdiv size 2 := Int.tdiv_nonneg (by omega) (by omega)
  have hcentre : InSquare x z size x z := by
    unfold InSquare; omega
  by_cases hin : InGrid s x z
  · exact hoverlap x z size x z hcentre hin hcentre
  · exact isGridCellFree_eq_false _ _ _ _ x z hcentre (Or.inl hin)

/-- C6: `markGridCells` is idempotent: marking the same region twice leaves exactly
the scene (and occupancy grid) that marking it once leaves. -/
theorem markGridCells_idempotent {F : Type} (s : CityScene F) (x z size : Int) :
    markGridCells (markGridCells s x z size) x z size = markGridCells s x z size := by
  have hgrid : (markGridCells (markGridCells s x z size) x z size).occupiedGrid
      = (markGridCells s x z size).occupiedGrid := by
    rw [markGridCells_occupiedGrid (markGridCells s x z size), markGridCells_gridSize,
      markGridCells_occupiedGrid, orGrid_orGrid]
    apply orGrid_congr
    intro a b
    exact Bool.or_self _
  calc markGridCells (markGridCells s x z size) x z size
      = { markGridCells s x z size with
          occupiedGrid := (markGridCells (markGridCells s x z size) x z size).occupiedGrid } := rfl
    _ = markGridCells s x z size := by rw [hgrid]

/-! ## Monotonic reservation -/

theorem gridLe_refl {F : Type} (s : CityScene F) : GridLe s s := fun _ _ h => h

theorem gridLe_trans {F : Type} {s t u : CityScene F} (h1 : GridLe s t) (h2 : GridLe t u) :
    GridLe s u := fun i j h => h2 i j (h1 i j h)

theorem gridLe_of_grid_eq {F : Type} {s t : CityScene F}
    (h : t.occupiedGrid = s.occupiedGrid) : GridLe s t := by
  intro i j hocc
  unfold Occupied at hocc ⊢
  rw [h]; exact hocc

/-- A property kept by the body of a loop is kept by the loop. -/
theorem foldl_invariant {σ α : Type} (Inv : σ → Prop) (f : σ → α → σ)
    (hf : ∀ st x, Inv st → Inv (f st x)) : ∀ (l : List α) (st : σ), Inv st → Inv (l.foldl f st) := by
  intro l
  induction l with
  | nil => intro st h; exact h
  | cons x l ih => intro st h; exact ih _ (hf st x h)

theorem markGridCells_gridLe {F : Type} (s : CityScene F) (x z size : Int) :
    GridLe s (markGridCells s x z size) :=
  fun i j h => markGridCells_mono s x z size i j h

theorem layRoads_gridLe {F : Type} (s : CityScene F) : GridLe s (layRoads s) := by
  unfold layRoads
  dsimp only
  apply foldl_invariant (fun t => GridLe s t)
  · intro st cell h
    exact gridLe_trans h (markGridCells_gridLe _ _ _ _)
  · exact gridLe_of_grid_eq rfl

theorem placeBuildingStep_gridLe {F R : Type} (ops : FloatOps F) (rm : RandModel R)
    (st : CityScene F × R) (i : Int) : GridLe st.1 (placeBuildingStep ops rm st i).1 := by
  unfold placeBuildingStep
  rcases hfind : findFreeCell rm st.1 5 5 100 st.2 with ⟨_ | ⟨x, z⟩, r⟩
  · exact gridLe_refl _
  · intro a b h
    exact markGridCells_mono st.1 x z 5 a b h

theorem placeBuildingsRandomly_gridLe {F R : Type} (ops : FloatOps F) (rm : RandModel R)
    (s : CityScene F) (r : R) : GridLe s (placeBuildingsRandomly ops rm s r).1 := by
  unfold placeBuildingsRandomly
  dsimp only
  apply foldl_invariant (fun st : CityScene F × R => GridLe s st.1)
  · intro st i h
    exact gridLe_trans h (placeBuildingStep_gridLe ops rm st i)
  · exact gridLe_of_grid_eq rfl

theorem placeTreeStep_gridLe {F R : Type} (rm : RandModel R)
    (st : CityScene F × R) (i : Int) : GridLe st.1 (placeTreeStep rm st i).1 := by
  unfold placeTreeStep
  rcases hfind : findFreeCell rm st.1 3 3 50 st.2 with ⟨_ | ⟨x, z⟩, r⟩
  · exact gridLe_refl _
  · dsimp only
    intro a b h
    exact markGridCells_mono { st.1 with treeCells := st.1.treeCells ++ [(x, z)] } x z 3 a b h

theorem placeTrees_gridLe {F R : Type} (rm : RandModel R)
    (s : CityScene F) (r : R) : GridLe s (placeTrees rm s r).1 := by
  unfold placeTrees
  dsimp only
  apply foldl_invariant (fun st : CityScene F × R => GridLe s st.1)
  · intro st i h
    exact gridLe_trans h (placeTreeStep_gridLe rm st i)
  · exact gridLe_of_grid_eq rfl

theorem placeLampAt_gridLe {F : Type} (s : CityScene F) (inGrid : Bool) (x z : Int) :
    GridLe s (placeLampAt s inGrid x z) := by
  unfold placeLampAt
  split
  · intro a b h
    exact markGridCells_mono { s with streetLamps := s.streetLamps ++ [(x, z)] } x z 1 a b h
  · exact gridLe_refl _

theorem placeStreetLamps_gridLe {F : Type} (s : CityScene F) :
    GridLe s (placeStreetLamps s) := by
  unfold placeStreetLamps
  dsimp only
  apply foldl_invariant (fun t => GridLe s t)
  · intro st j h
    split
    · exact gridLe_trans h (gridLe_trans (placeLampAt_gridLe _ _ _ _) (placeLampAt_gridLe _ _ _ _))
    · exact h
  · apply foldl_invariant (fun t => GridLe s t)
    · intro st i h
      split
      · exact gridLe_trans h (gridLe_trans (placeLampAt_gridLe _ _ _ _) (placeLampAt_gridLe _ _ _ _))
      · exact h
    · exact gridLe_of_grid_eq rfl

theorem placeRandomCar_gridLe {F : Type} (s : CityScene F) : GridLe s (placeRandomCar s) :=
  gridLe_of_grid_eq rfl

/-- The grid left by the pond loops in closed form. -/
theorem markPond_occupiedGrid {F : Type} (ops : FloatOps F) (s : CityScene F) :
    (markPond ops s).occupiedGrid
      = orGrid (pondCells s.gridSize (Int.tdiv s.gridSize 2 + 8) (Int.tdiv s.gridSize 2 - 8)
          (ops.toInt s.config.pondRadius)) s.occupiedGrid := by
  unfold markPond
  dsimp only
  rw [foldl_orGrid _ (fun i a b =>
      (intRange (max 0 (Int.tdiv s.gridSize 2 - 8 - ops.toInt s.config.pondRadius))
        (min (s.gridSize - 1) (Int.tdiv s.gridSize 2 - 8 + ops.toInt s.config.pondRadius))).any
        fun j =>
        decide ((i - (Int.tdiv s.gridSize 2 + 8)) * (i - (Int.tdiv s.gridSize 2 + 8))
            + (j - (Int.tdiv s.gridSize 2 - 8)) * (j - (Int.tdiv s.gridSize 2 - 8))
              ≤ ops.toInt s.config.pondRadius * ops.toInt s.config.pondRadius ∧
          (i ≥ 0 ∧ i < s.gridSize ∧ j ≥ 0 ∧ j < s.gridSize)) && (a == i.toNat && b == j.toNat))]
  · rfl
  · intro g i
    rw [foldl_orGrid _ (fun j a b =>
        decide ((i - (Int.tdiv s.gridSize 2 + 8)) * (i - (Int.tdiv s.gridSize 2 + 8))
            + (j - (Int.tdiv s.gridSize 2 - 8)) * (j - (Int.tdiv s.gridSize 2 - 8))
              ≤ ops.toInt s.config.pondRadius * ops.toInt s.config.pondRadius ∧
          (i ≥ 0 ∧ i < s.gridSize ∧ j ≥ 0 ∧ j < s.gridSize)) && (a == i.toNat && b == j.toNat))]
    intro g j
    by_cases hd : (i - (Int.tdiv s.gridSize 2 + 8)) * (i - (Int.tdiv s.gridSize 2 + 8))
            + (j - (Int.tdiv s.gridSize 2 - 8)) * (j - (Int.tdiv s.gridSize 2 - 8))
              ≤ ops.toInt s.config.pondRadius * ops.toInt s.config.pondRadius
    · rw [if_pos hd]
      by_cases hg : i ≥ 0 ∧ i < s.gridSize ∧ j ≥ 0 ∧ j < s.gridSize
      · rw [if_pos hg, gridSet_eq_orGrid]
        apply orGrid_congr
        intro a b
        simp [hg, hd]
      · rw [if_neg hg]
        conv_lhs => rw [← orGrid_false g]
        apply orGrid_congr
        intro a b
        simp [hg]
    · rw [if_neg hd]
      conv_lhs => rw [← orGrid_false g]
      apply orGrid_congr
      intro a b
      simp [hd]

theorem markPond_gridLe {F : Type} (ops : FloatOps F) (s : CityScene F) :
    GridLe s (markPond ops s) := by
  intro i j h
  unfold Occupied at h ⊢
  rw [markPond_occupiedGrid]
  exact gridGet_orGrid_of_gridGet _ _ _ _ h

/-- C7: reservation is monotonic over a whole generation run.  Each step of
`generateFuturisticLayout` (roads, buildings, trees, lamps, car, pond), run from any
scene, leaves every occupied cell occupied; so in the run itself each stage is
below the next, and every cell occupied at any stage is occupied in the scene
that `generateFuturisticLayout` returns. -/
theorem generateFuturisticLayout_monotone {F R : Type} (ops : FloatOps F) (rm : RandModel R)
    (s : CityScene F) (r : R) :
    ((∀ t : CityScene F, GridLe t (layRoads t)) ∧
      (∀ (t : CityScene F) (q : R), GridLe t (placeBuildingsRandomly ops rm t q).1) ∧
      (∀ (t : CityScene F) (q : R), GridLe t (placeTrees rm t q).1) ∧
      (∀ t : CityScene F, GridLe t (placeStreetLamps t)) ∧
      (∀ t : CityScene F, GridLe t (placeRandomCar t)) ∧
      (∀ t : CityScene F, GridLe t (markPond ops t))) ∧
    (layoutStages ops rm s r).getLast? = some (generateFuturisticLayout ops rm s r).1 ∧
    (layoutStages ops rm s r).Chain' GridLe ∧
    (∀ t ∈ layoutStages ops rm s r, ∀ i j, gridGet t.occupiedGrid i j = true →
      gridGet (generateFuturisticLayout ops rm s r).1.occupiedGrid i j = true) := by
  have h1 := layRoads_gridLe s
  have h2 := placeBuildingsRandomly_gridLe ops rm (layRoads s) r
  have h3 := placeTrees_gridLe rm (placeBuildingsRandomly ops rm (layRoads s) r).1
    (placeBuildingsRandomly ops rm (layRoads s) r).2
  have h4 := placeStreetLamps_gridLe (placeTrees rm (placeBuildingsRandomly ops rm (layRoads s) r).1
    (placeBuildingsRandomly ops rm (layRoads s) r).2).1
  have h5 := placeRandomCar_gridLe (placeStreetLamps (placeTrees rm
    (placeBuildingsRandomly ops rm (layRoads s) r).1
    (placeBuildingsRandomly ops rm (layRoads s) r).2).1)
  have h6 := markPond_gridLe ops (placeRandomCar (placeStreetLamps (placeTrees rm
    (placeBuildingsRandomly ops rm (layRoads s) r).1
    (placeBuildingsRandomly ops rm (layRoads s) r).2).1))
  refine ⟨⟨layRoads_gridLe, placeBuildingsRandomly_gridLe ops rm, placeTrees_gridLe rm,
    placeStreetLamps_gridLe, placeRandomCar_gridLe, markPond_gridLe ops⟩, rfl, ?_, ?_⟩
  · unfold layoutStages
    dsimp only
    simp only [List.chain'_cons, List.chain'_singleton, and_true]
    exact ⟨h1, h2, h3, h4, h5, h6⟩
  · intro t ht
    unfold layoutStages at ht
    dsimp only at ht
    simp only [List.mem_cons, List.mem_singleton, List.not_mem_nil, or_false] at ht
    have h56 := gridLe_trans h5 h6
    have h46 := gridLe_trans h4 h56
    have h36 := gridLe_trans h3 h46
    have h26 := gridLe_trans h2 h36
    have h16 := gridLe_trans h1 h26
    rcases ht with rfl | rfl | rfl | rfl | rfl | rfl | rfl
    · exact h16
    · exact h26
    · exact h36
    · exact h46
    · exact h56
    · exact h6
    · exact gridLe_refl _

/-! ## What the steps of the layout leave alone -/

theorem keeps_refl {F : Type} (s : CityScene F) : Keeps s s := ⟨rfl, rfl, rfl, id⟩

theorem keeps_trans {F : Type} {s t u : CityScene F} (h1 : Keeps s t) (h2 : Keeps t u) :
    Keeps s u :=
  ⟨h2.1.trans h1.1, h2.2.1.trans h1.2.1, h2.2.2.1.trans h1.2.2.1, fun h => h2.2.2.2 (h1.2.2.2 h)⟩

theorem markGridCells_keeps {F : Type} (s : CityScene F) (x z size : Int) :
    Keeps s (markGridCells s x z size) :=
  ⟨rfl, rfl, rfl, markGridCells_gridShape s x z size⟩

theorem placeBuildingStep_keeps {F R : Type} (ops : FloatOps F) (rm : RandModel R)
    (st : CityScene F × R) (i : Int) : Keeps st.1 (placeBuildingStep ops rm st i).1 := by
  unfold placeBuildingStep
  rcases hfind : findFreeCell rm st.1 5 5 100 st.2 with ⟨_ | ⟨x, z⟩, r⟩
  · exact keeps_refl _
  · exact ⟨rfl, rfl, rfl, fun h => markGridCells_gridShape st.1 x z 5 h⟩

theorem placeBuildingsRandomly_keeps {F R : Type} (ops : FloatOps F) (rm : RandModel R)
    (s : CityScene F) (r : R) : Keeps s (placeBuildingsRandomly ops rm s r).1 := by
  unfold placeBuildingsRandomly
  dsimp only
  apply foldl_invariant (fun st : CityScene F × R => Keeps s st.1)
  · intro st i h
    exact keeps_trans h (placeBuildingStep_keeps ops rm st i)
  · exact ⟨rfl, rfl, rfl, id⟩

theorem placeTreeStep_keeps {F R : Type} (rm : RandModel R)
    (st : CityScene F × R) (i : Int) : Keeps st.1 (placeTreeStep rm st i).1 := by
  unfold placeTreeStep
  rcases hfind : findFreeCell rm st.1 3 3 50 st.2 with ⟨_ | ⟨x, z⟩, r⟩
  · exact keeps_refl _
  · exact ⟨rfl, rfl, rfl, fun h =>
      markGridCells_gridShape { st.1 with treeCells := st.1.treeCells ++ [(x, z)] } x z 3 h⟩

theorem placeTrees_keeps {F R : Type} (rm : RandModel R)
    (s : CityScene F) (r : R) : Keeps s (placeTrees rm s r).1 := by
  unfold placeTrees
  dsimp only
  apply foldl_invariant (fun st : CityScene F × R => Keeps s st.1)
  · intro st i h
    exact keeps_trans h (placeTreeStep_keeps rm st i)
  · exact ⟨rfl, rfl, rfl, id⟩

theorem placeLampAt_keeps {F : Type} (s : CityScene F) (inGrid : Bool) (x z : Int) :
    Keeps s (placeLampAt s inGrid x z) := by
  unfold placeLampAt
  split
  · exact ⟨rfl, rfl, rfl, fun h =>
      markGridCells_gridShape { s with streetLamps := s.streetLamps ++ [(x, z)] } x z 1 h⟩
  · exact keeps_refl _

theorem placeStreetLamps_keeps {F : Type} (s : CityScene F) : Keeps s (placeStreetLamps s) := by
  unfold placeStreetLamps
  dsimp only
  apply foldl_invariant (fun t => Keeps s t)
  · intro st j h
    split
    · exact keeps_trans h (keeps_trans (placeLampAt_keeps _ _ _ _) (placeLampAt_keeps _ _ _ _))
    · exact h
  · apply foldl_invariant (fun t => Keeps s t)
    · intro st i h
      split
      · exact keeps_trans h (keeps_trans (placeLampAt_keeps _ _ _ _) (placeLampAt_keeps _ _ _ _))
      · exact h
    · exact ⟨rfl, rfl, rfl, id⟩

theorem placeRandomCar_keeps {F : Type} (s : CityScene F) : Keeps s (placeRandomCar s) :=
  ⟨rfl, rfl, rfl, id⟩

theorem markPond_keeps {F : Type} (ops : FloatOps F) (s : CityScene F) :
    Keeps s (markPond ops s) := by
  refine ⟨rfl, rfl, rfl, ?_⟩
  rintro ⟨h0, hlen, hrows⟩
  refine ⟨h0, ?_, ?_⟩
  · rw [markPond_occupiedGrid, length_orGrid]; exact hlen
  · rw [markPond_occupiedGrid]
    exact row_length_orGrid _ _ _ hrows

/-- The steps after the roads keep the road cells, the grid size and the configuration. -/
theorem afterRoads_keeps {F R : Type} (ops : FloatOps F) (rm : RandModel R)
    (s : CityScene F) (r : R) :
    Keeps (layRoads s) (generateFuturisticLayout ops rm s r).1 := by
  unfold generateFuturisticLayout
  dsimp only
  exact keeps_trans (placeBuildingsRandomly_keeps ops rm _ r)
    (keeps_trans (placeTrees_keeps rm _ _)
      (keeps_trans (placeStreetLamps_keeps _)
        (keeps_trans (placeRandomCar_keeps _) (markPond_keeps ops _))))

theorem afterRoads_gridLe {F R : Type} (ops : FloatOps F) (rm : RandModel R)
    (s : CityScene F) (r : R) :
    GridLe (layRoads s) (generateFuturisticLayout ops rm s r).1 := by
  unfold generateFuturisticLayout
  dsimp only
  exact gridLe_trans (placeBuildingsRandomly_gridLe ops rm _ r)
    (gridLe_trans (placeTrees_gridLe rm _ _)
      (gridLe_trans (placeStreetLamps_gridLe _)
        (gridLe_trans (placeRandomCar_gridLe _) (markPond_gridLe ops _))))

/-! ## Roads -/

theorem inSquare_one (x z i j : Int) : InSquare x z 1 i j ↔ i = x ∧ j = z := by
  unfold InSquare
  have h1 : Int.tdiv 1 2 = 0 := by decide
  rw [h1]
  omega

/-- The marking loop over the road cells (city_scene.cpp:138-140). -/
theorem markRoadCells_spec {F : Type} :
    ∀ (l : List (Int × Int)) (t : CityScene F),
      Keeps t (l.foldl (fun s cell => markGridCells s cell.1 cell.2 1) t) ∧
      (GridShape t → ∀ i j, InGrid t i j →
        (Occupied (l.foldl (fun s cell => markGridCells s cell.1 cell.2 1) t) i j ↔
          Occupied t i j ∨ (i, j) ∈ l)) := by
  intro l
  induction l with
  | nil =>
    intro t
    exact ⟨keeps_refl t, fun _ i j _ => by simp⟩
  | cons c l ih =>
    intro t
    obtain ⟨hk, hocc⟩ := ih (markGridCells t c.1 c.2 1)
    refine ⟨keeps_trans (markGridCells_keeps t c.1 c.2 1) hk, ?_⟩
    intro hs i j hin
    rw [List.foldl_cons, hocc (markGridCells_gridShape t c.1 c.2 1 hs) i j hin,
      occupied_markGridCells t c.1 c.2 1 i j hs hin, inSquare_one, List.mem_cons, or_assoc]
    constructor
    · rintro (h | ⟨h1, h2⟩ | h)
      · exact Or.inl h
      · exact Or.inr (Or.inl (Prod.ext h1 h2))
      · exact Or.inr (Or.inr h)
    · rintro (h | h | h)
      · exact Or.inl h
      · exact Or.inr (Or.inl ⟨congrArg Prod.fst h, congrArg Prod.snd h⟩)
      · exact Or.inr (Or.inr h)

theorem layRoads_roadCells {F : Type} (s : CityScene F) :
    (layRoads s).roadCells = s.roadCells ++
      bresenhamLine 5 (Int.tdiv s.gridSize 2) (s.gridSize - 5) (Int.tdiv s.gridSize 2) ++
      bresenhamLine (Int.tdiv s.gridSize 2) 5 (Int.tdiv s.gridSize 2) (s.gridSize - 5) := by
  unfold layRoads
  dsimp only
  exact (markRoadCells_spec _ _).1.1

theorem layRoads_keeps {F : Type} (s : CityScene F) :
    (layRoads s).gridSize = s.gridSize ∧ (layRoads s).config = s.config ∧
      (GridShape s → GridShape (layRoads s)) := by
  unfold layRoads
  dsimp only
  exact (markRoadCells_spec _ _).1.2

/-- After the road step a cell of the grid is occupied exactly when it was occupied
before or is a road cell. -/
theorem occupied_layRoads {F : Type} (s : CityScene F) (hs : GridShape s) (i j : Int)
    (hin : InGrid s i j) :
    Occupied (layRoads s) i j ↔ Occupied s i j ∨ (i, j) ∈ (layRoads s).roadCells := by
  rw [layRoads_roadCells]
  unfold layRoads
  dsimp only
  exact (markRoadCells_spec _
    { s with roadCells := s.roadCells ++
        bresenhamLine 5 (Int.tdiv s.gridSize 2) (s.gridSize - 5) (Int.tdiv s.gridSize 2) ++
        bresenhamLine (Int.tdiv s.gridSize 2) 5 (Int.tdiv s.gridSize 2) (s.gridSize - 5) }).2
    hs i j hin

set_option maxRecDepth 100000 in
/-- The two roads of the three grid sizes, rasterised. -/
theorem roads_of_gridSize (g : Int) (hg : g = 50 ∨ g = 70 ∨ g = 100) :
    bresenhamLine 5 (Int.tdiv g 2) (g - 5) (Int.tdiv g 2)
      = (intRange 5 (g - 5)).map (fun i => (i, g / 2)) ∧
    bresenhamLine (Int.tdiv g 2) 5 (Int.tdiv g 2) (g - 5)
      = (intRange 5 (g - 5)).map (fun j => (g / 2, j)) ∧
    ((intRange 5 (g - 5)).map (fun i => (i, g / 2)) ++
      (intRange 5 (g - 5)).map (fun j => (g / 2, j))).count (g / 2, g / 2) = 2 := by
  rcases hg with rfl | rfl | rfl
  · exact ⟨by decide, by decide, by decide⟩
  · exact ⟨by decide, by decide, by decide⟩
  · exact ⟨by decide, by decide, by decide⟩

/-- C9: for a scene with no road cells yet, a grid of shape `gridSize × gridSize`
and `gridSize` one of 50, 70, 100, with `c = gridSize/2`, `generateFuturisticLayout`
makes `roadCells` the cells `(5,c),…,(gridSize-5,c)` followed by
`(c,5),…,(c,gridSize-5)` (so `(c,c)` is listed twice); the road step marks exactly
these cells, each stays occupied to the end, and for `gridSize = 50` they are
`(5,25)…(45,25)` and `(25,5)…(25,45)`. -/
theorem generateFuturisticLayout_roads {F R : Type} (ops : FloatOps F) (rm : RandModel R)
    (s : CityScene F) (r : R) (hs : GridShape s) (hfresh : s.roadCells = [])
    (hg : s.gridSize = 50 ∨ s.gridSize = 70 ∨ s.gridSize = 100) :
    (generateFuturisticLayout ops rm s r).1.roadCells
      = (intRange 5 (s.gridSize - 5)).map (fun i => (i, s.gridSize / 2)) ++
        (intRange 5 (s.gridSize - 5)).map (fun j => (s.gridSize / 2, j)) ∧
    (generateFuturisticLayout ops rm s r).1.roadCells.count (s.gridSize / 2, s.gridSize / 2) = 2 ∧
    (∀ i j, (0 ≤ i ∧ i < s.gridSize ∧ 0 ≤ j ∧ j < s.gridSize) →
      (gridGet (layRoads s).occupiedGrid i j = true ↔
        gridGet s.occupiedGrid i j = true ∨
          (i, j) ∈ (generateFuturisticLayout ops rm s r).1.roadCells)) ∧
    (∀ c ∈ (generateFuturisticLayout ops rm s r).1.roadCells,
      (0 ≤ c.1 ∧ c.1 < s.gridSize ∧ 0 ≤ c.2 ∧ c.2 < s.gridSize) ∧
      gridGet (layRoads s).occupiedGrid c.1 c.2 = true ∧
      gridGet (generateFuturisticLayout ops rm s r).1.occupiedGrid c.1 c.2 = true) ∧
    (s.gridSize = 50 →
      (generateFuturisticLayout ops rm s r).1.roadCells
        = (intRange 5 45).map (fun i => (i, (25 : Int))) ++
          (intRange 5 45).map (fun j => ((25 : Int), j))) := by
  obtain ⟨hroad1, hroad2, hcount⟩ := roads_of_gridSize s.gridSize hg
  have hcells : (generateFuturisticLayout ops rm s r).1.roadCells
      = (intRange 5 (s.gridSize - 5)).map (fun i => (i, s.gridSize / 2)) ++
        (intRange 5 (s.gridSize - 5)).map (fun j => (s.gridSize / 2, j)) := by
    rw [(afterRoads_keeps ops rm s r).1, layRoads_roadCells, hfresh, hroad1, hroad2,
      List.nil_append]
  have hsame : (layRoads s).roadCells = (generateFuturisticLayout ops rm s r).1.roadCells :=
    (afterRoads_keeps ops rm s r).1.symm
  have hin : ∀ c ∈ (generateFuturisticLayout ops rm s r).1.roadCells, InGrid s c.1 c.2 := by
    intro c hc
    rw [hcells, List.mem_append, List.mem_map, List.mem_map] at hc
    unfold InGrid
    rcases hc with ⟨i, hi, rfl⟩ | ⟨j, hj, rfl⟩
    · rw [mem_intRange] at hi
      dsimp only
      omega
    · rw [mem_intRange] at hj
      dsimp only
      omega
  have hmarked : ∀ i j, InGrid s i j →
      (Occupied (layRoads s) i j ↔
        Occupied s i j ∨ (i, j) ∈ (generateFuturisticLayout ops rm s r).1.roadCells) := by
    intro i j hij
    rw [← hsame]
    exact occupied_layRoads s hs i j hij
  refine ⟨hcells, ?_, hmarked, ?_, ?_⟩
  · rw [hcells]; exact hcount
  · intro c hc
    have hocc : Occupied (layRoads s) c.1 c.2 := (hmarked c.1 c.2 (hin c hc)).2 (Or.inr hc)
    exact ⟨hin c hc, hocc, afterRoads_gridLe ops rm s r c.1 c.2 hocc⟩
  · intro h50
    rw [hcells, h50]
    rfl

/-! ## Buildings -/

/-- A cell returned by the search loop passed the test `isGridCellFree`. -/
theorem findFreeCell_free {F R : Type} (rm : RandModel R) (s : CityScene F) (lo size : Int) :
    ∀ (n : Nat) (r : R) (x z : Int),
      (findFreeCell rm s lo size n r).1 = some (x, z) → isGridCellFree s x z size = true := by
  intro n
  induction n with
  | zero => intro r x z h; simp [findFreeCell] at h
  | succ n ih =>
    intro r x z h
    simp only [findFreeCell] at h
    split at h
    · rename_i hfree
      simp only [Option.some.injEq, Prod.mk.injEq] at h
      obtain ⟨rfl, rfl⟩ := h
      exact hfree
    · exact ih _ x z h

theorem recordBuilding_occupiedGrid {F : Type} (ops : FloatOps F) (s : CityScene F)
    (x z i : Int) :
    (recordBuilding ops s x z i).occupiedGrid = (markGridCells s x z 5).occupiedGrid := rfl

theorem recordBuilding_buildingCells {F : Type} (ops : FloatOps F) (s : CityScene F)
    (x z i : Int) :
    (recordBuilding ops s x z i).buildingCells = s.buildingCells ++ [(x, z)] := rfl

theorem occupied_recordBuilding {F : Type} (ops : FloatOps F) (s : CityScene F)
    (x z i a b : Int) :
    Occupied (recordBuilding ops s x z i) a b ↔ Occupied (markGridCells s x z 5) a b :=
  Iff.rfl

theorem placeBuildingStep_inv {F R : Type} (ops : FloatOps F) (rm : RandModel R)
    (s0 : CityScene F) (st : CityScene F × R) (i : Int) (h : BuildingsInv s0 st.1) :
    BuildingsInv s0 (placeBuildingStep ops rm st i).1 := by
  unfold placeBuildingStep
  rcases hfind : findFreeCell rm st.1 5 5 100 st.2 with ⟨_ | ⟨x, z⟩, r⟩
  · exact h
  · have hfree : isGridCellFree st.1 x z 5 = true :=
      findFreeCell_free rm st.1 5 5 100 st.2 x z (by rw [hfind])
    rw [isGridCellFree_iff] at hfree
    obtain ⟨hkeep, hle, hshape, hfoot, hpair⟩ := h
    have hmono : GridLe st.1 (recordBuilding ops st.1 x z i) :=
      fun a b hab => markGridCells_mono st.1 x z 5 a b hab
    refine ⟨keeps_trans hkeep ⟨rfl, rfl, rfl, fun hs => markGridCells_gridShape st.1 x z 5 hs⟩,
      gridLe_trans hle hmono, markGridCells_gridShape st.1 x z 5 hshape, ?_, ?_⟩
    · intro c hc a b hsq
      rw [recordBuilding_buildingCells, List.mem_append, List.mem_singleton] at hc
      rcases hc with hc | rfl
      · obtain ⟨hin, hocc, hnot⟩ := hfoot c hc a b hsq
        exact ⟨hin, hmono a b hocc, hnot⟩
      · obtain ⟨hin, hnot⟩ := hfree a b hsq
        refine ⟨hin, ?_, fun h0 => hnot (hle a b h0)⟩
        exact (occupied_markGridCells st.1 x z 5 a b hshape hin).2 (Or.inr hsq)
    · rw [recordBuilding_buildingCells, List.pairwise_append]
      refine ⟨hpair, List.pairwise_singleton _ _, ?_⟩
      intro p hp q hq a b hboth
      rw [List.mem_singleton] at hq
      subst hq
      exact (hfree a b hboth.2).2 (hfoot p hp a b hboth.1).2.1

theorem placeBuildingsRandomly_inv {F R : Type} (ops : FloatOps F) (rm : RandModel R)
    (s : CityScene F) (r : R) (hs : GridShape s) :
    BuildingsInv s (placeBuildingsRandomly ops rm s r).1 := by
  unfold placeBuildingsRandomly
  dsimp only
  apply foldl_invariant (fun st : CityScene F × R => BuildingsInv s st.1)
  · intro st i h
    exact placeBuildingStep_inv ops rm s st i h
  · exact ⟨⟨rfl, rfl, rfl, id⟩, gridLe_of_grid_eq rfl, hs, by simp, by simp⟩

/-- C8: from a grid of shape `gridSize × gridSize`, after the road step and
`placeBuildingsRandomly`, whatever the random draws, the 5x5 footprints (centre ±2
cells) of two distinct placed buildings have no cell in common, and no placed
building's footprint contains a road cell. -/
theorem placeBuildingsRandomly_footprints_disjoint {F R : Type} (ops : FloatOps F)
    (rm : RandModel R) (s : CityScene F) (r : R) (hs : GridShape s) :
    (placeBuildingsRandomly ops rm (layRoads s) r).1.buildingCells.Pairwise
      (fun p q => ∀ i j,
        ¬ ((p.1 - 2 ≤ i ∧ i ≤ p.1 + 2 ∧ p.2 - 2 ≤ j ∧ j ≤ p.2 + 2) ∧
           (q.1 - 2 ≤ i ∧ i ≤ q.1 + 2 ∧ q.2 - 2 ≤ j ∧ j ≤ q.2 + 2))) ∧
    ∀ p ∈ (placeBuildingsRandomly ops rm (layRoads s) r).1.buildingCells,
      ∀ c ∈ (placeBuildingsRandomly ops rm (layRoads s) r).1.roadCells,
        ¬ (p.1 - 2 ≤ c.1 ∧ c.1 ≤ p.1 + 2 ∧ p.2 - 2 ≤ c.2 ∧ c.2 ≤ p.2 + 2) := by
  have h52 : Int.tdiv 5 2 = 2 := by decide
  have hsq : ∀ x z i j : Int,
      InSquare x z 5 i j ↔ (x - 2 ≤ i ∧ i ≤ x + 2 ∧ z - 2 ≤ j ∧ j ≤ z + 2) := by
    intro x z i j
    unfold InSquare
    rw [h52]
  obtain ⟨hgs, _, hshape⟩ := layRoads_keeps s
  obtain ⟨hkeep, _, hshape2, hfoot, hpair⟩ :=
    placeBuildingsRandomly_inv ops rm (layRoads s) r (hshape hs)
  constructor
  · refine hpair.imp ?_
    intro p q hpq i j hboth
    exact hpq i j ⟨(hsq _ _ _ _).2 hboth.1, (hsq _ _ _ _).2 hboth.2⟩
  · intro p hp c hc hin
    obtain ⟨hgrid, _, hnot⟩ := hfoot p hp c.1 c.2 ((hsq _ _ _ _).2 hin)
    apply hnot
    rw [hkeep.1] at hc
    have hgrid0 : InGrid s c.1 c.2 := by
      unfold InGrid at hgrid ⊢
      rw [hkeep.2.1, hgs] at hgrid
      exact hgrid
    exact (occupied_layRoads s hs c.1 c.2 hgrid0).2 (Or.inr hc)

/-- The search loop returns the first of its candidate cells that is free. -/
theorem findFreeCell_eq_find {F R : Type} (rm : RandModel R) (s : CityScene F) (lo size : Int) :
    ∀ (n : Nat) (r : R),
      (findFreeCell rm s lo size n r).1
        = (candidateCells rm s.gridSize lo n r).find? (fun c => isGridCellFree s c.1 c.2 size) := by
  intro n
  induction n with
  | zero => intro r; rfl
  | succ n ih =>
    intro r
    simp only [findFreeCell, candidateCells, List.find?_cons]
    split
    · rename_i hfree
      rw [hfree]
    · rename_i hfree
      rw [Bool.not_eq_true] at hfree
      rw [hfree]
      exact ih _

/-- The search loop draws candidates up to and including the first free one, and
no more than its budget. -/
theorem findFreeCell_draws {F R : Type} (rm : RandModel R) (s : CityScene F) (lo size : Int) :
    ∀ (n : Nat) (r : R),
      (findFreeCell rm s lo size n r).2
        = skipDraws rm
            (2 * min ((candidateCells rm s.gridSize lo n r).findIdx
              (fun c => isGridCellFree s c.1 c.2 size) + 1) n) r := by
  intro n
  induction n with
  | zero => intro r; rfl
  | succ n ih =>
    intro r
    simp only [findFreeCell, candidateCells, List.findIdx_cons]
    split
    · rename_i hfree
      rw [hfree]
      have : 2 * min (0 + 1) (n + 1) = 0 + 1 + 1 := by omega
      simp only [cond_true]
      rw [this]
      rfl
    · rename_i hfree
      rw [Bool.not_eq_true] at hfree
      rw [hfree, ih]
      simp only [cond_false]
      have : ∀ k : Nat, 2 * min (k + 1 + 1) (n + 1) = 2 * min (k + 1) n + 1 + 1 := by
        intro k; omega
      rw [this]
      rfl

theorem length_candidateCells {R : Type} (rm : RandModel R) (gridSize lo : Int) :
    ∀ (n : Nat) (r : R), (candidateCells rm gridSize lo n r).length = n := by
  intro n
  induction n with
  | zero => intro r; rfl
  | succ n ih => intro r; simp only [candidateCells, List.length_cons, ih]

theorem length_intRange_zero (n : Int) : (intRange 0 (n - 1)).length = n.toNat := by
  unfold intRange
  rw [List.length_map, List.length_range]
  congr 1
  omega

theorem placeBuildingStep_length {F R : Type} (ops : FloatOps F) (rm : RandModel R)
    (st : CityScene F × R) (i : Int) :
    (placeBuildingStep ops rm st i).1.buildingCells.length ≤ st.1.buildingCells.length + 1 := by
  unfold placeBuildingStep
  rcases hfind : findFreeCell rm st.1 5 5 100 st.2 with ⟨_ | ⟨x, z⟩, r⟩
  · exact Nat.le_succ _
  · dsimp only
    rw [recordBuilding_buildingCells, List.length_append]
    exact le_rfl

theorem foldl_placeBuildingStep_length {F R : Type} (ops : FloatOps F) (rm : RandModel R) :
    ∀ (l : List Int) (st : CityScene F × R),
      (l.foldl (placeBuildingStep ops rm) st).1.buildingCells.length
        ≤ st.1.buildingCells.length + l.length := by
  intro l
  induction l with
  | nil => intro st; exact le_rfl
  | cons i l ih =>
    intro st
    rw [List.foldl_cons, List.length_cons]
    have h1 := ih (placeBuildingStep ops rm st i)
    have h2 := placeBuildingStep_length ops rm st i
    omega

/-- With the generator that always returns 20 and grid size 50, every candidate
is the cell `(25, 25)`; if that cell is occupied, no building is placed. -/
theorem placeBuildingsRandomly_blocked {F : Type} (ops : FloatOps F) (s : CityScene F)
    (hg : s.gridSize = 50) (hocc : Occupied s 25 25) :
    (placeBuildingsRandomly ops constRand s ()).1.buildingCells = [] := by
  have hsearch : ∀ (t : CityScene F), t.gridSize = 50 → Occupied t 25 25 →
      ∀ n : Nat, findFreeCell constRand t 5 5 n () = (none, ()) := by
    intro t htg htocc n
    induction n with
    | zero => rfl
    | succ n ih =>
      simp only [findFreeCell]
      have hx : (5 : Int) + Int.tmod ((constRand.rand ()).1 : Int) (t.gridSize - 2 * 5) = 25 := by
        rw [htg]; decide
      have hr : (constRand.rand ()).2 = () := rfl
      rw [hr, hx]
      have hblocked : isGridCellFree t 25 25 5 = false :=
        isGridCellFree_eq_false t 25 25 5 25 25 (by unfold InSquare; decide) (Or.inr htocc)
      rw [hblocked]
      exact ih
  unfold placeBuildingsRandomly
  dsimp only
  have hinv := foldl_invariant
    (fun st : CityScene F × Unit =>
      st.1.gridSize = 50 ∧ Occupied st.1 25 25 ∧ st.1.buildingCells = [])
    (placeBuildingStep ops constRand)
    (by
      intro st i ⟨h1, h2, h3⟩
      unfold placeBuildingStep
      rw [hsearch st.1 h1 h2 100]
      exact ⟨h1, h2, h3⟩)
    (intRange 0 (s.config.numBuildings - 1))
    ({ s with buildingCells := [], buildingHeights := [], buildingTypes := [] },
      constRand.srand 12345)
    ⟨hg, hocc, rfl⟩
  exact hinv.2.2

theorem gridGet_replicate (n : Nat) (i j : Int) :
    gridGet (List.replicate n (List.replicate n false)) i j = false := by
  unfold gridGet
  rw [List.getD_eq_getElem?_getD, List.getD_eq_getElem?_getD, List.getElem?_replicate]
  by_cases hi : i.toNat < n
  · rw [if_pos hi, Option.getD_some, List.getElem?_replicate]
    by_cases hj : j.toNat < n
    · rw [if_pos hj]; rfl
    · rw [if_neg hj]; rfl
  · rw [if_neg hi]; rfl

/-- The scene that `init` hands to `generateFuturisticLayout` has a grid of shape
`gridSize × gridSize` with `gridSize` one of 50, 70, 100, every cell free, and the
vectors of the scene it started from. -/
theorem initGrid_spec {F : Type} (s : CityScene F)
    (citySize numBuildings buildingStyle : Int)
    (towerW towerH buildingW buildingH skyW skyH pondR : F)
    (numSky numTow numOff : Int) :
    GridShape (initGrid s citySize numBuildings buildingStyle towerW towerH buildingW buildingH
      skyW skyH pondR numSky numTow numOff) ∧
    ((initGrid s citySize numBuildings buildingStyle towerW towerH buildingW buildingH
        skyW skyH pondR numSky numTow numOff).gridSize = 50 ∨
      (initGrid s citySize numBuildings buildingStyle towerW towerH buildingW buildingH
        skyW skyH pondR numSky numTow numOff).gridSize = 70 ∨
      (initGrid s citySize numBuildings buildingStyle towerW towerH buildingW buildingH
        skyW skyH pondR numSky numTow numOff).gridSize = 100) ∧
    (∀ i j, gridGet (initGrid s citySize numBuildings buildingStyle towerW towerH buildingW
        buildingH skyW skyH pondR numSky numTow numOff).occupiedGrid i j = false) ∧
    (initGrid s citySize numBuildings buildingStyle towerW towerH buildingW buildingH
        skyW skyH pondR numSky numTow numOff).roadCells = s.roadCells := by
  unfold initGrid GridShape
  dsimp only
  refine ⟨⟨?_, by simp, ?_⟩, ?_, ?_, rfl⟩
  · split
    · decide
    · split <;> decide
  · intro row hrow
    rw [List.eq_of_mem_replicate hrow]
    simp
  · by_cases h1 : citySize = 1
    · left; rw [if_pos h1]
    · by_cases h2 : citySize = 2
      · right; left; rw [if_neg h1, if_pos h2]
      · right; right; rw [if_neg h1, if_neg h2]
  · intro i j
    exact gridGet_replicate _ i j

theorem smallCity_gridShape : GridShape smallCity :=
  (initGrid_spec newScene 1 5 1 () () () () () () () 5 0 0).1

set_option maxRecDepth 100000 in
theorem smallCity_centre_occupied : Occupied (layRoads smallCity) 25 25 := by
  refine (occupied_layRoads smallCity smallCity_gridShape 25 25 (by unfold InGrid smallCity; decide)).2
    (Or.inr ?_)
  rw [layRoads_roadCells]
  have h : smallCity.gridSize = 50 := rfl
  rw [h]
  decide

/-- The loop variable of `for (int i = 0; i < n; i++)` takes the values of the
first `n.toNat` iterations. -/
theorem intRange_zero_toNat (n : Int) :
    intRange 0 (n - 1) = intRange 0 ((n.toNat : Int) - 1) := by
  unfold intRange
  have h : (n - 1 + 1 - 0).toNat = ((n.toNat : Int) - 1 + 1 - 0).toNat := by omega
  rw [h]

/-- The first `k + 1` iterations of a loop from 0 are the first `k` followed by
the iteration with index `k`. -/
theorem intRange_zero_succ (k : Nat) :
    intRange 0 (((k + 1 : Nat) : Int) - 1) = intRange 0 ((k : Int) - 1) ++ [(k : Int)] := by
  unfold intRange
  have h1 : (((k + 1 : Nat) : Int) - 1 + 1 - 0).toNat = k + 1 := by omega
  have h2 : ((k : Int) - 1 + 1 - 0).toNat = k := by omega
  rw [h1, h2, List.range_succ, List.map_append]
  simp

/-- C10: `placeBuildingsRandomly` clears the three building vectors, seeds the
generator with 12345 and then runs through `numBuildings` requests, one after the
other: with `states k` the scene and generator state after `k` requests, the
method returns `states numBuildings`, and request `k` looks at the 100 candidate
cells drawn from `states k`, draws them only up to the first one with
`isGridCellFree(x,z,5)`, records the building at that candidate and reserves its
size-5 footprint; if none of the 100 candidates is free the scene after the
request is the scene before it.  The same is stated of one iteration of the outer
loop from any state.  So the number of placed buildings is at most
`numBuildings`, and it can be smaller: with a generator that always returns 20, a
small city with 5 buildings requested gets none. -/
theorem placeBuildingsRandomly_attempts {F R : Type} (ops : FloatOps F) (rm : RandModel R) :
    (∀ (s : CityScene F) (r : R), ∃ states : Nat → CityScene F × R,
      states 0
        = ({ s with buildingCells := [], buildingHeights := [], buildingTypes := [] },
            rm.srand 12345) ∧
      placeBuildingsRandomly ops rm s r = states s.config.numBuildings.toNat ∧
      ∀ k : Nat, k < s.config.numBuildings.toNat →
        (candidateCells rm (states k).1.gridSize 5 100 (states k).2).length = 100 ∧
        (states (k + 1)).2
          = skipDraws rm
              (2 * min ((candidateCells rm (states k).1.gridSize 5 100 (states k).2).findIdx
                (fun c => isGridCellFree (states k).1 c.1 c.2 5) + 1) 100) (states k).2 ∧
        (∀ x z, (candidateCells rm (states k).1.gridSize 5 100 (states k).2).find?
              (fun c => isGridCellFree (states k).1 c.1 c.2 5) = some (x, z) →
            isGridCellFree (states k).1 x z 5 = true ∧
            (states (k + 1)).1 = recordBuilding ops (states k).1 x z (k : Int) ∧
            (states (k + 1)).1.buildingCells = (states k).1.buildingCells ++ [(x, z)] ∧
            (states (k + 1)).1.occupiedGrid
              = (markGridCells (states k).1 x z 5).occupiedGrid) ∧
        ((candidateCells rm (states k).1.gridSize 5 100 (states k).2).find?
              (fun c => isGridCellFree (states k).1 c.1 c.2 5) = none →
            (states (k + 1)).1 = (states k).1)) ∧
    (∀ (st : CityScene F × R) (i : Int),
      (candidateCells rm st.1.gridSize 5 100 st.2).length = 100 ∧
      (placeBuildingStep ops rm st i).2
        = skipDraws rm
            (2 * min ((candidateCells rm st.1.gridSize 5 100 st.2).findIdx
              (fun c => isGridCellFree st.1 c.1 c.2 5) + 1) 100) st.2 ∧
      (∀ x z, (candidateCells rm st.1.gridSize 5 100 st.2).find?
            (fun c => isGridCellFree st.1 c.1 c.2 5) = some (x, z) →
          (placeBuildingStep ops rm st i).1 = recordBuilding ops st.1 x z i ∧
          (placeBuildingStep ops rm st i).1.buildingCells = st.1.buildingCells ++ [(x, z)] ∧
          (placeBuildingStep ops rm st i).1.occupiedGrid
            = (markGridCells st.1 x z 5).occupiedGrid) ∧
      ((candidateCells rm st.1.gridSize 5 100 st.2).find?
            (fun c => isGridCellFree st.1 c.1 c.2 5) = none →
          (placeBuildingStep ops rm st i).1 = st.1)) ∧
    (∀ (s : CityScene F) (r : R),
      (placeBuildingsRandomly ops rm s r).1.buildingCells.length ≤ s.config.numBuildings.toNat) ∧
    (smallCity.config.numBuildings = 5 ∧
      (placeBuildingsRandomly unitFloatOps constRand (layRoads smallCity) ()).1.buildingCells.length
        = 0) := by
  have hiter : ∀ (st : CityScene F × R) (i : Int),
      (candidateCells rm st.1.gridSize 5 100 st.2).length = 100 ∧
      (placeBuildingStep ops rm st i).2
        = skipDraws rm
            (2 * min ((candidateCells rm st.1.gridSize 5 100 st.2).findIdx
              (fun c => isGridCellFree st.1 c.1 c.2 5) + 1) 100) st.2 ∧
      (∀ x z, (candidateCells rm st.1.gridSize 5 100 st.2).find?
            (fun c => isGridCellFree st.1 c.1 c.2 5) = some (x, z) →
          (placeBuildingStep ops rm st i).1 = recordBuilding ops st.1 x z i ∧
          (placeBuildingStep ops rm st i).1.buildingCells = st.1.buildingCells ++ [(x, z)] ∧
          (placeBuildingStep ops rm st i).1.occupiedGrid
            = (markGridCells st.1 x z 5).occupiedGrid) ∧
      ((candidateCells rm st.1.gridSize 5 100 st.2).find?
            (fun c => isGridCellFree st.1 c.1 c.2 5) = none →
          (placeBuildingStep ops rm st i).1 = st.1) := by
    intro st i
    have hfst := findFreeCell_eq_find rm st.1 5 5 100 st.2
    have hsnd := findFreeCell_draws rm st.1 5 5 100 st.2
    refine ⟨length_candidateCells rm _ _ _ _, ?_, ?_, ?_⟩
    · rw [← hsnd]
      unfold placeBuildingStep
      rcases findFreeCell rm st.1 5 5 100 st.2 with ⟨_ | ⟨x, z⟩, r⟩ <;> rfl
    · intro x z hxz
      rw [← hfst] at hxz
      have hstep : (placeBuildingStep ops rm st i).1 = recordBuilding ops st.1 x z i := by
        unfold placeBuildingStep
        rcases hfind : findFreeCell rm st.1 5 5 100 st.2 with ⟨_ | ⟨x2, z2⟩, r⟩
        · rw [hfind] at hxz; cases hxz
        · rw [hfind] at hxz
          simp only [Option.some.injEq, Prod.mk.injEq] at hxz
          obtain ⟨rfl, rfl⟩ := hxz
          rfl
      rw [hstep]
      exact ⟨rfl, rfl, rfl⟩
    · intro hnone
      rw [← hfst] at hnone
      unfold placeBuildingStep
      rcases hfind : findFreeCell rm st.1 5 5 100 st.2 with ⟨_ | ⟨x2, z2⟩, r⟩
      · rfl
      · rw [hfind] at hnone; cases hnone
  refine ⟨?_, hiter, ?_, rfl, ?_⟩
  · intro s r
    refine ⟨fun k => (intRange 0 ((k : Int) - 1)).foldl (placeBuildingStep ops rm)
      ({ s with buildingCells := [], buildingHeights := [], buildingTypes := [] },
        rm.srand 12345), ?_, ?_, ?_⟩
    · have h0 : intRange 0 (((0 : Nat) : Int) - 1) = [] := by decide
      dsimp only
      rw [h0, List.foldl_nil]
    · unfold placeBuildingsRandomly
      dsimp only
      rw [intRange_zero_toNat]
    · intro k _
      dsimp only
      rw [intRange_zero_succ, List.foldl_append, List.foldl_cons, List.foldl_nil]
      obtain ⟨h1, h2, h3, h4⟩ := hiter
        ((intRange 0 ((k : Int) - 1)).foldl (placeBuildingStep ops rm)
          ({ s with buildingCells := [], buildingHeights := [], buildingTypes := [] },
            rm.srand 12345)) (k : Int)
      refine ⟨h1, h2, ?_, h4⟩
      intro x z hxz
      obtain ⟨g1, g2, g3⟩ := h3 x z hxz
      have hfree := List.find?_some hxz
      exact ⟨hfree, g1, g2, g3⟩
  · intro s r
    unfold placeBuildingsRandomly
    dsimp only
    have h := foldl_placeBuildingStep_length ops rm (intRange 0 (s.config.numBuildings - 1))
      ({ s with buildingCells := [], buildingHeights := [], buildingTypes := [] }, rm.srand 12345)
    rw [length_intRange_zero] at h
    simpa using h
  · rw [placeBuildingsRandomly_blocked unitFloatOps (layRoads smallCity)
      (layRoads_keeps smallCity).1 smallCity_centre_occupied]
    rfl

/-! ## Concrete instances -/

/-- Instance of `markGridCells_spec` at the corner region `(49, 0)` of size 5 on the
empty 50 x 50 grid: the in-grid cell `(47, 2)` of the square becomes occupied and
the grid keeps its 50 rows. -/
theorem markGridCells_spec_witness :
    GridShape smallCity ∧
    gridGet (markGridCells smallCity 49 0 5).occupiedGrid 47 2 = true ∧
    (markGridCells smallCity 49 0 5).occupiedGrid.length = 50 :=
  ⟨smallCity_gridShape,
    ((markGridCells_spec smallCity 49 0 5 smallCity_gridShape).1 47 2 (by decide)).2
      (Or.inr (by decide)),
    (markGridCells_spec smallCity 49 0 5 smallCity_gridShape).2.2.1⟩

/-- Instance of `isGridCellFree_after_markGridCells` at the corner region `(49, 0)` of
size 5 on the empty 50 x 50 grid. -/
theorem isGridCellFree_after_markGridCells_witness :
    GridShape smallCity ∧ (1 : Int) ≤ 5 ∧
    isGridCellFree (markGridCells smallCity 49 0 5) 49 0 5 = false ∧
    isGridCellFree (markGridCells smallCity 49 0 5) 46 3 3 = false :=
  ⟨smallCity_gridShape, by decide,
    (isGridCellFree_after_markGridCells smallCity 49 0 5 smallCity_gridShape (by decide)).1,
    (isGridCellFree_after_markGridCells smallCity 49 0 5 smallCity_gridShape (by decide)).2
      46 3 3 47 2 (by decide) (by decide) (by decide)⟩

/-- Instance of `placeBuildingsRandomly_footprints_disjoint` for the small city and
the linear congruential generator. -/
theorem placeBuildingsRandomly_footprints_disjoint_witness :
    GridShape smallCity ∧
    (placeBuildingsRandomly unitFloatOps lcgRand (layRoads smallCity) 0).1.buildingCells.Pairwise
      (fun p q => ∀ i j,
        ¬ ((p.1 - 2 ≤ i ∧ i ≤ p.1 + 2 ∧ p.2 - 2 ≤ j ∧ j ≤ p.2 + 2) ∧
           (q.1 - 2 ≤ i ∧ i ≤ q.1 + 2 ∧ q.2 - 2 ≤ j ∧ j ≤ q.2 + 2))) :=
  ⟨smallCity_gridShape,
    (placeBuildingsRandomly_footprints_disjoint unitFloatOps lcgRand smallCity 0
      smallCity_gridShape).1⟩

/-- Instance of `generateFuturisticLayout_roads` for the small city: the road cells
are `(5,25)…(45,25)` followed by `(25,5)…(25,45)`. -/
theorem generateFuturisticLayout_roads_witness :
    GridShape smallCity ∧ smallCity.roadCells = [] ∧ smallCity.gridSize = 50 ∧
    (generateFuturisticLayout unitFloatOps lcgRand smallCity 0).1.roadCells
      = (intRange 5 45).map (fun i => (i, (25 : Int))) ++
        (intRange 5 45).map (fun j => ((25 : Int), j)) :=
  ⟨smallCity_gridShape, rfl, rfl,
    (generateFuturisticLayout_roads unitFloatOps lcgRand smallCity 0 smallCity_gridShape rfl
      (Or.inl rfl)).2.2.2.2 rfl⟩

/-! ## Properties of `midpointCircle` -/

/-- More fuel does not change a result already reached. -/
theorem midpointCircleLoop_mono (cx cy : Int) (k : Nat) :
    ∀ (fuel : Nat) (x y dx dy err : Int) (pts : List (Int × Int)),
      midpointCircleLoop cx cy fuel x y dx dy err = some pts →
      midpointCircleLoop cx cy (fuel + k) x y dx dy err = some pts := by
  intro fuel
  induction fuel with
  | zero =>
    intro x y dx dy err pts h
    simp only [midpointCircleLoop] at h
    by_cases hxy : x ≥ y
    · rw [if_pos hxy] at h; cases h
    · rw [if_neg hxy] at h
      cases k with
      | zero => simp only [midpointCircleLoop, Nat.add_zero, if_neg hxy]; exact h
      | succ k => simp only [midpointCircleLoop, Nat.zero_add, if_neg hxy]; exact h
  | succ n ih =>
    intro x y dx dy err pts h
    rw [Nat.succ_add]
    simp only [midpointCircleLoop] at h ⊢
    by_cases hxy : x ≥ y
    · rw [if_pos hxy] at h ⊢
      simp only [Option.map_eq_some'] at h ⊢
      obtain ⟨rest, hrest, hpts⟩ := h
      exact ⟨rest, ih _ _ _ _ _ _ hrest, hpts⟩
    · rw [if_neg hxy] at h ⊢; exact h

/-- The loop leaves: `y` grows by one in every iteration while `x` never exceeds
`r`, so `r + 1 - y` iterations are enough. -/
theorem midpointCircleLoop_terminates (cx cy r : Int) :
    ∀ (fuel : Nat) (x y dx dy err : Int), x ≤ r → r + 1 ≤ y + fuel →
      ∃ pts, midpointCircleLoop cx cy fuel x y dx dy err = some pts := by
  intro fuel
  induction fuel with
  | zero =>
    intro x y dx dy err hx hf
    have hxy : ¬ x ≥ y := by
      simp only [Nat.cast_zero, add_zero] at hf
      omega
    exact ⟨[], by simp only [midpointCircleLoop, if_neg hxy]⟩
  | succ n ih =>
    intro x y dx dy err hx hf
    simp only [midpointCircleLoop]
    by_cases hxy : x ≥ y
    · rw [if_pos hxy]
      have hx2 : (if 2 * (err + dy) + dx > 0 then x - 1 else x) ≤ r := by
        split <;> omega
      obtain ⟨pts, hpts⟩ := ih (if 2 * (err + dy) + dx > 0 then x - 1 else x) (y + 1)
        (if 2 * (err + dy) + dx > 0 then dx + 2 else dx) (dy + 2)
        (if 2 * (err + dy) + dx > 0 then err + dy + dx else err + dy) hx2
        (by push_cast at hf; omega)
      exact ⟨circlePoints cx cy x y ++ pts, by rw [hpts]; rfl⟩
    · rw [if_neg hxy]; exact ⟨[], rfl⟩

/-- Every finished run of the loop pushes the eight mirror images of a list of
octant points, one per iteration, starting with the current point; every one of
them satisfies `OctantPoint r`.  The error term is `x*x + y*y - y - r*r`. -/
theorem midpointCircleLoop_octant (cx cy r : Int) :
    ∀ (fuel : Nat) (x y dx dy err : Int) (pts : List (Int × Int)),
      dx = 1 - 2 * x → dy = 2 * y → err = x * x + y * y - y - r * r →
      0 ≤ y → x ≤ r → 0 ≤ x * x + x + y * y - y - r * r →
      (1 ≤ r → x ≥ y → x * x + y * y - y - x - r * r ≤ -1) →
      midpointCircleLoop cx cy fuel x y dx dy err = some pts →
      ∃ centres : List (Int × Int), pts = mirrorAll cx cy centres ∧
        centres.length ≤ fuel ∧ (x ≥ y → centres.head? = some (x, y)) ∧
        ∀ p ∈ centres, OctantPoint r p.1 p.2 := by
  intro fuel
  induction fuel with
  | zero =>
    intro x y dx dy err pts _ _ _ _ _ _ _ h
    simp only [midpointCircleLoop] at h
    by_cases hxy : x ≥ y
    · rw [if_pos hxy] at h; cases h
    · rw [if_neg hxy] at h
      cases h
      exact ⟨[], rfl, le_rfl, fun hc => absurd hc hxy, by simp⟩
  | succ n ih =>
    intro x y dx dy err pts hdx hdy herr hy hx hL hU h
    simp only [midpointCircleLoop] at h
    by_cases hxy : x ≥ y
    · rw [if_pos hxy] at h
      simp only [Option.map_eq_some'] at h
      obtain ⟨rest, hrest, rfl⟩ := h
      have hpoint : OctantPoint r x y := by
        refine ⟨hy, hxy, hx, by linarith, fun hr => ?_⟩
        have := hU hr hxy
        linarith
      by_cases ht : 2 * (err + dy) + dx > 0
      · simp only [if_pos ht] at hrest
        obtain ⟨centres, hc1, hc2, _, hc4⟩ := ih (x - 1) (y + 1) (dx + 2) (dy + 2)
          (err + dy + dx) rest (by rw [hdx]; ring) (by rw [hdy]; ring)
          (by rw [herr, hdy, hdx]; ring) (by omega) (by omega)
          (by rw [herr, hdy, hdx] at ht; nlinarith)
          (by
            intro hr hge
            have := hU hr hxy
            nlinarith)
          hrest
        refine ⟨(x, y) :: centres, by rw [hc1]; rfl, by simp only [List.length_cons]; omega,
          fun _ => rfl, ?_⟩
        intro p hp
        rcases List.mem_cons.1 hp with rfl | hp
        · exact hpoint
        · exact hc4 p hp
      · simp only [if_neg ht] at hrest
        obtain ⟨centres, hc1, hc2, _, hc4⟩ := ih x (y + 1) dx (dy + 2)
          (err + dy) rest hdx (by rw [hdy]; ring)
          (by rw [herr, hdy]; ring) (by omega) hx
          (by nlinarith)
          (by
            intro hr hge
            rw [herr, hdy, hdx] at ht
            nlinarith)
          hrest
        refine ⟨(x, y) :: centres, by rw [hc1]; rfl, by simp only [List.length_cons]; omega,
          fun _ => rfl, ?_⟩
        intro p hp
        rcases List.mem_cons.1 hp with rfl | hp
        · exact hpoint
        · exact hc4 p hp
    · rw [if_neg hxy] at h
      cases h
      exact ⟨[], rfl, Nat.zero_le _, fun hc => absurd hc hxy, by simp⟩

/-- With `midpointCircleFuel` iterations or more the loop of `midpointCircle`
finishes, and its result is `midpointCircle`. -/
theorem midpointCircleRun_of_le (cx cy r : Int) (fuel : Nat)
    (hfuel : midpointCircleFuel r ≤ fuel) :
    midpointCircleRun fuel cx cy r = some (midpointCircle cx cy r) := by
  obtain ⟨pts, hpts⟩ := midpointCircleLoop_terminates cx cy r (midpointCircleFuel r)
    r 0 (1 - 2 * r) 0 0 le_rfl (by unfold midpointCircleFuel; omega)
  have hcanon : midpointCircleRun (midpointCircleFuel r) cx cy r = some pts := hpts
  have hcircle : midpointCircle cx cy r = pts := by
    unfold midpointCircle; rw [hcanon]; rfl
  obtain ⟨k, rfl⟩ := Nat.exists_eq_add_of_le hfuel
  rw [hcircle]
  exact midpointCircleLoop_mono cx cy k _ _ _ _ _ _ _ hpts

/-- The output of `midpointCircle` for `r ≥ 0`: the mirror images of at most
`r + 1` octant points, the first of which is `(r, 0)`. -/
theorem midpointCircle_octant (cx cy r : Int) (hr : 0 ≤ r) :
    ∃ rest : List (Int × Int),
      midpointCircle cx cy r = mirrorAll cx cy ((r, 0) :: rest) ∧
      (((r, 0) :: rest).length : Int) ≤ r + 1 ∧
      ∀ p ∈ (r, 0) :: rest, OctantPoint r p.1 p.2 := by
  have hrun := midpointCircleRun_of_le cx cy r _ le_rfl
  obtain ⟨centres, hc1, hc2, hc3, hc4⟩ := midpointCircleLoop_octant cx cy r
    (midpointCircleFuel r) r 0 (1 - 2 * r) 0 0 (midpointCircle cx cy r)
    rfl rfl (by ring) le_rfl le_rfl (by nlinarith) (by intro h1 _; nlinarith) hrun
  have hhead := hc3 hr
  cases centres with
  | nil => simp at hhead
  | cons c rest =>
    simp only [List.head?_cons, Option.some.injEq] at hhead
    subst hhead
    refine ⟨rest, hc1, ?_, hc4⟩
    unfold midpointCircleFuel at hc2
    have : (((r, 0) :: rest).length : Int) ≤ ((r + 1).toNat : Int) := by exact_mod_cast hc2
    omega

theorem mem_mirrorAll (cx cy : Int) (q : Int × Int) :
    ∀ centres : List (Int × Int),
      q ∈ mirrorAll cx cy centres ↔ ∃ p ∈ centres, q ∈ circlePoints cx cy p.1 p.2 := by
  intro centres
  induction centres with
  | nil => simp [mirrorAll]
  | cons c cs ih =>
    simp only [mirrorAll, List.mem_append, ih, List.mem_cons, exists_eq_or_imp]

theorem length_mirrorAll (cx cy : Int) :
    ∀ centres : List (Int × Int), (mirrorAll cx cy centres).length = 8 * centres.length := by
  intro centres
  induction centres with
  | nil => rfl
  | cons c cs ih =>
    simp only [mirrorAll, List.length_append, ih, List.length_cons, circlePoints,
      List.length_nil]
    omega

/-- The eight mirror images of an octant point, as offsets from the centre. -/
theorem mem_circlePoints (cx cy x y : Int) (q : Int × Int) :
    q ∈ circlePoints cx cy x y ↔
      (q.1 - cx = x ∧ q.2 - cy = y) ∨ (q.1 - cx = y ∧ q.2 - cy = x) ∨
      (q.1 - cx = -y ∧ q.2 - cy = x) ∨ (q.1 - cx = -x ∧ q.2 - cy = y) ∨
      (q.1 - cx = -x ∧ q.2 - cy = -y) ∨ (q.1 - cx = -y ∧ q.2 - cy = -x) ∨
      (q.1 - cx = y ∧ q.2 - cy = -x) ∨ (q.1 - cx = x ∧ q.2 - cy = -y) := by
  obtain ⟨q1, q2⟩ := q
  simp only [circlePoints, List.mem_cons, List.mem_singleton, Prod.mk.injEq, List.not_mem_nil,
    or_false]
  constructor
  · rintro (⟨rfl, rfl⟩ | ⟨rfl, rfl⟩ | ⟨rfl, rfl⟩ | ⟨rfl, rfl⟩ | ⟨rfl, rfl⟩ | ⟨rfl, rfl⟩ |
      ⟨rfl, rfl⟩ | ⟨rfl, rfl⟩)
    · left; constructor <;> ring
    · right; left; constructor <;> ring
    · right; right; left; constructor <;> ring
    · right; right; right; left; constructor <;> ring
    · right; right; right; right; left; constructor <;> ring
    · right; right; right; right; right; left; constructor <;> ring
    · right; right; right; right; right; right; left; constructor <;> ring
    · right; right; right; right; right; right; right; constructor <;> ring
  · rintro (⟨h1, h2⟩ | ⟨h1, h2⟩ | ⟨h1, h2⟩ | ⟨h1, h2⟩ | ⟨h1, h2⟩ | ⟨h1, h2⟩ | ⟨h1, h2⟩ |
      ⟨h1, h2⟩)
    · left; constructor <;> omega
    · right; left; constructor <;> omega
    · right; right; left; constructor <;> omega
    · right; right; right; left; constructor <;> omega
    · right; right; right; right; left; constructor <;> omega
    · right; right; right; right; right; left; constructor <;> omega
    · right; right; right; right; right; right; left; constructor <;> omega
    · right; right; right; right; right; right; right; constructor <;> omega

/-- All eight mirror images lie at the squared distance `x*x + y*y` from the centre. -/
theorem circlePoints_dist (cx cy x y : Int) (q : Int × Int) (hq : q ∈ circlePoints cx cy x y) :
    (q.1 - cx) ^ 2 + (q.2 - cy) ^ 2 = x * x + y * y := by
  rw [mem_circlePoints] at hq
  rcases hq with ⟨h1, h2⟩ | ⟨h1, h2⟩ | ⟨h1, h2⟩ | ⟨h1, h2⟩ | ⟨h1, h2⟩ | ⟨h1, h2⟩ | ⟨h1, h2⟩ |
      ⟨h1, h2⟩ <;> rw [h1, h2] <;> ring

theorem midpointCircle_of_neg (cx cy r : Int) (hr : r < 0) : midpointCircle cx cy r = [] := by
  have hfuel : midpointCircleFuel r = 0 := by unfold midpointCircleFuel; omega
  have hloop : ¬ r ≥ 0 := by omega
  unfold midpointCircle midpointCircleRun
  rw [hfuel]
  simp only [midpointCircleLoop, if_neg hloop]
  rfl

theorem two_le_count_of_twice (q : Int × Int) (l1 l2 l3 : List (Int × Int)) :
    2 ≤ (l1 ++ q :: (l2 ++ q :: l3)).count q := by
  simp only [List.count_append, List.count_cons_self]
  omega

/-- The first iteration for `r ≥ 0` pushes the mirror images of `(r, 0)`. -/
theorem circlePoints_axis (cx cy r : Int) :
    circlePoints cx cy r 0
      = [(cx + r, cy), (cx, cy + r), (cx, cy + r), (cx - r, cy),
         (cx - r, cy), (cx, cy - r), (cx, cy - r), (cx + r, cy)] := by
  simp [circlePoints]

/-- Refutation of C17 as stated: for `r = 0` the returned point `(0, 0)` around the
centre `(0, 0)` is at squared distance 0, below `(r - 1)^2 = 1`. -/
theorem midpointCircle_radius_zero_inside :
    ¬ (∀ p ∈ midpointCircle 0 0 0,
        ((0 : Int) - 1) ^ 2 ≤ (p.1 - 0) ^ 2 + (p.2 - 0) ^ 2 ∧
          (p.1 - 0) ^ 2 + (p.2 - 0) ^ 2 ≤ ((0 : Int) + 1) ^ 2) := by
  decide

/-- C17 (amended): for every centre and every radius `r ≥ 0`, every point returned
by `midpointCircle` has squared distance at most `(r+1)^2` from the centre; for
`r ≥ 1` it is also at least `(r-1)^2`; for `r = 0` every point is the centre. -/
theorem midpointCircle_distance_bounds (cx cy r : Int) (hr : 0 ≤ r) :
    ∀ p ∈ midpointCircle cx cy r,
      (p.1 - cx) ^ 2 + (p.2 - cy) ^ 2 ≤ (r + 1) ^ 2 ∧
      (1 ≤ r → (r - 1) ^ 2 ≤ (p.1 - cx) ^ 2 + (p.2 - cy) ^ 2) ∧
      (r = 0 → p = (cx, cy)) := by
  obtain ⟨rest, hout, _, hoct⟩ := midpointCircle_octant cx cy r hr
  intro p hp
  rw [hout, mem_mirrorAll] at hp
  obtain ⟨c, hc, hpc⟩ := hp
  obtain ⟨h0, hyx, hxr, hlow, hupp⟩ := hoct c hc
  have hdist := circlePoints_dist cx cy c.1 c.2 p hpc
  refine ⟨?_, ?_, ?_⟩
  · rw [hdist]
    by_cases h1 : 1 ≤ r
    · have := hupp h1
      nlinarith
    · have hr0 : r = 0 := by omega
      have hx0 : c.1 = 0 := by omega
      have hy0 : c.2 = 0 := by omega
      rw [hr0, hx0, hy0]
      decide
  · intro h1
    rw [hdist]
    nlinarith
  · intro hr0
    have hx0 : c.1 = 0 := by omega
    have hy0 : c.2 = 0 := by omega
    rw [mem_circlePoints, hx0, hy0] at hpc
    apply Prod.ext
    · show p.1 = cx
      omega
    · show p.2 = cy
      omega

/-- C18: for every centre and every radius `r ≥ 0` the output of `midpointCircle`
contains the four cardinal points `(cx+r,cy)`, `(cx-r,cy)`, `(cx,cy+r)`, `(cx,cy-r)`. -/
theorem midpointCircle_cardinal_points (cx cy r : Int) (hr : 0 ≤ r) :
    (cx + r, cy) ∈ midpointCircle cx cy r ∧ (cx - r, cy) ∈ midpointCircle cx cy r ∧
    (cx, cy + r) ∈ midpointCircle cx cy r ∧ (cx, cy - r) ∈ midpointCircle cx cy r := by
  obtain ⟨rest, hout, _, _⟩ := midpointCircle_octant cx cy r hr
  rw [hout]
  simp only [mirrorAll, circlePoints_axis, List.mem_append, List.mem_cons, true_or, or_true,
    and_self]

/-- C19: for every centre and every radius `r ≥ 0` the loop of `midpointCircle`
terminates; the returned list has a length that is positive, a multiple of 8 and
at most `8 * (r + 1)`; mirrored points that coincide are all kept, so each cardinal
point occurs at least twice, and for `r = 0` the list is eight copies of the centre. -/
theorem midpointCircle_length (cx cy r : Int) (hr : 0 ≤ r) :
    (∀ fuel, midpointCircleFuel r ≤ fuel →
      midpointCircleRun fuel cx cy r = some (midpointCircle cx cy r)) ∧
    0 < (midpointCircle cx cy r).length ∧
    8 ∣ (midpointCircle cx cy r).length ∧
    ((midpointCircle cx cy r).length : Int) ≤ 8 * (r + 1) ∧
    2 ≤ (midpointCircle cx cy r).count (cx + r, cy) ∧
    2 ≤ (midpointCircle cx cy r).count (cx - r, cy) ∧
    2 ≤ (midpointCircle cx cy r).count (cx, cy + r) ∧
    2 ≤ (midpointCircle cx cy r).count (cx, cy - r) ∧
    (r = 0 → midpointCircle cx cy r = List.replicate 8 (cx, cy)) := by
  obtain ⟨rest, hout, hlen, _⟩ := midpointCircle_octant cx cy r hr
  have hlength : (midpointCircle cx cy r).length = 8 * ((r, 0) :: rest).length := by
    rw [hout, length_mirrorAll]
  have hfront : midpointCircle cx cy r
      = [(cx + r, cy), (cx, cy + r), (cx, cy + r), (cx - r, cy),
         (cx - r, cy), (cx, cy - r), (cx, cy - r), (cx + r, cy)] ++ mirrorAll cx cy rest := by
    rw [hout, mirrorAll, circlePoints_axis]
  refine ⟨fun fuel h => midpointCircleRun_of_le cx cy r fuel h, ?_, ?_, ?_, ?_, ?_, ?_, ?_, ?_⟩
  · rw [hlength, List.length_cons]; omega
  · rw [hlength]; exact Dvd.intro _ rfl
  · rw [hlength]; push_cast; omega
  · rw [hfront]
    exact two_le_count_of_twice (cx + r, cy) []
      [(cx, cy + r), (cx, cy + r), (cx - r, cy), (cx - r, cy), (cx, cy - r), (cx, cy - r)]
      (mirrorAll cx cy rest)
  · rw [hfront]
    exact two_le_count_of_twice (cx - r, cy) [(cx + r, cy), (cx, cy + r), (cx, cy + r)] []
      ((cx, cy - r) :: (cx, cy - r) :: (cx + r, cy) :: mirrorAll cx cy rest)
  · rw [hfront]
    exact two_le_count_of_twice (cx, cy + r) [(cx + r, cy)] []
      ((cx - r, cy) :: (cx - r, cy) :: (cx, cy - r) :: (cx, cy - r) :: (cx + r, cy)
        :: mirrorAll cx cy rest)
  · rw [hfront]
    exact two_le_count_of_twice (cx, cy - r)
      [(cx + r, cy), (cx, cy + r), (cx, cy + r), (cx - r, cy), (cx - r, cy)] []
      ((cx + r, cy) :: mirrorAll cx cy rest)
  · intro hr0
    subst hr0
    have hrest : rest = [] := by
      cases rest with
      | nil => rfl
      | cons c cs =>
        simp only [List.length_cons] at hlen
        push_cast at hlen
        omega
    rw [hfront, hrest]
    simp [mirrorAll, List.replicate]

/-- C20: the points returned by `midpointCircle` are closed under the eight
symmetries of the square about the centre: with `(cx+a, cy+b)` the output contains
`(cx+a,cy-b)`, `(cx-a,cy+b)`, `(cx-a,cy-b)`, `(cx+b,cy+a)`, `(cx+b,cy-a)`,
`(cx-b,cy+a)` and `(cx-b,cy-a)`. -/
theorem midpointCircle_symmetric (cx cy r a b : Int)
    (h : (cx + a, cy + b) ∈ midpointCircle cx cy r) :
    (cx + a, cy - b) ∈ midpointCircle cx cy r ∧ (cx - a, cy + b) ∈ midpointCircle cx cy r ∧
    (cx - a, cy - b) ∈ midpointCircle cx cy r ∧ (cx + b, cy + a) ∈ midpointCircle cx cy r ∧
    (cx + b, cy - a) ∈ midpointCircle cx cy r ∧ (cx - b, cy + a) ∈ midpointCircle cx cy r ∧
    (cx - b, cy - a) ∈ midpointCircle cx cy r := by
  by_cases hr : r < 0
  · rw [midpointCircle_of_neg cx cy r hr] at h
    cases h
  · obtain ⟨rest, hout, _, _⟩ := midpointCircle_octant cx cy r (by omega)
    rw [hout, mem_mirrorAll] at h
    obtain ⟨c, hc, hpc⟩ := h
    rw [mem_circlePoints] at hpc
    have hmem : ∀ q : Int × Int, q ∈ circlePoints cx cy c.1 c.2 → q ∈ midpointCircle cx cy r := by
      intro q hq
      rw [hout, mem_mirrorAll]
      exact ⟨c, hc, hq⟩
    dsimp only at hpc
    rcases hpc with ⟨h1, h2⟩ | ⟨h1, h2⟩ | ⟨h1, h2⟩ | ⟨h1, h2⟩ | ⟨h1, h2⟩ | ⟨h1, h2⟩ |
        ⟨h1, h2⟩ | ⟨h1, h2⟩ <;>
      refine ⟨?_, ?_, ?_, ?_, ?_, ?_, ?_⟩ <;>
      (apply hmem
       rw [mem_circlePoints]
       dsimp only
       first
         | exact Or.inl ⟨by omega, by omega⟩
         | exact Or.inr (Or.inl ⟨by omega, by omega⟩)
         | exact Or.inr (Or.inr (Or.inl ⟨by omega, by omega⟩))
         | exact Or.inr (Or.inr (Or.inr (Or.inl ⟨by omega, by omega⟩)))
         | exact Or.inr (Or.inr (Or.inr (Or.inr (Or.inl ⟨by omega, by omega⟩))))
         | exact Or.inr (Or.inr (Or.inr (Or.inr (Or.inr (Or.inl ⟨by omega, by omega⟩)))))
         | exact Or.inr (Or.inr (Or.inr (Or.inr (Or.inr (Or.inr (Or.inl ⟨by omega, by omega⟩))))))
         | exact Or.inr (Or.inr (Or.inr (Or.inr (Or.inr (Or.inr (Or.inr ⟨by omega, by omega⟩)))))))

/-! ## The pond -/

theorem beforePond_keeps {F R : Type} (ops : FloatOps F) (rm : RandModel R)
    (s : CityScene F) (r : R) :
    (beforePond ops rm s r).gridSize = s.gridSize ∧ (beforePond ops rm s r).config = s.config ∧
      (GridShape s → GridShape (beforePond ops rm s r)) := by
  have hchain : Keeps (layRoads s) (beforePond ops rm s r) := by
    unfold beforePond
    exact keeps_trans (placeBuildingsRandomly_keeps ops rm _ r)
      (keeps_trans (placeTrees_keeps rm _ _)
        (keeps_trans (placeStreetLamps_keeps _) (placeRandomCar_keeps _)))
  obtain ⟨h1, h2, h3⟩ := layRoads_keeps s
  exact ⟨hchain.2.1.trans h1, hchain.2.2.1.trans h2, fun hs => hchain.2.2.2 (h3 hs)⟩

/-- For a radius `r ≥ 0` the pond loops write exactly the cells of the grid inside the disc. -/
theorem pondCells_iff (gridSize cx cy r i j : Int) (hr : 0 ≤ r)
    (hin : 0 ≤ i ∧ i < gridSize ∧ 0 ≤ j ∧ j < gridSize) :
    pondCells gridSize cx cy r i.toNat j.toNat = true ↔
      (i - cx) * (i - cx) + (j - cy) * (j - cy) ≤ r * r := by
  unfold pondCells
  simp only [List.any_eq_true, mem_intRange, Bool.and_eq_true, decide_eq_true_eq, beq_iff_eq]
  constructor
  · rintro ⟨i2, ⟨h1, h2⟩, j2, ⟨h3, h4⟩, ⟨hdisc, h5, h6, h7, h8⟩, h9, h10⟩
    have : i = i2 := by omega
    have : j = j2 := by omega
    subst i2 j2
    exact hdisc
  · intro hdisc
    have hi1 : i - cx ≤ r := by
      by_contra hcon
      have hlt : r < i - cx := by omega
      have := mul_self_lt_mul_self hr hlt
      nlinarith [mul_self_nonneg (j - cy)]
    have hi2 : cx - i ≤ r := by
      by_contra hcon
      have hlt : r < cx - i := by omega
      have := mul_self_lt_mul_self hr hlt
      nlinarith [mul_self_nonneg (j - cy)]
    have hj1 : j - cy ≤ r := by
      by_contra hcon
      have hlt : r < j - cy := by omega
      have := mul_self_lt_mul_self hr hlt
      nlinarith [mul_self_nonneg (i - cx)]
    have hj2 : cy - j ≤ r := by
      by_contra hcon
      have hlt : r < cy - j := by omega
      have := mul_self_lt_mul_self hr hlt
      nlinarith [mul_self_nonneg (i - cx)]
    exact ⟨i, ⟨by omega, by omega⟩, j, ⟨by omega, by omega⟩, ⟨hdisc, by omega⟩, rfl, rfl⟩

/-- What the pond step does to the cells of the grid, for a radius `r ≥ 0`. -/
theorem occupied_markPond {F : Type} (ops : FloatOps F) (t : CityScene F) (i j : Int)
    (ht : GridShape t) (hr : 0 ≤ ops.toInt t.config.pondRadius) (hin : InGrid t i j) :
    Occupied (markPond ops t) i j ↔
      Occupied t i j ∨
        (i - (Int.tdiv t.gridSize 2 + 8)) * (i - (Int.tdiv t.gridSize 2 + 8))
          + (j - (Int.tdiv t.gridSize 2 - 8)) * (j - (Int.tdiv t.gridSize 2 - 8))
          ≤ ops.toInt t.config.pondRadius * ops.toInt t.config.pondRadius := by
  unfold Occupied
  rw [markPond_occupiedGrid, gridGet_orGrid, pondCells_iff _ _ _ _ _ _ hr hin]
  constructor
  · rintro (h | ⟨h, _⟩)
    · exact Or.inl h
    · exact Or.inr h
  · rintro (h | h)
    · exact Or.inl h
    · exact Or.inr ⟨h, gridShape_exists_row ht hin⟩

/-- C15: with `c = gridSize/2` and a pond radius `r ≥ 0`, on a grid of shape
`gridSize × gridSize`, `generateFuturisticLayout` ends with the pond step, which
sets the pond centre to `(c+8, c-8)` (that is `(33,17)` for `gridSize = 50`) and the
radius to `r`; after it a cell `(i,j)` of the grid is occupied exactly when it was
occupied before the step or `(i-(c+8))^2 + (j-(c-8))^2 ≤ r^2`. -/
theorem generateFuturisticLayout_pond {F R : Type} (ops : FloatOps F) (rm : RandModel R)
    (s : CityScene F) (r : R) (hs : GridShape s)
    (hr : 0 ≤ ops.toInt s.config.pondRadius) :
    (generateFuturisticLayout ops rm s r).1 = markPond ops (beforePond ops rm s r) ∧
    (generateFuturisticLayout ops rm s r).1.pond_cx = Int.tdiv s.gridSize 2 + 8 ∧
    (generateFuturisticLayout ops rm s r).1.pond_cy = Int.tdiv s.gridSize 2 - 8 ∧
    (generateFuturisticLayout ops rm s r).1.pond_r = ops.toInt s.config.pondRadius ∧
    (s.gridSize = 50 →
      (generateFuturisticLayout ops rm s r).1.pond_cx = 33 ∧
      (generateFuturisticLayout ops rm s r).1.pond_cy = 17) ∧
    (∀ i j, (0 ≤ i ∧ i < s.gridSize ∧ 0 ≤ j ∧ j < s.gridSize) →
      (gridGet (generateFuturisticLayout ops rm s r).1.occupiedGrid i j = true ↔
        gridGet (beforePond ops rm s r).occupiedGrid i j = true ∨
          (i - (Int.tdiv s.gridSize 2 + 8)) ^ 2 + (j - (Int.tdiv s.gridSize 2 - 8)) ^ 2
            ≤ (ops.toInt s.config.pondRadius) ^ 2)) := by
  obtain ⟨hgs, hcfg, hshape⟩ := beforePond_keeps ops rm s r
  have hfinal : (generateFuturisticLayout ops rm s r).1 = markPond ops (beforePond ops rm s r) :=
    rfl
  have hcx : (markPond ops (beforePond ops rm s r)).pond_cx
      = Int.tdiv (beforePond ops rm s r).gridSize 2 + 8 := rfl
  have hcy : (markPond ops (beforePond ops rm s r)).pond_cy
      = Int.tdiv (beforePond ops rm s r).gridSize 2 - 8 := rfl
  have hrad : (markPond ops (beforePond ops rm s r)).pond_r
      = ops.toInt (beforePond ops rm s r).config.pondRadius := rfl
  rw [hgs] at hcx hcy
  rw [hcfg] at hrad
  refine ⟨hfinal, by rw [hfinal, hcx], by rw [hfinal, hcy], by rw [hfinal, hrad], ?_, ?_⟩
  · intro h50
    rw [hfinal, hcx, hcy, h50]
    exact ⟨by decide, by decide⟩
  · intro i j hin
    have hin2 : InGrid (beforePond ops rm s r) i j := by
      unfold InGrid; rw [hgs]; exact hin
    have hr2 : 0 ≤ ops.toInt (beforePond ops rm s r).config.pondRadius := by
      rw [hcfg]; exact hr
    have key := occupied_markPond ops (beforePond ops rm s r) i j (hshape hs) hr2 hin2
    unfold Occupied at key
    rw [hgs, hcfg] at key
    rw [hfinal, key, sq, sq, sq]

/-! ## Determinism -/

/-- C16: the generation pipeline is a function of the scene it starts from, and
its result does not depend on the state `r1` or `r2` of the generator on entry:
the building phase starts its draws from `srand(12345)` and the tree phase from
`srand(54321)`, so roads, buildings (cells, types, heights), trees, lamps and pond
of two runs coincide, as do the whole scenes. -/
theorem generateFuturisticLayout_deterministic {F R : Type} (ops : FloatOps F)
    (rm : RandModel R) (s : CityScene F) (r1 r2 : R) :
    generateFuturisticLayout ops rm s r1 = generateFuturisticLayout ops rm s r2 ∧
    (∀ (citySize numBuildings buildingStyle : Int)
       (towerW towerH buildingW buildingH skyW skyH pondR : F) (numSky numTow numOff : Int),
      init ops rm s r1 citySize numBuildings buildingStyle towerW towerH buildingW buildingH
          skyW skyH pondR numSky numTow numOff
        = init ops rm s r2 citySize numBuildings buildingStyle towerW towerH buildingW buildingH
          skyW skyH pondR numSky numTow numOff) ∧
    placeBuildingsRandomly ops rm s r1 = placeBuildingsRandomly ops rm s r2 ∧
    placeTrees rm s r1 = placeTrees rm s r2 ∧
    placeBuildingsRandomly ops rm s r1
      = (intRange 0 (s.config.numBuildings - 1)).foldl (placeBuildingStep ops rm)
          ({ s with buildingCells := [], buildingHeights := [], buildingTypes := [] },
            rm.srand 12345) ∧
    placeTrees rm s r1
      = (intRange 0 (s.config.citySize * 8 - 1)).foldl (placeTreeStep rm)
          ({ s with treeCells := [] }, rm.srand 54321) :=
  ⟨rfl, fun _ _ _ _ _ _ _ _ _ _ _ _ _ => rfl, rfl, rfl, rfl, rfl⟩

/-! ## Building types and heights -/

theorem recordBuilding_buildingTypes {F : Type} (ops : FloatOps F) (s : CityScene F)
    (x z i : Int) :
    (recordBuilding ops s x z i).buildingTypes = s.buildingTypes ++ [nextBuildingType s] := rfl

theorem recordBuilding_buildingHeights {F : Type} (ops : FloatOps F) (s : CityScene F)
    (x z i : Int) :
    (recordBuilding ops s x z i).buildingHeights
      = s.buildingHeights ++ [getFuturisticHeight ops s (nextBuildingType s) i] := rfl

theorem recordBuilding_config {F : Type} (ops : FloatOps F) (s : CityScene F) (x z i : Int) :
    (recordBuilding ops s x z i).config = s.config := rfl

/-- Induction over the buildings recorded by `placeBuildingsRandomly`: a property
of the cleared scene that every `recordBuilding` keeps holds of the result. -/
theorem placeBuildingsRandomly_induction {F R : Type} (ops : FloatOps F) (rm : RandModel R)
    (s : CityScene F) (r : R) (P : CityScene F → Prop)
    (h0 : P { s with buildingCells := [], buildingHeights := [], buildingTypes := [] })
    (hstep : ∀ (t : CityScene F) (x z i : Int), t.config = s.config → P t →
      P (recordBuilding ops t x z i)) :
    P (placeBuildingsRandomly ops rm s r).1 := by
  unfold placeBuildingsRandomly
  dsimp only
  have hinv := foldl_invariant
    (fun st : CityScene F × R => st.1.config = s.config ∧ P st.1)
    (placeBuildingStep ops rm)
    (by
      intro st i ⟨hc, hp⟩
      unfold placeBuildingStep
      rcases findFreeCell rm st.1 5 5 100 st.2 with ⟨_ | ⟨x, z⟩, q⟩
      · exact ⟨hc, hp⟩
      · exact ⟨hc, hstep st.1 x z i hc hp⟩)
    (intRange 0 (s.config.numBuildings - 1))
    ({ s with buildingCells := [], buildingHeights := [], buildingTypes := [] }, rm.srand 12345)
    ⟨rfl, h0⟩
  exact hinv.2

theorem countPlaced_eq_foldl (l : List Int) : countPlaced l = l.foldl bumpCounter (0, 0, 0) := rfl

theorem countPlaced_append (l : List Int) (t : Int) :
    countPlaced (l ++ [t]) = bumpCounter (countPlaced l) t := by
  rw [countPlaced_eq_foldl, countPlaced_eq_foldl, List.foldl_append]
  rfl

/-- The scan counts the skyscrapers and the towers of the list. -/
theorem foldl_bumpCounter_count (l : List Int) :
    ∀ c : Int × Int × Int,
      (l.foldl bumpCounter c).1 = c.1 + l.count 0 ∧
      (l.foldl bumpCounter c).2.1 = c.2.1 + l.count 1 := by
  induction l with
  | nil => intro c; simp
  | cons t l ih =>
    intro c
    rw [List.foldl_cons]
    obtain ⟨h1, h2⟩ := ih (bumpCounter c t)
    rw [h1, h2]
    unfold bumpCounter
    by_cases ht0 : t = 0
    · subst ht0
      simp only [if_true, List.count_cons_self]
      have : List.count (1 : Int) ((0 : Int) :: l) = List.count 1 l :=
        List.count_cons_of_ne (by decide) l
      rw [this]
      push_cast
      constructor <;> ring
    · by_cases ht1 : t = 1
      · subst ht1
        simp only [if_neg ht0, if_true, List.count_cons_self]
        have : List.count (0 : Int) ((1 : Int) :: l) = List.count 0 l :=
          List.count_cons_of_ne (by decide) l
        rw [this]
        push_cast
        constructor <;> ring
      · simp only [if_neg ht0, if_neg ht1]
        rw [List.count_cons_of_ne (fun h => ht0 h.symm) l,
          List.count_cons_of_ne (fun h => ht1 h.symm) l]
        exact ⟨rfl, rfl⟩

/-- Decision by counters, unrolled at the end: the last type is decided from the
counters advanced over all earlier types. -/
theorem counterTypes_succ (S T : Int) :
    ∀ (n : Nat) (c : Int × Int × Int),
      counterTypes S T (n + 1) c
        = counterTypes S T n c
          ++ [typeFromCounters S T ((counterTypes S T n c).foldl bumpCounter c)] := by
  intro n
  induction n with
  | zero => intro c; rfl
  | succ n ih =>
    intro c
    rw [counterTypes, ih (bumpCounter c (typeFromCounters S T c))]
    rfl

theorem length_counterTypes (S T : Int) :
    ∀ (n : Nat) (c : Int × Int × Int), (counterTypes S T n c).length = n := by
  intro n
  induction n with
  | zero => intro c; rfl
  | succ n ih => intro c; simp only [counterTypes, List.length_cons, ih]

/-- The counters after `n` buildings placed by quota priority. -/
theorem countPlaced_quota (S T : Int) (hS : 0 ≤ S) (hT : 0 ≤ T) :
    ∀ n : Nat,
      countPlaced ((List.range n).map (quotaType S T))
        = (min (n : Int) S, min (max ((n : Int) - S) 0) T, max ((n : Int) - S - T) 0) := by
  intro n
  induction n with
  | zero =>
    simp only [List.range_zero, List.map_nil, Nat.cast_zero]
    show ((0 : Int), (0 : Int), (0 : Int)) = _
    apply Prod.ext
    · show (0 : Int) = min 0 S
      omega
    · apply Prod.ext
      · show (0 : Int) = min (max (0 - S) 0) T
        omega
      · show (0 : Int) = max (0 - S - T) 0
        omega
  | succ n ih =>
    rw [List.range_succ, List.map_append, List.map_singleton, countPlaced_append, ih]
    unfold bumpCounter quotaType
    by_cases h1 : (n : Int) < S
    · simp only [if_pos h1, if_true]
      apply Prod.ext
      · show min (n : Int) S + 1 = min ((n + 1 : Nat) : Int) S
        push_cast; omega
      · apply Prod.ext
        · show min (max ((n : Int) - S) 0) T = min (max (((n + 1 : Nat) : Int) - S) 0) T
          push_cast; omega
        · show max ((n : Int) - S - T) 0 = max (((n + 1 : Nat) : Int) - S - T) 0
          push_cast; omega
    · by_cases h2 : (n : Int) < S + T
      · simp only [if_neg h1, if_pos h2, if_true, one_ne_zero, if_false]
        apply Prod.ext
        · show min (n : Int) S = min ((n + 1 : Nat) : Int) S
          push_cast; omega
        · apply Prod.ext
          · show min (max ((n : Int) - S) 0) T + 1 = min (max (((n + 1 : Nat) : Int) - S) 0) T
            push_cast; omega
          · show max ((n : Int) - S - T) 0 = max (((n + 1 : Nat) : Int) - S - T) 0
            push_cast; omega
      · have h20 : ¬ ((2 : Int) = 0) := by decide
        have h21 : ¬ ((2 : Int) = 1) := by decide
        simp only [if_neg h1, if_neg h2, if_neg h20, if_neg h21]
        apply Prod.ext
        · show min (n : Int) S = min ((n + 1 : Nat) : Int) S
          push_cast; omega
        · apply Prod.ext
          · show min (max ((n : Int) - S) 0) T = min (max (((n + 1 : Nat) : Int) - S) 0) T
            push_cast; omega
          · show max ((n : Int) - S - T) 0 + 1 = max (((n + 1 : Nat) : Int) - S - T) 0
            push_cast; omega

/-- With non-negative quotas, deciding from the counts of the first `n` quota types
gives the quota type of index `n`. -/
theorem typeFromCounters_quota (S T : Int) (hS : 0 ≤ S) (hT : 0 ≤ T) (n : Nat) :
    typeFromCounters S T (countPlaced ((List.range n).map (quotaType S T)))
      = quotaType S T n := by
  rw [countPlaced_quota S T hS hT]
  unfold typeFromCounters quotaType
  dsimp only
  by_cases h1 : (n : Int) < S
  · rw [if_pos h1, if_pos (by omega)]
  · rw [if_neg h1, if_neg (by omega)]
    by_cases h2 : (n : Int) < S + T
    · rw [if_pos h2, if_pos (by omega)]
    · rw [if_neg h2, if_neg (by omega)]

theorem nextBuildingType_mixed {F : Type} (s : CityScene F)
    (h1 : s.config.buildingStyle ≠ 1) (h2 : s.config.buildingStyle ≠ 2) :
    nextBuildingType s
      = typeFromCounters s.config.numSkyscrapers s.config.numTowers
          (countPlaced s.buildingTypes) := by
  unfold nextBuildingType typeFromCounters
  rw [if_neg h1, if_neg h2]

/-- C11: in the mixed style (`buildingStyle` neither 1 nor 2) with quotas
`S = numSkyscrapers ≥ 0` and `T = numTowers ≥ 0`, whatever the random draws and
whichever requested buildings were skipped, the `k`-th building placed has type 0
if `k < S`, type 1 if `S ≤ k < S+T`, and type 2 otherwise; the types are those that
the design with one counter per type (`counterTypes`) gives, and the numbers of
skyscrapers and towers do not exceed `S` and `T`. -/
theorem placeBuildingsRandomly_mixed_types {F R : Type} (ops : FloatOps F) (rm : RandModel R)
    (s : CityScene F) (r : R)
    (h1 : s.config.buildingStyle ≠ 1) (h2 : s.config.buildingStyle ≠ 2)
    (hS : 0 ≤ s.config.numSkyscrapers) (hT : 0 ≤ s.config.numTowers) :
    (placeBuildingsRandomly ops rm s r).1.buildingTypes.length
      = (placeBuildingsRandomly ops rm s r).1.buildingCells.length ∧
    (∀ k : Nat, k < (placeBuildingsRandomly ops rm s r).1.buildingCells.length →
      (placeBuildingsRandomly ops rm s r).1.buildingTypes[k]?
        = some (if (k : Int) < s.config.numSkyscrapers then 0
                else if (k : Int) < s.config.numSkyscrapers + s.config.numTowers then 1
                else 2)) ∧
    (placeBuildingsRandomly ops rm s r).1.buildingTypes
      = counterTypes s.config.numSkyscrapers s.config.numTowers
          (placeBuildingsRandomly ops rm s r).1.buildingCells.length (0, 0, 0) ∧
    ((placeBuildingsRandomly ops rm s r).1.buildingTypes.count 0 : Int)
      ≤ s.config.numSkyscrapers ∧
    ((placeBuildingsRandomly ops rm s r).1.buildingTypes.count 1 : Int)
      ≤ s.config.numTowers := by
  have hinv := placeBuildingsRandomly_induction ops rm s r
    (fun t =>
      t.buildingTypes.length = t.buildingCells.length ∧
      t.buildingTypes = (List.range t.buildingCells.length).map
        (quotaType s.config.numSkyscrapers s.config.numTowers) ∧
      t.buildingTypes = counterTypes s.config.numSkyscrapers s.config.numTowers
        t.buildingCells.length (0, 0, 0))
    ⟨rfl, rfl, rfl⟩
    (by
      intro t x z i hcfg ⟨hlen, hquota, hcounter⟩
      have hnext : nextBuildingType t
          = typeFromCounters s.config.numSkyscrapers s.config.numTowers
              (countPlaced t.buildingTypes) := by
        rw [nextBuildingType_mixed t (by rw [hcfg]; exact h1) (by rw [hcfg]; exact h2), hcfg]
      rw [recordBuilding_buildingTypes, recordBuilding_buildingCells, List.length_append,
        List.length_append, List.length_singleton, List.length_singleton]
      refine ⟨by rw [hlen], ?_, ?_⟩
      · rw [List.range_succ, List.map_append, List.map_singleton, ← hquota, hnext]
        conv_lhs => rw [hquota]
        rw [typeFromCounters_quota _ _ hS hT, ← hquota]
      · rw [counterTypes_succ, ← hcounter, hnext]
        rfl)
  obtain ⟨hlen, hquota, hcounter⟩ := hinv
  have hcount := foldl_bumpCounter_count (placeBuildingsRandomly ops rm s r).1.buildingTypes
    (0, 0, 0)
  rw [← countPlaced_eq_foldl] at hcount
  have hclosed := countPlaced_quota _ _ hS hT
    (placeBuildingsRandomly ops rm s r).1.buildingCells.length
  rw [← hquota] at hclosed
  rw [hclosed] at hcount
  obtain ⟨hc0, hc1⟩ := hcount
  dsimp only at hc0 hc1
  refine ⟨hlen, ?_, hcounter, by omega, by omega⟩
  intro k hk
  rw [hquota, List.getElem?_map, List.getElem?_range hk]
  rfl

/-- C12: for `buildingStyle` 1 every building placed by `placeBuildingsRandomly` has
type 0 and the recorded height `config.skyscraperHeight`; for `buildingStyle` 2
every placed building has type 1 and the recorded height `config.towerHeight`; one
type and one height are recorded per placed building. -/
theorem placeBuildingsRandomly_uniform_style {F R : Type} (ops : FloatOps F)
    (rm : RandModel R) (s : CityScene F) (r : R) :
    (placeBuildingsRandomly ops rm s r).1.buildingTypes.length
      = (placeBuildingsRandomly ops rm s r).1.buildingCells.length ∧
    (placeBuildingsRandomly ops rm s r).1.buildingHeights.length
      = (placeBuildingsRandomly ops rm s r).1.buildingCells.length ∧
    (s.config.buildingStyle = 1 →
      (∀ ty ∈ (placeBuildingsRandomly ops rm s r).1.buildingTypes, ty = 0) ∧
      (∀ h ∈ (placeBuildingsRandomly ops rm s r).1.buildingHeights,
        h = s.config.skyscraperHeight)) ∧
    (s.config.buildingStyle = 2 →
      (∀ ty ∈ (placeBuildingsRandomly ops rm s r).1.buildingTypes, ty = 1) ∧
      (∀ h ∈ (placeBuildingsRandomly ops rm s r).1.buildingHeights,
        h = s.config.towerHeight)) := by
  have h21 : ¬ ((2 : Int) = 1) := by decide
  have h10 : ¬ ((1 : Int) = 0) := by decide
  apply placeBuildingsRandomly_induction ops rm s r
    (fun t =>
      t.buildingTypes.length = t.buildingCells.length ∧
      t.buildingHeights.length = t.buildingCells.length ∧
      (s.config.buildingStyle = 1 →
        (∀ ty ∈ t.buildingTypes, ty = 0) ∧
        (∀ h ∈ t.buildingHeights, h = s.config.skyscraperHeight)) ∧
      (s.config.buildingStyle = 2 →
        (∀ ty ∈ t.buildingTypes, ty = 1) ∧
        (∀ h ∈ t.buildingHeights, h = s.config.towerHeight)))
  · exact ⟨rfl, rfl, fun _ => ⟨by simp, by simp⟩, fun _ => ⟨by simp, by simp⟩⟩
  · intro t x z i hcfg ⟨hlenT, hlenH, hsky, htow⟩
    rw [recordBuilding_buildingTypes, recordBuilding_buildingHeights,
      recordBuilding_buildingCells]
    refine ⟨by simp only [List.length_append, List.length_singleton, hlenT],
      by simp only [List.length_append, List.length_singleton, hlenH], ?_, ?_⟩
    · intro hs1
      have hnext : nextBuildingType t = 0 := by
        unfold nextBuildingType
        rw [hcfg, if_pos hs1]
      obtain ⟨ht, hh⟩ := hsky hs1
      constructor
      · intro ty hty
        rcases List.mem_append.1 hty with hty | hty
        · exact ht ty hty
        · rw [List.mem_singleton] at hty
          rw [hty, hnext]
      · intro h hh2
        rcases List.mem_append.1 hh2 with hh2 | hh2
        · exact hh h hh2
        · rw [List.mem_singleton] at hh2
          rw [hh2, hnext]
          unfold getFuturisticHeight
          rw [if_pos rfl, hcfg]
    · intro hs2
      have hnext : nextBuildingType t = 1 := by
        unfold nextBuildingType
        rw [hcfg, hs2, if_neg h21, if_pos rfl]
      obtain ⟨ht, hh⟩ := htow hs2
      constructor
      · intro ty hty
        rcases List.mem_append.1 hty with hty | hty
        · exact ht ty hty
        · rw [List.mem_singleton] at hty
          rw [hty, hnext]
      · intro h hh2
        rcases List.mem_append.1 hh2 with hh2 | hh2
        · exact hh h hh2
        · rw [List.mem_singleton] at hh2
          rw [hh2, hnext]
          unfold getFuturisticHeight
          rw [if_neg h10, if_pos rfl, hcfg]

/-! ## Trees -/

/-- Recording one more feature on a free square keeps the placement invariant. -/
theorem placedInv_mark {F : Type} (size : Int) (cells : List (Int × Int))
    (s0 t u : CityScene F) (x z : Int) (hinv : PlacedInv size cells s0 t)
    (hfree : isGridCellFree t x z size = true)
    (hroad : u.roadCells = t.roadCells) (hgs : u.gridSize = t.gridSize)
    (hcfg : u.config = t.config)
    (hgrid : u.occupiedGrid = (markGridCells t x z size).occupiedGrid) :
    PlacedInv size (cells ++ [(x, z)]) s0 u := by
  rw [isGridCellFree_iff] at hfree
  obtain ⟨hkeep, hle, hshape, hfoot, hpair⟩ := hinv
  have hocc : ∀ a b, Occupied u a b ↔ Occupied (markGridCells t x z size) a b := by
    intro a b
    unfold Occupied
    rw [hgrid]
  have hin : ∀ a b, InGrid u a b ↔ InGrid t a b := by
    intro a b
    unfold InGrid
    rw [hgs]
  have hmono : GridLe t u := fun a b hab => (hocc a b).2 (markGridCells_mono t x z size a b hab)
  have hshapeU : GridShape u := by
    have hm := markGridCells_gridShape t x z size hshape
    unfold GridShape at hm ⊢
    rw [hgrid, hgs]
    exact hm
  refine ⟨keeps_trans hkeep ⟨hroad, hgs, hcfg, fun _ => hshapeU⟩, gridLe_trans hle hmono,
    hshapeU, ?_, ?_⟩
  · intro c hc a b hsq
    rw [List.mem_append, List.mem_singleton] at hc
    rcases hc with hc | rfl
    · obtain ⟨hing, hoc, hnot⟩ := hfoot c hc a b hsq
      exact ⟨(hin a b).2 hing, hmono a b hoc, hnot⟩
    · obtain ⟨hing, hnot⟩ := hfree a b hsq
      refine ⟨(hin a b).2 hing, ?_, fun h0 => hnot (hle a b h0)⟩
      exact (hocc a b).2 ((occupied_markGridCells t x z size a b hshape hing).2 (Or.inr hsq))
  · rw [List.pairwise_append]
    refine ⟨hpair, List.pairwise_singleton _ _, ?_⟩
    intro p hp q hq a b hboth
    rw [List.mem_singleton] at hq
    subst hq
    exact (hfree a b hboth.2).2 (hfoot p hp a b hboth.1).2.1

/-- A cell returned by the search loop lies in `[lo, gridSize - lo)` in both
coordinates when that interval is not empty. -/
theorem findFreeCell_range {F R : Type} (rm : RandModel R) (s : CityScene F) (lo size : Int)
    (hg : 2 * lo < s.gridSize) :
    ∀ (n : Nat) (r : R) (x z : Int),
      (findFreeCell rm s lo size n r).1 = some (x, z) →
      lo ≤ x ∧ x < s.gridSize - lo ∧ lo ≤ z ∧ z < s.gridSize - lo := by
  intro n
  induction n with
  | zero => intro r x z h; simp [findFreeCell] at h
  | succ n ih =>
    intro r x z h
    simp only [findFreeCell] at h
    split at h
    · simp only [Option.some.injEq, Prod.mk.injEq] at h
      obtain ⟨rfl, rfl⟩ := h
      have hpos : 0 < s.gridSize - 2 * lo := by omega
      have a1 := Int.tmod_nonneg (s.gridSize - 2 * lo) (Int.ofNat_nonneg (rm.rand r).1)
      have a2 := Int.tmod_lt_of_pos ((rm.rand r).1 : Int) hpos
      have b1 := Int.tmod_nonneg (s.gridSize - 2 * lo)
        (Int.ofNat_nonneg (rm.rand (rm.rand r).2).1)
      have b2 := Int.tmod_lt_of_pos ((rm.rand (rm.rand r).2).1 : Int) hpos
      refine ⟨?_, ?_, ?_, ?_⟩ <;> omega
    · exact ih _ x z h

/-- The two outcomes of one iteration of the loop of `placeTrees`: a tree is
recorded at the cell `(x, z)` that the search returned and its 3x3 area marked
(city_scene.cpp:257-258), or the search failed and the scene is unchanged. -/
theorem placeTreeStep_cases {F R : Type} (rm : RandModel R) (st : CityScene F × R) (i : Int) :
    (∃ x z, (findFreeCell rm st.1 3 3 50 st.2).1 = some (x, z) ∧
      (placeTreeStep rm st i).1
        = markGridCells { st.1 with treeCells := st.1.treeCells ++ [(x, z)] } x z 3) ∨
    ((findFreeCell rm st.1 3 3 50 st.2).1 = none ∧ (placeTreeStep rm st i).1 = st.1) := by
  unfold placeTreeStep
  rcases hfind : findFreeCell rm st.1 3 3 50 st.2 with ⟨_ | ⟨x, z⟩, q⟩
  · exact Or.inr ⟨rfl, rfl⟩
  · exact Or.inl ⟨x, z, rfl, rfl⟩

/-- Induction over the trees recorded by `placeTrees`: a property of the scene with
`treeCells` cleared that is kept whenever a tree is recorded on a free 3x3 square
holds of the result. -/
theorem placeTrees_induction {F R : Type} (rm : RandModel R) (s : CityScene F) (r : R)
    (P : CityScene F → Prop) (h0 : P { s with treeCells := [] })
    (hstep : ∀ (t : CityScene F) (x z : Int), isGridCellFree t x z 3 = true →
      (6 < t.gridSize → 3 ≤ x ∧ x < t.gridSize - 3 ∧ 3 ≤ z ∧ z < t.gridSize - 3) → P t →
      P (markGridCells { t with treeCells := t.treeCells ++ [(x, z)] } x z 3)) :
    P (placeTrees rm s r).1 := by
  unfold placeTrees
  dsimp only
  apply foldl_invariant (fun st : CityScene F × R => P st.1)
  · intro st i hp
    rcases placeTreeStep_cases rm st i with ⟨x, z, hfind, heq⟩ | ⟨_, heq⟩
    · rw [heq]
      exact hstep st.1 x z (findFreeCell_free rm st.1 3 3 50 st.2 x z hfind)
        (fun hg => findFreeCell_range rm st.1 3 3 (by omega) 50 st.2 x z hfind) hp
    · rw [heq]; exact hp
  · exact h0

theorem placeTreeStep_length {F R : Type} (rm : RandModel R)
    (st : CityScene F × R) (i : Int) :
    (placeTreeStep rm st i).1.treeCells.length ≤ st.1.treeCells.length + 1 := by
  rcases placeTreeStep_cases rm st i with ⟨x, z, _, heq⟩ | ⟨_, heq⟩
  · rw [heq]
    show (st.1.treeCells ++ [(x, z)]).length ≤ st.1.treeCells.length + 1
    rw [List.length_append]
    exact le_rfl
  · rw [heq]; exact Nat.le_succ _

theorem foldl_placeTreeStep_length {F R : Type} (rm : RandModel R) :
    ∀ (l : List Int) (st : CityScene F × R),
      (l.foldl (placeTreeStep rm) st).1.treeCells.length ≤ st.1.treeCells.length + l.length := by
  intro l
  induction l with
  | nil => intro st; exact le_rfl
  | cons i l ih =>
    intro st
    rw [List.foldl_cons, List.length_cons]
    have h1 := ih (placeTreeStep rm st i)
    have h2 := placeTreeStep_length rm st i
    omega

/-- The trees placed after roads and buildings: the placement invariant relative to
the scene left by the buildings, the buildings untouched, and every tree cell in
`[3, gridSize - 3)`. -/
theorem placeTrees_inv {F R : Type} (rm : RandModel R) (sb : CityScene F) (r : R)
    (hsb : GridShape sb) :
    PlacedInv 3 (placeTrees rm sb r).1.treeCells sb (placeTrees rm sb r).1 ∧
    (placeTrees rm sb r).1.buildingCells = sb.buildingCells ∧
    (6 < sb.gridSize → ∀ c ∈ (placeTrees rm sb r).1.treeCells,
      3 ≤ c.1 ∧ c.1 < sb.gridSize - 3 ∧ 3 ≤ c.2 ∧ c.2 < sb.gridSize - 3) := by
  apply placeTrees_induction rm sb r
    (fun t => PlacedInv 3 t.treeCells sb t ∧ t.buildingCells = sb.buildingCells ∧
      (6 < sb.gridSize → ∀ c ∈ t.treeCells,
        3 ≤ c.1 ∧ c.1 < sb.gridSize - 3 ∧ 3 ≤ c.2 ∧ c.2 < sb.gridSize - 3))
  · exact ⟨⟨⟨rfl, rfl, rfl, id⟩, gridLe_of_grid_eq rfl, hsb, by simp, List.Pairwise.nil⟩, rfl,
      fun _ => by simp⟩
  · intro t x z hfree hrange ⟨hinv, hb, hcells⟩
    refine ⟨placedInv_mark 3 t.treeCells sb t _ x z hinv hfree rfl rfl rfl rfl, hb, ?_⟩
    intro hg c hc
    have hgs : t.gridSize = sb.gridSize := hinv.1.2.1
    rcases List.mem_append.1 hc with hc | hc
    · exact hcells hg c hc
    · rw [List.mem_singleton] at hc
      subst hc
      have := hrange (by rw [hgs]; exact hg)
      rw [hgs] at this
      exact this

theorem placeTrees_length {F R : Type} (rm : RandModel R) (s : CityScene F) (r : R) :
    (placeTrees rm s r).1.treeCells.length ≤ (s.config.citySize * 8).toNat := by
  unfold placeTrees
  dsimp only
  have h := foldl_placeTreeStep_length rm (intRange 0 (s.config.citySize * 8 - 1))
    ({ s with treeCells := [] }, rm.srand 54321)
  rw [length_intRange_zero] at h
  simpa using h

/-- C13: on a grid of shape `gridSize × gridSize` with `gridSize > 6`, after roads
and buildings, whatever the random draws, `placeTrees` places at most
`8 * citySize` trees, each at a cell `(x,z)` with `3 ≤ x,z < gridSize-3`; a tree is
recorded at the first of its 50 candidates whose 3x3 footprint is entirely free,
and that footprint is then reserved; with no free candidate the scene is left as
it is.  Every cell of a tree footprint is occupied, is no road cell and lies in no
building's 5x5 footprint, and the footprints of different trees are disjoint. -/
theorem placeTrees_spec {F R : Type} (ops : FloatOps F) (rm : RandModel R)
    (s : CityScene F) (r : R) (hs : GridShape s) (hg : 6 < s.gridSize) :
    (placeTrees rm (placeBuildingsRandomly ops rm (layRoads s) r).1
        (placeBuildingsRandomly ops rm (layRoads s) r).2).1.treeCells.length
      ≤ (s.config.citySize * 8).toNat ∧
    (∀ c ∈ (placeTrees rm (placeBuildingsRandomly ops rm (layRoads s) r).1
        (placeBuildingsRandomly ops rm (layRoads s) r).2).1.treeCells,
      3 ≤ c.1 ∧ c.1 < s.gridSize - 3 ∧ 3 ≤ c.2 ∧ c.2 < s.gridSize - 3) ∧
    (∀ (st : CityScene F × R) (i : Int),
      (∀ x z, (candidateCells rm st.1.gridSize 3 50 st.2).find?
            (fun c => isGridCellFree st.1 c.1 c.2 3) = some (x, z) →
          isGridCellFree st.1 x z 3 = true ∧
          (placeTreeStep rm st i).1
            = markGridCells { st.1 with treeCells := st.1.treeCells ++ [(x, z)] } x z 3) ∧
      ((candidateCells rm st.1.gridSize 3 50 st.2).find?
            (fun c => isGridCellFree st.1 c.1 c.2 3) = none →
          (placeTreeStep rm st i).1 = st.1)) ∧
    (∀ c ∈ (placeTrees rm (placeBuildingsRandomly ops rm (layRoads s) r).1
        (placeBuildingsRandomly ops rm (layRoads s) r).2).1.treeCells,
      ∀ i j, (c.1 - 1 ≤ i ∧ i ≤ c.1 + 1 ∧ c.2 - 1 ≤ j ∧ j ≤ c.2 + 1) →
        (0 ≤ i ∧ i < s.gridSize ∧ 0 ≤ j ∧ j < s.gridSize) ∧
        gridGet (placeTrees rm (placeBuildingsRandomly ops rm (layRoads s) r).1
          (placeBuildingsRandomly ops rm (layRoads s) r).2).1.occupiedGrid i j = true ∧
        (i, j) ∉ (placeTrees rm (placeBuildingsRandomly ops rm (layRoads s) r).1
          (placeBuildingsRandomly ops rm (layRoads s) r).2).1.roadCells ∧
        ∀ b ∈ (placeTrees rm (placeBuildingsRandomly ops rm (layRoads s) r).1
          (placeBuildingsRandomly ops rm (layRoads s) r).2).1.buildingCells,
          ¬ (b.1 - 2 ≤ i ∧ i ≤ b.1 + 2 ∧ b.2 - 2 ≤ j ∧ j ≤ b.2 + 2)) ∧
    (placeTrees rm (placeBuildingsRandomly ops rm (layRoads s) r).1
        (placeBuildingsRandomly ops rm (layRoads s) r).2).1.treeCells.Pairwise
      (fun p q => ∀ i j,
        ¬ ((p.1 - 1 ≤ i ∧ i ≤ p.1 + 1 ∧ p.2 - 1 ≤ j ∧ j ≤ p.2 + 1) ∧
           (q.1 - 1 ≤ i ∧ i ≤ q.1 + 1 ∧ q.2 - 1 ≤ j ∧ j ≤ q.2 + 1))) := by
  have h32 : Int.tdiv 3 2 = 1 := by decide
  have h52 : Int.tdiv 5 2 = 2 := by decide
  have hsq3 : ∀ x z i j : Int,
      InSquare x z 3 i j ↔ (x - 1 ≤ i ∧ i ≤ x + 1 ∧ z - 1 ≤ j ∧ j ≤ z + 1) := by
    intro x z i j; unfold InSquare; rw [h32]
  have hsq5 : ∀ x z i j : Int,
      InSquare x z 5 i j ↔ (x - 2 ≤ i ∧ i ≤ x + 2 ∧ z - 2 ≤ j ∧ j ≤ z + 2) := by
    intro x z i j; unfold InSquare; rw [h52]
  obtain ⟨hgs1, hcfg1, hshape1⟩ := layRoads_keeps s
  obtain ⟨hkeepB, hleB, hshapeB, hfootB, _⟩ :=
    placeBuildingsRandomly_inv ops rm (layRoads s) r (hshape1 hs)
  have hgsB : (placeBuildingsRandomly ops rm (layRoads s) r).1.gridSize = s.gridSize :=
    hkeepB.2.1.trans hgs1
  have hcfgB : (placeBuildingsRandomly ops rm (layRoads s) r).1.config = s.config :=
    hkeepB.2.2.1.trans hcfg1
  obtain ⟨⟨hkeepT, hleT, hshapeT, hfootT, hpairT⟩, hbT, hrangeT⟩ :=
    placeTrees_inv rm (placeBuildingsRandomly ops rm (layRoads s) r).1
      (placeBuildingsRandomly ops rm (layRoads s) r).2 hshapeB
  have hgsT : (placeTrees rm (placeBuildingsRandomly ops rm (layRoads s) r).1
      (placeBuildingsRandomly ops rm (layRoads s) r).2).1.gridSize = s.gridSize :=
    hkeepT.2.1.trans hgsB
  refine ⟨?_, ?_, ?_, ?_, ?_⟩
  · have h := placeTrees_length rm (placeBuildingsRandomly ops rm (layRoads s) r).1
      (placeBuildingsRandomly ops rm (layRoads s) r).2
    rw [hcfgB] at h
    exact h
  · have h := hrangeT (by rw [hgsB]; exact hg)
    rw [hgsB] at h
    exact h
  · intro st i
    have hfst := findFreeCell_eq_find rm st.1 3 3 50 st.2
    constructor
    · intro x z hxz
      rw [← hfst] at hxz
      refine ⟨findFreeCell_free rm st.1 3 3 50 st.2 x z hxz, ?_⟩
      rcases placeTreeStep_cases rm st i with ⟨x2, z2, hfind, heq⟩ | ⟨hnone, _⟩
      · rw [hfind] at hxz
        simp only [Option.some.injEq, Prod.mk.injEq] at hxz
        obtain ⟨rfl, rfl⟩ := hxz
        exact heq
      · rw [hnone] at hxz; cases hxz
    · intro hnone
      rw [← hfst] at hnone
      rcases placeTreeStep_cases rm st i with ⟨x2, z2, hfind, _⟩ | ⟨_, heq⟩
      · rw [hfind] at hnone; cases hnone
      · exact heq
  · intro c hc i j hcell
    obtain ⟨hin, hocc, hnot⟩ := hfootT c hc i j ((hsq3 _ _ _ _).2 hcell)
    have hinS : InGrid s i j := by
      unfold InGrid at hin ⊢
      rw [hgsT] at hin
      exact hin
    refine ⟨hinS, hocc, ?_, ?_⟩
    · intro hroad
      rw [hkeepT.1, hkeepB.1] at hroad
      exact hnot (hleB i j ((occupied_layRoads s hs i j hinS).2 (Or.inr hroad)))
    · intro b hb hbsq
      rw [hbT] at hb
      exact hnot (hfootB b hb i j ((hsq5 _ _ _ _).2 hbsq)).2.1
  · refine hpairT.imp ?_
    intro p q hpq i j hboth
    exact hpq i j ⟨(hsq3 _ _ _ _).2 hboth.1, (hsq3 _ _ _ _).2 hboth.2⟩

/-! ## Street lamps -/

theorem cAbs_eq_abs (a : Int) : cAbs a = |a| := by
  unfold cAbs
  split
  · rename_i h; rw [abs_of_neg h]
  · rename_i h; rw [abs_of_nonneg (by omega)]

theorem mem_strideSix (lo hi i : Int) :
    i ∈ strideSix lo hi ↔ ∃ k : Nat, i = lo + 6 * (k : Int) ∧ i < hi := by
  unfold strideSix
  simp only [List.mem_map, List.mem_range]
  constructor
  · rintro ⟨k, hk, rfl⟩
    exact ⟨k, rfl, by omega⟩
  · rintro ⟨k, rfl, hlt⟩
    exact ⟨k, by omega, rfl⟩

theorem mem_lampsAlong (center : Int) (pair : Int → List (Int × Int)) (c : Int × Int) :
    ∀ l : List Int,
      c ∈ lampsAlong center pair l ↔ ∃ i ∈ l, cAbs (i - center) > 3 ∧ c ∈ pair i := by
  intro l
  induction l with
  | nil => simp [lampsAlong]
  | cons i l ih =>
    simp only [lampsAlong, List.mem_append, ih, List.mem_cons, exists_eq_or_imp]
    by_cases h : cAbs (i - center) > 3
    · simp only [h, if_true, true_and]
    · simp only [h, if_false, false_and, List.not_mem_nil]

/-- A single free cell lies in the grid and is unoccupied. -/
theorem isGridCellFree_one {F : Type} (s : CityScene F) (x z : Int)
    (h : isGridCellFree s x z 1 = true) : InGrid s x z ∧ ¬ Occupied s x z :=
  (isGridCellFree_iff s x z 1).1 h x z ((inSquare_one x z x z).2 ⟨rfl, rfl⟩)

/-- A guarded placement of `placeStreetLamps` is a visit of its candidate, when the
extra conjunct of the guard follows from the cell being free. -/
theorem placeLampAt_eq_visitLamp {F : Type} (s : CityScene F) (g : Bool) (x z : Int)
    (hg : isGridCellFree s x z 1 = true → g = true) :
    placeLampAt s g x z = visitLamp s (x, z) := by
  unfold placeLampAt visitLamp
  by_cases hfree : isGridCellFree s x z 1 = true
  · rw [if_pos ⟨hg hfree, hfree⟩, if_pos hfree]
  · rw [if_neg (fun h => hfree h.2), if_neg hfree]

/-- One sweep of `placeStreetLamps` visits the candidates along its road in order. -/
theorem foldl_sweep_eq_visit {F : Type} (center : Int) (x1 z1 x2 z2 : Int → Int)
    (g1 : CityScene F → Bool) (g2 : Bool)
    (hg1 : ∀ (u : CityScene F) (i : Int), isGridCellFree u (x1 i) (z1 i) 1 = true → g1 u = true)
    (hg2 : ∀ (u : CityScene F) (i : Int), isGridCellFree u (x2 i) (z2 i) 1 = true → g2 = true) :
    ∀ (l : List Int) (u : CityScene F),
      l.foldl
          (fun s i =>
            if cAbs (i - center) > 3 then
              placeLampAt (placeLampAt s (g1 s) (x1 i) (z1 i)) g2 (x2 i) (z2 i)
            else s)
          u
        = (lampsAlong center (fun i => [(x1 i, z1 i), (x2 i, z2 i)]) l).foldl visitLamp u := by
  intro l
  induction l with
  | nil => intro u; rfl
  | cons i l ih =>
    intro u
    rw [List.foldl_cons, ih, lampsAlong, List.foldl_append]
    by_cases h : cAbs (i - center) > 3
    · rw [if_pos h, if_pos h, placeLampAt_eq_visitLamp u (g1 u) (x1 i) (z1 i) (hg1 u i),
        placeLampAt_eq_visitLamp _ g2 (x2 i) (z2 i) (hg2 _ i)]
      rfl
    · rw [if_neg h, if_neg h]
      rfl

/-- The method `placeStreetLamps` visits the lamp candidates in order. -/
theorem placeStreetLamps_eq_visits {F : Type} (u : CityScene F) :
    placeStreetLamps u
      = (lampCandidates u.gridSize).foldl visitLamp { u with streetLamps := [] } := by
  unfold placeStreetLamps lampCandidates
  dsimp only
  rw [List.foldl_append]
  rw [foldl_sweep_eq_visit (Int.tdiv u.gridSize 2) (fun i => i)
      (fun _ => Int.tdiv u.gridSize 2 + 2) (fun i => i) (fun _ => Int.tdiv u.gridSize 2 - 2)
      (fun t => decide (Int.tdiv u.gridSize 2 + 2 < t.gridSize))
      (decide (Int.tdiv u.gridSize 2 - 2 ≥ 0))
      (by
        intro t i hfree
        have := (isGridCellFree_one t _ _ hfree).1
        unfold InGrid at this
        exact decide_eq_true this.2.2.2)
      (by
        intro t i hfree
        have := (isGridCellFree_one t _ _ hfree).1
        unfold InGrid at this
        exact decide_eq_true this.2.2.1)]
  rw [foldl_sweep_eq_visit (Int.tdiv u.gridSize 2) (fun _ => Int.tdiv u.gridSize 2 + 2)
      (fun j => j) (fun _ => Int.tdiv u.gridSize 2 - 2) (fun j => j)
      (fun t => decide (Int.tdiv u.gridSize 2 + 2 < t.gridSize))
      (decide (Int.tdiv u.gridSize 2 - 2 ≥ 0))
      (by
        intro t i hfree
        have := (isGridCellFree_one t _ _ hfree).1
        unfold InGrid at this
        exact decide_eq_true this.2.1)
      (by
        intro t i hfree
        have := (isGridCellFree_one t _ _ hfree).1
        unfold InGrid at this
        exact decide_eq_true this.1)]

/-- A visit keeps the placement invariant of the lamps and leaves buildings and trees alone. -/
theorem visitLamp_inv {F : Type} (s0 u : CityScene F) (c : Int × Int)
    (h : PlacedInv 1 u.streetLamps s0 u) :
    PlacedInv 1 (visitLamp u c).streetLamps s0 (visitLamp u c) ∧
    (visitLamp u c).buildingCells = u.buildingCells ∧
    (visitLamp u c).treeCells = u.treeCells := by
  unfold visitLamp
  by_cases hfree : isGridCellFree u c.1 c.2 1 = true
  · rw [if_pos hfree]
    exact ⟨placedInv_mark 1 u.streetLamps s0 u _ c.1 c.2 h hfree rfl rfl rfl rfl, rfl, rfl⟩
  · rw [if_neg hfree]
    exact ⟨h, rfl, rfl⟩

/-- The lamps recorded by a sequence of visits are some of the visited cells, in order. -/
theorem foldl_visitLamp_sublist {F : Type} :
    ∀ (l : List (Int × Int)) (u : CityScene F),
      ∃ placed : List (Int × Int), placed.Sublist l ∧
        (l.foldl visitLamp u).streetLamps = u.streetLamps ++ placed := by
  intro l
  induction l with
  | nil => intro u; exact ⟨[], List.Sublist.slnil, by simp⟩
  | cons c l ih =>
    intro u
    obtain ⟨placed, hsub, heq⟩ := ih (visitLamp u c)
    rw [List.foldl_cons, heq]
    unfold visitLamp
    by_cases hfree : isGridCellFree u c.1 c.2 1 = true
    · rw [if_pos hfree]
      refine ⟨c :: placed, hsub.cons₂ c, ?_⟩
      show (u.streetLamps ++ [c]) ++ placed = u.streetLamps ++ c :: placed
      simp
    · rw [if_neg hfree]
      exact ⟨placed, hsub.cons c, rfl⟩

/-- The lamps placed from a scene `t` of the right shape: the placement invariant
relative to `t`, buildings and trees untouched, and the lamps among the candidates. -/
theorem placeStreetLamps_inv {F : Type} (t : CityScene F) (ht : GridShape t) :
    PlacedInv 1 (placeStreetLamps t).streetLamps t (placeStreetLamps t) ∧
    (placeStreetLamps t).buildingCells = t.buildingCells ∧
    (placeStreetLamps t).treeCells = t.treeCells ∧
    (placeStreetLamps t).streetLamps.Sublist (lampCandidates t.gridSize) := by
  rw [placeStreetLamps_eq_visits]
  have hinv := foldl_invariant
    (fun u : CityScene F => PlacedInv 1 u.streetLamps t u ∧
      u.buildingCells = t.buildingCells ∧ u.treeCells = t.treeCells)
    visitLamp
    (by
      intro u c ⟨h1, h2, h3⟩
      obtain ⟨k1, k2, k3⟩ := visitLamp_inv t u c h1
      exact ⟨k1, k2.trans h2, k3.trans h3⟩)
    (lampCandidates t.gridSize) { t with streetLamps := [] }
    ⟨⟨⟨rfl, rfl, rfl, id⟩, gridLe_of_grid_eq rfl, ht, by simp, List.Pairwise.nil⟩, rfl, rfl⟩
  obtain ⟨placed, hsub, heq⟩ :=
    foldl_visitLamp_sublist (lampCandidates t.gridSize) { t with streetLamps := [] }
  refine ⟨hinv.1, hinv.2.1, hinv.2.2, ?_⟩
  rw [heq]
  simpa using hsub

/-- After roads, buildings and trees the grid has its shape and size, and the road
cells inside the grid, the 5x5 squares of the buildings and the 3x3 squares of the
trees are all occupied. -/
theorem afterTrees_occupied {F R : Type} (ops : FloatOps F) (rm : RandModel R)
    (s : CityScene F) (r : R) (hs : GridShape s) :
    GridShape (afterTrees ops rm s r) ∧ (afterTrees ops rm s r).gridSize = s.gridSize ∧
    (∀ c ∈ (afterTrees ops rm s r).roadCells, InGrid s c.1 c.2 →
      Occupied (afterTrees ops rm s r) c.1 c.2) ∧
    (∀ b ∈ (afterTrees ops rm s r).buildingCells, ∀ i j, InSquare b.1 b.2 5 i j →
      Occupied (afterTrees ops rm s r) i j) ∧
    (∀ t ∈ (afterTrees ops rm s r).treeCells, ∀ i j, InSquare t.1 t.2 3 i j →
      Occupied (afterTrees ops rm s r) i j) := by
  obtain ⟨hgs1, _, hshape1⟩ := layRoads_keeps s
  obtain ⟨hkeepB, hleB, hshapeB, hfootB, _⟩ :=
    placeBuildingsRandomly_inv ops rm (layRoads s) r (hshape1 hs)
  obtain ⟨⟨hkeepT, hleT, hshapeT, hfootT, _⟩, hbT, _⟩ :=
    placeTrees_inv rm (placeBuildingsRandomly ops rm (layRoads s) r).1
      (placeBuildingsRandomly ops rm (layRoads s) r).2 hshapeB
  refine ⟨hshapeT, hkeepT.2.1.trans (hkeepB.2.1.trans hgs1), ?_, ?_, ?_⟩
  · intro c hc hin
    have hroad : c ∈ (layRoads s).roadCells := by
      have h2 : (afterTrees ops rm s r).roadCells = (layRoads s).roadCells :=
        hkeepT.1.trans hkeepB.1
      rw [← h2]; exact hc
    exact hleT _ _ (hleB _ _ ((occupied_layRoads s hs c.1 c.2 hin).2 (Or.inr hroad)))
  · intro b hb i j hsq
    have hb2 : b ∈ (placeBuildingsRandomly ops rm (layRoads s) r).1.buildingCells := by
      rw [← hbT]; exact hb
    exact hleT i j (hfootB b hb2 i j hsq).2.1
  · intro t ht i j hsq
    exact (hfootT t ht i j hsq).2.1

theorem mem_lampCandidates (g : Int) (c : Int × Int) :
    c ∈ lampCandidates g ↔
      ∃ k : Nat, 8 + 6 * (k : Int) < g - 8 ∧ 3 < |8 + 6 * (k : Int) - Int.tdiv g 2| ∧
        (c = (8 + 6 * (k : Int), Int.tdiv g 2 + 2) ∨ c = (8 + 6 * (k : Int), Int.tdiv g 2 - 2) ∨
         c = (Int.tdiv g 2 + 2, 8 + 6 * (k : Int)) ∨ c = (Int.tdiv g 2 - 2, 8 + 6 * (k : Int))) := by
  unfold lampCandidates
  simp only [List.mem_append, mem_lampsAlong, mem_strideSix, cAbs_eq_abs, List.mem_cons,
    List.mem_singleton, List.not_mem_nil, or_false, gt_iff_lt]
  constructor
  · rintro (⟨i, ⟨k, rfl, hlt⟩, habs, hc⟩ | ⟨i, ⟨k, rfl, hlt⟩, habs, hc⟩)
    · refine ⟨k, hlt, habs, ?_⟩
      rcases hc with hc | hc
      · exact Or.inl hc
      · exact Or.inr (Or.inl hc)
    · refine ⟨k, hlt, habs, ?_⟩
      rcases hc with hc | hc
      · exact Or.inr (Or.inr (Or.inl hc))
      · exact Or.inr (Or.inr (Or.inr hc))
  · rintro ⟨k, hlt, habs, hc | hc | hc | hc⟩
    · exact Or.inl ⟨_, ⟨k, rfl, hlt⟩, habs, Or.inl hc⟩
    · exact Or.inl ⟨_, ⟨k, rfl, hlt⟩, habs, Or.inr hc⟩
    · exact Or.inr ⟨_, ⟨k, rfl, hlt⟩, habs, Or.inl hc⟩
    · exact Or.inr ⟨_, ⟨k, rfl, hlt⟩, habs, Or.inr hc⟩

/-- C14: `placeStreetLamps` visits, in order, the candidate cells `(i,c+2)`, `(i,c-2)`
along the horizontal road and `(c+2,j)`, `(c-2,j)` along the vertical road, where
`c = gridSize/2` and `i`, `j` run over 8, 14, 20, … below `gridSize-8` with
`|i-c| > 3`; at each visit a lamp is placed exactly when the cell is free, and
that single cell is then reserved.  In the layout run on a grid of shape
`gridSize × gridSize`, the lamps are among the candidates, pairwise distinct,
occupied, and none is a road cell or lies in a 5x5 building footprint or a 3x3
tree footprint. -/
theorem placeStreetLamps_spec {F R : Type} (ops : FloatOps F) (rm : RandModel R)
    (s : CityScene F) (r : R) (hs : GridShape s) :
    (∀ u : CityScene F,
      placeStreetLamps u
        = (lampCandidates u.gridSize).foldl visitLamp { u with streetLamps := [] }) ∧
    (∀ (u : CityScene F) (c : Int × Int),
      (isGridCellFree u c.1 c.2 1 = true →
        visitLamp u c
          = markGridCells { u with streetLamps := u.streetLamps ++ [c] } c.1 c.2 1) ∧
      (isGridCellFree u c.1 c.2 1 = false → visitLamp u c = u)) ∧
    (∀ (g : Int) (c : Int × Int),
      c ∈ lampCandidates g ↔
        ∃ k : Nat, 8 + 6 * (k : Int) < g - 8 ∧ 3 < |8 + 6 * (k : Int) - Int.tdiv g 2| ∧
          (c = (8 + 6 * (k : Int), Int.tdiv g 2 + 2) ∨
           c = (8 + 6 * (k : Int), Int.tdiv g 2 - 2) ∨
           c = (Int.tdiv g 2 + 2, 8 + 6 * (k : Int)) ∨
           c = (Int.tdiv g 2 - 2, 8 + 6 * (k : Int)))) ∧
    (placeStreetLamps (afterTrees ops rm s r)).streetLamps.Sublist
      (lampCandidates s.gridSize) ∧
    (placeStreetLamps (afterTrees ops rm s r)).streetLamps.Nodup ∧
    (∀ c ∈ (placeStreetLamps (afterTrees ops rm s r)).streetLamps,
      (0 ≤ c.1 ∧ c.1 < s.gridSize ∧ 0 ≤ c.2 ∧ c.2 < s.gridSize) ∧
      gridGet (placeStreetLamps (afterTrees ops rm s r)).occupiedGrid c.1 c.2 = true ∧
      c ∉ (placeStreetLamps (afterTrees ops rm s r)).roadCells ∧
      (∀ b ∈ (placeStreetLamps (afterTrees ops rm s r)).buildingCells,
        ¬ (b.1 - 2 ≤ c.1 ∧ c.1 ≤ b.1 + 2 ∧ b.2 - 2 ≤ c.2 ∧ c.2 ≤ b.2 + 2)) ∧
      (∀ t ∈ (placeStreetLamps (afterTrees ops rm s r)).treeCells,
        ¬ (t.1 - 1 ≤ c.1 ∧ c.1 ≤ t.1 + 1 ∧ t.2 - 1 ≤ c.2 ∧ c.2 ≤ t.2 + 1))) := by
  have h32 : Int.tdiv 3 2 = 1 := by decide
  have h52 : Int.tdiv 5 2 = 2 := by decide
  obtain ⟨hshapeT, hgsT, hroadT, hbuildT, htreeT⟩ := afterTrees_occupied ops rm s r hs
  obtain ⟨⟨hkeepL, hleL, hshapeL, hfootL, hpairL⟩, hbL, htL, hsubL⟩ :=
    placeStreetLamps_inv (afterTrees ops rm s r) hshapeT
  refine ⟨placeStreetLamps_eq_visits, ?_, mem_lampCandidates, ?_, ?_, ?_⟩
  · intro u c
    constructor
    · intro hfree
      unfold visitLamp
      rw [if_pos hfree]
    · intro hfree
      unfold visitLamp
      rw [if_neg (by rw [hfree]; decide)]
  · rw [← hgsT]; exact hsubL
  · refine hpairL.imp ?_
    intro p q hpq heq
    subst heq
    exact hpq p.1 p.2 ⟨(inSquare_one _ _ _ _).2 ⟨rfl, rfl⟩, (inSquare_one _ _ _ _).2 ⟨rfl, rfl⟩⟩
  · intro c hc
    obtain ⟨hin, hocc, hnot⟩ := hfootL c hc c.1 c.2 ((inSquare_one _ _ _ _).2 ⟨rfl, rfl⟩)
    have hinS : InGrid s c.1 c.2 := by
      unfold InGrid at hin ⊢
      rw [hkeepL.2.1, hgsT] at hin
      exact hin
    refine ⟨hinS, hocc, ?_, ?_, ?_⟩
    · intro hroad
      rw [hkeepL.1] at hroad
      exact hnot (hroadT c hroad hinS)
    · intro b hb hsq
      rw [hbL] at hb
      apply hnot
      apply hbuildT b hb c.1 c.2
      unfold InSquare
      rw [h52]
      exact hsq
    · intro t ht hsq
      rw [htL] at ht
      apply hnot
      apply htreeT t ht c.1 c.2
      unfold InSquare
      rw [h32]
      exact hsq

/-! ## Concrete instances, continued -/

/-- Instance of `placeBuildingsRandomly_mixed_types` for the mixed small city and the
linear congruential generator: at most 2 skyscrapers and at most 2 towers. -/
theorem placeBuildingsRandomly_mixed_types_witness :
    mixedCity.config.buildingStyle ≠ 1 ∧ mixedCity.config.buildingStyle ≠ 2 ∧
    0 ≤ mixedCity.config.numSkyscrapers ∧ 0 ≤ mixedCity.config.numTowers ∧
    ((placeBuildingsRandomly unitFloatOps lcgRand mixedCity 0).1.buildingTypes.count 0 : Int)
      ≤ mixedCity.config.numSkyscrapers ∧
    ((placeBuildingsRandomly unitFloatOps lcgRand mixedCity 0).1.buildingTypes.count 1 : Int)
      ≤ mixedCity.config.numTowers :=
  ⟨by decide, by decide, by decide, by decide,
    (placeBuildingsRandomly_mixed_types unitFloatOps lcgRand mixedCity 0
      (by decide) (by decide) (by decide) (by decide)).2.2.2⟩

/-- Instance of `placeBuildingsRandomly_uniform_style` for the small city (style 1):
every placed building is a skyscraper. -/
theorem placeBuildingsRandomly_uniform_style_witness :
    smallCity.config.buildingStyle = 1 ∧
    ∀ ty ∈ (placeBuildingsRandomly unitFloatOps lcgRand smallCity 0).1.buildingTypes, ty = 0 :=
  ⟨rfl, ((placeBuildingsRandomly_uniform_style unitFloatOps lcgRand smallCity 0).2.2.1 rfl).1⟩

/-- Instance of `placeTrees_spec` for the small city: at most 8 trees. -/
theorem placeTrees_spec_witness :
    GridShape smallCity ∧ 6 < smallCity.gridSize ∧
    (placeTrees lcgRand (placeBuildingsRandomly unitFloatOps lcgRand (layRoads smallCity) 0).1
        (placeBuildingsRandomly unitFloatOps lcgRand (layRoads smallCity) 0).2).1.treeCells.length
      ≤ (smallCity.config.citySize * 8).toNat :=
  ⟨smallCity_gridShape, by decide,
    (placeTrees_spec unitFloatOps lcgRand smallCity 0 smallCity_gridShape (by decide)).1⟩

/-- Instance of `placeStreetLamps_spec` for the small city: the lamps are pairwise distinct. -/
theorem placeStreetLamps_spec_witness :
    GridShape smallCity ∧
    (placeStreetLamps (afterTrees unitFloatOps lcgRand smallCity 0)).streetLamps.Nodup :=
  ⟨smallCity_gridShape,
    (placeStreetLamps_spec unitFloatOps lcgRand smallCity 0 smallCity_gridShape).2.2.2.2.1⟩

/-- Instance of `generateFuturisticLayout_pond` for the small city with pond radius
5: the pond centre is `(33, 17)`. -/
theorem generateFuturisticLayout_pond_witness :
    GridShape smallCity ∧ 0 ≤ unitFloatOps.toInt smallCity.config.pondRadius ∧
    (generateFuturisticLayout unitFloatOps lcgRand smallCity 0).1.pond_cx = 33 ∧
    (generateFuturisticLayout unitFloatOps lcgRand smallCity 0).1.pond_cy = 17 :=
  ⟨smallCity_gridShape, by decide,
    (generateFuturisticLayout_pond unitFloatOps lcgRand smallCity 0 smallCity_gridShape
      (by decide)).2.2.2.2.1 rfl⟩

/-- Instance of `midpointCircle_distance_bounds` for the circle of radius 3 around `(10, 20)`. -/
theorem midpointCircle_distance_bounds_witness :
    (0 : Int) ≤ 3 ∧
    ∀ p ∈ midpointCircle 10 20 3,
      (p.1 - 10) ^ 2 + (p.2 - 20) ^ 2 ≤ ((3 : Int) + 1) ^ 2 ∧
      ((1 : Int) ≤ 3 → ((3 : Int) - 1) ^ 2 ≤ (p.1 - 10) ^ 2 + (p.2 - 20) ^ 2) ∧
      ((3 : Int) = 0 → p = (10, 20)) :=
  ⟨by decide, midpointCircle_distance_bounds 10 20 3 (by decide)⟩

/-- Instance of `midpointCircle_cardinal_points` for the circle of radius 5 around `(10, 20)`. -/
theorem midpointCircle_cardinal_points_witness :
    (0 : Int) ≤ 5 ∧
    ((10 : Int) + 5, (20 : Int)) ∈ midpointCircle 10 20 5 ∧
    ((10 : Int) - 5, (20 : Int)) ∈ midpointCircle 10 20 5 ∧
    ((10 : Int), (20 : Int) + 5) ∈ midpointCircle 10 20 5 ∧
    ((10 : Int), (20 : Int) - 5) ∈ midpointCircle 10 20 5 :=
  ⟨by decide, midpointCircle_cardinal_points 10 20 5 (by decide)⟩

/-- Instance of `midpointCircle_length` for the circle of radius 5 around `(10, 20)`:
a positive number of points, at most 48. -/
theorem midpointCircle_length_witness :
    (0 : Int) ≤ 5 ∧ 0 < (midpointCircle 10 20 5).length ∧
    8 ∣ (midpointCircle 10 20 5).length ∧
    ((midpointCircle 10 20 5).length : Int) ≤ 8 * (5 + 1) :=
  ⟨by decide, (midpointCircle_length 10 20 5 (by decide)).2.1,
    (midpointCircle_length 10 20 5 (by decide)).2.2.1,
    (midpointCircle_length 10 20 5 (by decide)).2.2.2.1⟩

/-- Instance of `midpointCircle_symmetric` for the point `(3, 1)` of the circle of
radius 3 around the origin. -/
theorem midpointCircle_symmetric_witness :
    ((0 : Int) + 3, (0 : Int) + 1) ∈ midpointCircle 0 0 3 ∧
    ((0 : Int) + 3, (0 : Int) - 1) ∈ midpointCircle 0 0 3 ∧
    ((0 : Int) - 3, (0 : Int) + 1) ∈ midpointCircle 0 0 3 ∧
    ((0 : Int) - 3, (0 : Int) - 1) ∈ midpointCircle 0 0 3 ∧
    ((0 : Int) + 1, (0 : Int) + 3) ∈ midpointCircle 0 0 3 ∧
    ((0 : Int) + 1, (0 : Int) - 3) ∈ midpointCircle 0 0 3 ∧
    ((0 : Int) - 1, (0 : Int) + 3) ∈ midpointCircle 0 0 3 ∧
    ((0 : Int) - 1, (0 : Int) - 3) ∈ midpointCircle 0 0 3 :=
  ⟨by decide, midpointCircle_symmetric 0 0 3 3 1 (by decide)⟩

/-! ## The major axis of `bresenhamLine` -/

/-- The loop of `bresenhamLine`, tracked by step counts.  With `D = |x1 - x0|`,
`A = |y1 - y0|` and `M` the larger of the two, a cell reached after `a` steps in
x and `b` steps in y has `d = b * D - a * A` with `-M ≤ 2 * d ≤ M`; this keeps
holding, the count along the major axis grows by one at every iteration, and the
`k`-th cell of the output is the one with major count `k` more than the first. -/
theorem bresenhamLoop_track (x0 y0 D A M sx sy : Int) (hD : 0 ≤ D) (hA : 0 ≤ A)
    (hM : M = max D A) (hsx : sx = 1 ∨ sx = -1) (hsy : sy = 1 ∨ sy = -1) :
    ∀ (fuel : Nat) (x y err a b d : Int) (pts : List (Int × Int)),
      x = x0 + sx * a → y = y0 + sy * b → d = b * D - a * A → err = d + D - A →
      0 ≤ a → a ≤ D → 0 ≤ b → b ≤ A → -M ≤ 2 * d → 2 * d ≤ M →
      bresenhamLoop (x0 + sx * D) (y0 + sy * A) D (-A) sx sy fuel x y err = some pts →
      (pts.length : Int) = M - (if A ≤ D then a else b) + 1 ∧
      ∀ k : Nat, k < pts.length → ∃ a' b' d' : Int,
        pts[k]? = some (x0 + sx * a', y0 + sy * b') ∧ d' = b' * D - a' * A ∧
        0 ≤ a' ∧ a' ≤ D ∧ 0 ≤ b' ∧ b' ≤ A ∧ -M ≤ 2 * d' ∧ 2 * d' ≤ M ∧
        (if A ≤ D then a' else b') = (if A ≤ D then a else b) + (k : Int) := by
  intro fuel
  induction fuel with
  | zero => intro x y err a b d pts _ _ _ _ _ _ _ _ _ _ h; simp [bresenhamLoop] at h
  | succ n ih =>
    intro x y err a b d pts hx hy hd herr ha0 ha hb0 hb hlo hhi hrun
    simp only [bresenhamLoop] at hrun
    by_cases hxy : x = x0 + sx * D ∧ y = y0 + sy * A
    · rw [if_pos hxy] at hrun
      have hpts : pts = [(x, y)] := by
        simpa using hrun.symm
      have haD : a = D := by
        have h := hxy.1
        rw [hx] at h
        rcases hsx with rfl | rfl <;> omega
      have hbA : b = A := by
        have h := hxy.2
        rw [hy] at h
        rcases hsy with rfl | rfl <;> omega
      subst hpts
      refine ⟨?_, ?_⟩
      · simp only [List.length_singleton, Nat.cast_one]
        split_ifs <;> omega
      · intro k hk
        have hk0 : k = 0 := by simpa using hk
        subst hk0
        refine ⟨a, b, d, ?_, hd, ha0, ha, hb0, hb, hlo, hhi, by simp⟩
        simp [hx, hy]
    · rw [if_neg hxy] at hrun
      have herr2 : err = (b + 1) * D - (a + 1) * A := by rw [herr, hd]; ring
      have hnot : ¬ (a = D ∧ b = A) := by
        rintro ⟨rfl, rfl⟩; exact hxy ⟨hx, hy⟩
      have hxstep : 2 * err ≥ -A → a < D := by
        intro hge
        by_contra hcon
        have hadx : a = D := by omega
        have hblt : b + 1 ≤ A := by omega
        have hprod : 0 ≤ (A - (b + 1)) * D := mul_nonneg (by omega) hD
        subst hadx
        nlinarith
      have hystep : 2 * err ≤ D → b < A := by
        intro hle
        by_contra hcon
        have hbdy : b = A := by omega
        have halt : a + 1 ≤ D := by omega
        have hprod : 0 ≤ (D - (a + 1)) * A := mul_nonneg (by omega) hA
        subst hbdy
        nlinarith
      -- the three possible moves, with the new value of `d`
      have hstep : ∃ (xN yN errN aN bN dN : Int) (rest : List (Int × Int)),
          bresenhamLoop (x0 + sx * D) (y0 + sy * A) D (-A) sx sy n xN yN errN = some rest ∧
          pts = (x, y) :: rest ∧
          xN = x0 + sx * aN ∧ yN = y0 + sy * bN ∧ dN = bN * D - aN * A ∧
          errN = dN + D - A ∧ 0 ≤ aN ∧ aN ≤ D ∧ 0 ≤ bN ∧ bN ≤ A ∧
          -M ≤ 2 * dN ∧ 2 * dN ≤ M ∧
          (if A ≤ D then aN else bN) = (if A ≤ D then a else b) + 1 := by
        by_cases h1 : 2 * err ≥ -A <;> by_cases h2 : 2 * err ≤ D
        · have := hxstep h1
          have := hystep h2
          simp only [if_pos h1, if_pos h2] at hrun
          cases hr : bresenhamLoop (x0 + sx * D) (y0 + sy * A) D (-A) sx sy n
              (x + sx) (y + sy) (err + -A + D) with
          | none => rw [hr] at hrun; simp at hrun
          | some rest =>
            rw [hr] at hrun
            refine ⟨x + sx, y + sy, err + -A + D, a + 1, b + 1, d + D - A, rest, hr,
              by simpa using hrun.symm, by rw [hx]; ring, by rw [hy]; ring,
              by rw [hd]; ring, by omega, by omega, by omega, by omega, by omega,
              by omega, by omega, by split_ifs <;> omega⟩
        · have := hxstep h1
          simp only [if_pos h1, if_neg h2] at hrun
          cases hr : bresenhamLoop (x0 + sx * D) (y0 + sy * A) D (-A) sx sy n
              (x + sx) y (err + -A) with
          | none => rw [hr] at hrun; simp at hrun
          | some rest =>
            rw [hr] at hrun
            refine ⟨x + sx, y, err + -A, a + 1, b, d - A, rest, hr,
              by simpa using hrun.symm, by rw [hx]; ring, hy,
              by rw [hd]; ring, by omega, by omega, by omega, by omega, by omega,
              by omega, by omega, by split_ifs <;> omega⟩
        · have := hystep h2
          simp only [if_neg h1, if_pos h2] at hrun
          cases hr : bresenhamLoop (x0 + sx * D) (y0 + sy * A) D (-A) sx sy n
              x (y + sy) (err + D) with
          | none => rw [hr] at hrun; simp at hrun
          | some rest =>
            rw [hr] at hrun
            refine ⟨x, y + sy, err + D, a, b + 1, d + D, rest, hr,
              by simpa using hrun.symm, hx, by rw [hy]; ring,
              by rw [hd]; ring, by omega, by omega, by omega, by omega, by omega,
              by omega, by omega, by split_ifs <;> omega⟩
        · exfalso; omega
      obtain ⟨xN, yN, errN, aN, bN, dN, rest, hr, hpts, hxN, hyN, hdN, herrN, h1, h2, h3,
        h4, h5, h6, hmaj⟩ := hstep
      obtain ⟨hlen, hcells⟩ := ih xN yN errN aN bN dN rest hxN hyN hdN herrN h1 h2 h3 h4 h5 h6 hr
      subst hpts
      refine ⟨?_, ?_⟩
      · rw [List.length_cons, Nat.cast_succ, hlen, hmaj]; ring
      · intro k hk
        cases k with
        | zero =>
          refine ⟨a, b, d, ?_, hd, ha0, ha, hb0, hb, hlo, hhi, by simp⟩
          simp [hx, hy]
        | succ k =>
          obtain ⟨a', b', d', hget, hd', g1, g2, g3, g4, g5, g6, hm⟩ :=
            hcells k (by simpa using hk)
          refine ⟨a', b', d', ?_, hd', g1, g2, g3, g4, g5, g6, ?_⟩
          · rw [List.getElem?_cons_succ]; exact hget
          · rw [hm, hmaj]; push_cast; ring

/-- The cells of `bresenhamLine`, by step counts: there are `M + 1` of them, where
`M` is the larger of `|x1 - x0|` and `|y1 - y0|`, and the `k`-th has taken `k`
steps along the major axis, `a'` in x and `b'` in y with
`-M ≤ 2 * (b' * |x1 - x0| - a' * |y1 - y0|) ≤ M`. -/
theorem bresenhamLine_track (x0 y0 x1 y1 : Int) :
    ((bresenhamLine x0 y0 x1 y1).length : Int) = max |x1 - x0| |y1 - y0| + 1 ∧
    ∀ k : Nat, k < (bresenhamLine x0 y0 x1 y1).length → ∃ a' b' d' : Int,
      (bresenhamLine x0 y0 x1 y1)[k]? =
        some (x0 + (if x0 < x1 then (1 : Int) else -1) * a',
              y0 + (if y0 < y1 then (1 : Int) else -1) * b') ∧
      d' = b' * |x1 - x0| - a' * |y1 - y0| ∧
      0 ≤ a' ∧ a' ≤ |x1 - x0| ∧ 0 ≤ b' ∧ b' ≤ |y1 - y0| ∧
      -(max |x1 - x0| |y1 - y0|) ≤ 2 * d' ∧ 2 * d' ≤ max |x1 - x0| |y1 - y0| ∧
      (if |y1 - y0| ≤ |x1 - x0| then a' else b') = (k : Int) := by
  have hrun := bresenhamRun_of_le x0 y0 x1 y1 _ le_rfl
  have hx1 : x1 = x0 + (if x0 < x1 then (1 : Int) else -1) * cAbs (x1 - x0) := by
    unfold cAbs; split <;> split <;> omega
  have hy1 : y1 = y0 + (if y0 < y1 then (1 : Int) else -1) * cAbs (y1 - y0) := by
    unfold cAbs; split <;> split <;> omega
  have hrun2 : bresenhamLoop (x0 + (if x0 < x1 then (1 : Int) else -1) * cAbs (x1 - x0))
      (y0 + (if y0 < y1 then (1 : Int) else -1) * cAbs (y1 - y0))
      (cAbs (x1 - x0)) (-cAbs (y1 - y0))
      (if x0 < x1 then (1 : Int) else -1) (if y0 < y1 then (1 : Int) else -1)
      (bresenhamFuel x0 y0 x1 y1) x0 y0 (0 + cAbs (x1 - x0) - cAbs (y1 - y0))
      = some (bresenhamLine x0 y0 x1 y1) := by
    rw [← hx1, ← hy1]
    have e : (0 : Int) + cAbs (x1 - x0) - cAbs (y1 - y0)
        = cAbs (x1 - x0) + -cAbs (y1 - y0) := by ring
    rw [e]; exact hrun
  have h := bresenhamLoop_track x0 y0 (cAbs (x1 - x0)) (cAbs (y1 - y0))
    (max (cAbs (x1 - x0)) (cAbs (y1 - y0)))
    (if x0 < x1 then (1 : Int) else -1) (if y0 < y1 then (1 : Int) else -1)
    (cAbs_nonneg _) (cAbs_nonneg _) rfl (by split <;> simp) (by split <;> simp)
    (bresenhamFuel x0 y0 x1 y1) x0 y0 (0 + cAbs (x1 - x0) - cAbs (y1 - y0)) 0 0 0
    (bresenhamLine x0 y0 x1 y1) (by ring) (by ring) (by ring) rfl le_rfl (cAbs_nonneg _)
    le_rfl (cAbs_nonneg _)
    (by have := cAbs_nonneg (x1 - x0); have := cAbs_nonneg (y1 - y0); omega)
    (by have := cAbs_nonneg (x1 - x0); have := cAbs_nonneg (y1 - y0); omega) hrun2
  simp only [cAbs_eq_abs] at h
  obtain ⟨hlen, hcells⟩ := h
  refine ⟨?_, ?_⟩
  · rw [hlen]; split_ifs <;> ring
  · intro k hk
    obtain ⟨a', b', d', hget, hd', g1, g2, g3, g4, g5, g6, hm⟩ := hcells k hk
    refine ⟨a', b', d', hget, hd', g1, g2, g3, g4, g5, g6, ?_⟩
    rw [hm]; split_ifs <;> ring

/-- C26: for all integer endpoints `bresenhamLine` returns exactly
`max(|x1-x0|, |y1-y0|) + 1` cells, the `k`-th cell has moved exactly `k` cells
from the start along the major axis (so that coordinate advances by exactly one
at every step), and no cell is repeated. -/
theorem bresenhamLine_length (x0 y0 x1 y1 : Int) :
    ((bresenhamLine x0 y0 x1 y1).length : Int) = max |x1 - x0| |y1 - y0| + 1 ∧
    (∀ k : Nat, k < (bresenhamLine x0 y0 x1 y1).length →
      (|y1 - y0| ≤ |x1 - x0| → ∃ y : Int, (bresenhamLine x0 y0 x1 y1)[k]? =
        some (x0 + (if x0 < x1 then (1 : Int) else -1) * (k : Int), y)) ∧
      (|x1 - x0| < |y1 - y0| → ∃ x : Int, (bresenhamLine x0 y0 x1 y1)[k]? =
        some (x, y0 + (if y0 < y1 then (1 : Int) else -1) * (k : Int)))) ∧
    (bresenhamLine x0 y0 x1 y1).Nodup := by
  obtain ⟨hlen, hcells⟩ := bresenhamLine_track x0 y0 x1 y1
  refine ⟨hlen, ?_, ?_⟩
  · intro k hk
    obtain ⟨a', b', d', hget, _, _, _, _, _, _, _, hm⟩ := hcells k hk
    refine ⟨fun hle => ?_, fun hlt => ?_⟩
    · rw [if_pos hle] at hm
      exact ⟨_, by rw [hget, hm]⟩
    · rw [if_neg (not_le.mpr hlt)] at hm
      exact ⟨_, by rw [hget, hm]⟩
  · rw [List.nodup_iff_getElem?_ne_getElem?]
    intro i j hij hj heq
    obtain ⟨a1, b1, d1, hg1, _, _, _, _, _, _, _, hm1⟩ := hcells i (by omega)
    obtain ⟨a2, b2, d2, hg2, _, _, _, _, _, _, _, hm2⟩ := hcells j hj
    rw [hg1, hg2] at heq
    have hpair := Option.some.inj heq
    have hfst := congrArg Prod.fst hpair
    have hsnd := congrArg Prod.snd hpair
    simp only at hfst hsnd
    have ha : a1 = a2 := by
      split at hfst <;> omega
    have hb : b1 = b2 := by
      split at hsnd <;> omega
    rw [ha, hb] at hm1
    rw [hm1] at hm2
    omega

/-- C27: for all integer endpoints and every cell `(x,y)` of `bresenhamLine`,
`2*|(x-x0)*(y1-y0) - (y-y0)*(x1-x0)| ≤ max(|x1-x0|, |y1-y0|)`, and the cell lies
in the bounding box of the two endpoints. -/
theorem bresenhamLine_deviation (x0 y0 x1 y1 : Int) :
    ∀ p ∈ bresenhamLine x0 y0 x1 y1,
      2 * |(p.1 - x0) * (y1 - y0) - (p.2 - y0) * (x1 - x0)| ≤ max |x1 - x0| |y1 - y0| ∧
      min x0 x1 ≤ p.1 ∧ p.1 ≤ max x0 x1 ∧ min y0 y1 ≤ p.2 ∧ p.2 ≤ max y0 y1 := by
  intro p hp
  obtain ⟨k, hk⟩ := List.mem_iff_getElem?.mp hp
  obtain ⟨hlt, _⟩ := List.getElem?_eq_some.mp hk
  obtain ⟨a', b', d', hget, hd', g1, g2, g3, g4, g5, g6, _⟩ :=
    (bresenhamLine_track x0 y0 x1 y1).2 k hlt
  rw [hget] at hk
  have hp' := (Option.some.inj hk).symm
  subst hp'
  simp only
  have hcross : |(x0 + (if x0 < x1 then (1 : Int) else -1) * a' - x0) * (y1 - y0)
      - (y0 + (if y0 < y1 then (1 : Int) else -1) * b' - y0) * (x1 - x0)| = |d'| := by
    rw [hd']
    by_cases hx : x0 < x1 <;> by_cases hy : y0 < y1
    · rw [if_pos hx, if_pos hy, abs_of_nonneg (by omega : (0 : Int) ≤ x1 - x0),
        abs_of_nonneg (by omega : (0 : Int) ≤ y1 - y0), ← abs_neg]
      congr 1; ring
    · rw [if_pos hx, if_neg hy, abs_of_nonneg (by omega : (0 : Int) ≤ x1 - x0),
        abs_of_nonpos (by omega : y1 - y0 ≤ (0 : Int))]
      congr 1; ring
    · rw [if_neg hx, if_pos hy, abs_of_nonpos (by omega : x1 - x0 ≤ (0 : Int)),
        abs_of_nonneg (by omega : (0 : Int) ≤ y1 - y0)]
      congr 1; ring
    · rw [if_neg hx, if_neg hy, abs_of_nonpos (by omega : x1 - x0 ≤ (0 : Int)),
        abs_of_nonpos (by omega : y1 - y0 ≤ (0 : Int)), ← abs_neg]
      congr 1; ring
  rw [hcross]
  refine ⟨?_, ?_⟩
  · rcases abs_cases d' with ⟨h, _⟩ | ⟨h, _⟩ <;> rw [h] <;> omega
  · by_cases hx : x0 < x1 <;> by_cases hy : y0 < y1
    · rw [if_pos hx, if_pos hy]
      rw [abs_of_nonneg (by omega : (0 : Int) ≤ x1 - x0)] at g2
      rw [abs_of_nonneg (by omega : (0 : Int) ≤ y1 - y0)] at g4
      omega
    · rw [if_pos hx, if_neg hy]
      rw [abs_of_nonneg (by omega : (0 : Int) ≤ x1 - x0)] at g2
      rw [abs_of_nonpos (by omega : y1 - y0 ≤ (0 : Int))] at g4
      omega
    · rw [if_neg hx, if_pos hy]
      rw [abs_of_nonpos (by omega : x1 - x0 ≤ (0 : Int))] at g2
      rw [abs_of_nonneg (by omega : (0 : Int) ≤ y1 - y0)] at g4
      omega
    · rw [if_neg hx, if_neg hy]
      rw [abs_of_nonpos (by omega : x1 - x0 ≤ (0 : Int))] at g2
      rw [abs_of_nonpos (by omega : y1 - y0 ≤ (0 : Int))] at g4
      omega

/-- Instance of `bresenhamLine_deviation` for the line from `(0, 0)` to `(4, 2)` at
its second cell `(1, 1)`, where the bound is attained. -/
theorem bresenhamLine_deviation_witness :
    ((1 : Int), (1 : Int)) ∈ bresenhamLine 0 0 4 2 ∧
    2 * |((1 : Int) - 0) * (2 - 0) - ((1 : Int) - 0) * (4 - 0)| ≤ max |(4 : Int) - 0| |(2 : Int) - 0| ∧
    min (0 : Int) 4 ≤ 1 ∧ (1 : Int) ≤ max 0 4 ∧ min (0 : Int) 2 ≤ 1 ∧ (1 : Int) ≤ max 0 2 :=
  ⟨by decide, bresenhamLine_deviation 0 0 4 2 (1, 1) (by decide)⟩

/-! ## Boundary behaviour, the car and the animation step -/

/-- Every candidate cell drawn with margin 5 on a grid of size above 10 (so on
each of the three grid sizes) has both coordinates in `[5, gridSize - 6]`. -/
theorem candidateCells_range {R : Type} (rm : RandModel R) (g : Int) (hg : 10 < g) :
    ∀ (n : Nat) (r : R), ∀ c ∈ candidateCells rm g 5 n r,
      5 ≤ c.1 ∧ c.1 ≤ g - 6 ∧ 5 ≤ c.2 ∧ c.2 ≤ g - 6 := by
  intro n
  induction n with
  | zero => intro r c hc; simp [candidateCells] at hc
  | succ n ih =>
    intro r c hc
    simp only [candidateCells, List.mem_cons] at hc
    rcases hc with rfl | hc
    · have hpos : 0 < g - 2 * 5 := by omega
      have a1 := Int.tmod_nonneg (g - 2 * 5) (Int.ofNat_nonneg (rm.rand r).1)
      have a2 := Int.tmod_lt_of_pos ((rm.rand r).1 : Int) hpos
      have b1 := Int.tmod_nonneg (g - 2 * 5) (Int.ofNat_nonneg (rm.rand (rm.rand r).2).1)
      have b2 := Int.tmod_lt_of_pos ((rm.rand (rm.rand r).2).1 : Int) hpos
      refine ⟨?_, ?_, ?_, ?_⟩ <;> simp only <;> omega
    · exact ih _ c hc

/-- C21: on a grid of any size, in particular 50, 70 and 100, for a building
position `(x, z)` with `5 ≤ x, z ≤ gridSize - 6` (every candidate that the
placement loop draws is one, and `x = gridSize - 6` is allowed), the whole 5x5
footprint
`[x-2, x+2] × [z-2, z+2]` lies inside `[0, gridSize) × [0, gridSize)`;
`markGridCells(x, z, 5)` marks every cell of it, changes no other cell, and leaves
the dimensions of the grid as they are. -/
theorem markGridCells_building_in_bounds {F R : Type} (rm : RandModel R) (s : CityScene F)
    (x z : Int) (hs : GridShape s)
    (hx : 5 ≤ x ∧ x ≤ s.gridSize - 6) (hz : 5 ≤ z ∧ z ≤ s.gridSize - 6) :
    (∀ (n : Nat) (r : R), ∀ c ∈ candidateCells rm s.gridSize 5 n r,
      5 ≤ c.1 ∧ c.1 ≤ s.gridSize - 6 ∧ 5 ≤ c.2 ∧ c.2 ≤ s.gridSize - 6) ∧
    (∀ i j : Int, (x - 2 ≤ i ∧ i ≤ x + 2 ∧ z - 2 ≤ j ∧ j ≤ z + 2) →
      (0 ≤ i ∧ i < s.gridSize ∧ 0 ≤ j ∧ j < s.gridSize) ∧
      gridGet (markGridCells s x z 5).occupiedGrid i j = true) ∧
    (∀ i j : Int, (0 ≤ i ∧ i < s.gridSize ∧ 0 ≤ j ∧ j < s.gridSize) →
      (gridGet (markGridCells s x z 5).occupiedGrid i j = true ↔
        gridGet s.occupiedGrid i j = true ∨
          (x - 2 ≤ i ∧ i ≤ x + 2 ∧ z - 2 ≤ j ∧ j ≤ z + 2))) ∧
    (markGridCells s x z 5).gridSize = s.gridSize ∧
    (markGridCells s x z 5).occupiedGrid.length = s.gridSize.toNat ∧
    (∀ row ∈ (markGridCells s x z 5).occupiedGrid, row.length = s.gridSize.toNat) := by
  have h5 : Int.tdiv 5 2 = 2 := by decide
  have hsq : ∀ i j : Int, InSquare x z 5 i j ↔
      (x - 2 ≤ i ∧ i ≤ x + 2 ∧ z - 2 ≤ j ∧ j ≤ z + 2) := by
    intro i j; unfold InSquare; rw [h5]
  have hocc := fun i j hin => occupied_markGridCells s x z 5 i j hs hin
  have hshape := markGridCells_gridShape s x z 5 hs
  refine ⟨candidateCells_range rm s.gridSize (by omega), ?_, ?_, rfl, hshape.2.1, hshape.2.2⟩
  · intro i j hij
    have hin : InGrid s i j := by unfold InGrid; omega
    exact ⟨hin, (hocc i j hin).2 (Or.inr ((hsq i j).2 hij))⟩
  · intro i j hin
    have h := hocc i j hin
    unfold Occupied at h
    rw [h, hsq]

/-- Instance of `markGridCells_building_in_bounds` on the empty 50 x 50 grid at the
extreme position `x = gridSize - 6 = 44`, `z = 5`: the far corner `(46, 3)` of the
footprint is in the grid and gets marked. -/
theorem markGridCells_building_in_bounds_witness :
    smallCity.gridSize = 50 ∧ GridShape smallCity ∧
    ((5 : Int) ≤ 44 ∧ (44 : Int) ≤ smallCity.gridSize - 6) ∧
    ((5 : Int) ≤ 5 ∧ (5 : Int) ≤ smallCity.gridSize - 6) ∧
    ((0 : Int) ≤ 46 ∧ (46 : Int) < smallCity.gridSize ∧ (0 : Int) ≤ 3 ∧
      (3 : Int) < smallCity.gridSize) ∧
    gridGet (markGridCells smallCity 44 5 5).occupiedGrid 46 3 = true :=
  ⟨rfl, smallCity_gridShape, by decide, by decide,
    (markGridCells_building_in_bounds constRand smallCity 44 5 smallCity_gridShape
      (by decide) (by decide)).2.1 46 3 (by decide)⟩

/-- Why the sizes are bounded below in the next statement: with `size = -2`, which
is no footprint side and which no caller passes, the C++ quotient `size/2` is
`-1`, the loop `for (i = x + 1; i <= x - 1; i++)` has no iteration, and
`isGridCellFree(-1, 0, -2)` visits no cell at all. -/
theorem isGridCellFree_negative_size :
    ¬ ((0 : Int) ≤ -1 ∧ (-1 : Int) < smallCity.gridSize ∧ (0 : Int) ≤ 0 ∧
        (0 : Int) < smallCity.gridSize) ∧
    isGridCellFree smallCity (-1) 0 (-2) = true := by
  decide

/-- C22: `isGridCellFree` fails closed.  For every grid state, every footprint
size (the callers pass 5, 3 and the default 1; the statement covers every
`size ≥ -1`, the sizes for which the C++ quotient `size/2` is not negative) and
every centre `(x, z)` outside `[0, gridSize) × [0, gridSize)`,
`isGridCellFree(x, z, size)` returns false: an out-of-bounds position is never
reported as free. -/
theorem isGridCellFree_out_of_bounds {F : Type} (s : CityScene F) (x z size : Int)
    (hsize : -1 ≤ size) (hout : ¬ (0 ≤ x ∧ x < s.gridSize ∧ 0 ≤ z ∧ z < s.gridSize)) :
    isGridCellFree s x z size = false := by
  have hdiv : 0 ≤ Int.tdiv size 2 := by
    rcases (by omega : size = -1 ∨ 0 ≤ size) with rfl | h
    · decide
    · exact Int.tdiv_nonneg h (by decide)
  refine isGridCellFree_eq_false s x z size x z ?_ (Or.inl hout)
  unfold InSquare
  omega

/-- Instance of `isGridCellFree_out_of_bounds` on the empty 50 x 50 grid: the
position `(50, 10)` just past the last row is not free for size 5. -/
theorem isGridCellFree_out_of_bounds_witness :
    (-1 : Int) ≤ 5 ∧
    ¬ ((0 : Int) ≤ 50 ∧ (50 : Int) < smallCity.gridSize ∧ (0 : Int) ≤ 10 ∧
        (10 : Int) < smallCity.gridSize) ∧
    isGridCellFree smallCity 50 10 5 = false :=
  ⟨by decide, by decide, isGridCellFree_out_of_bounds smallCity 50 10 5 (by decide) (by decide)⟩

set_option maxRecDepth 100000 in
/-- C23: `placeRandomCar` sets the car position to `(c - 5, c)` with
`c = gridSize/2`; the position does not depend on the occupancy grid (there is no
collision check); the grid and every other member are left as they are; and for
`gridSize` 50, 70 or 100 the position is a cell of the horizontal road
`bresenhamLine(5, c, gridSize - 5, c)`. -/
theorem placeRandomCar_spec {F : Type} (s : CityScene F) :
    (placeRandomCar s).carPosition = (Int.tdiv s.gridSize 2 - 5, Int.tdiv s.gridSize 2) ∧
    (∀ g : List (List Bool),
      (placeRandomCar { s with occupiedGrid := g }).carPosition
        = (placeRandomCar s).carPosition) ∧
    (placeRandomCar s).occupiedGrid = s.occupiedGrid ∧
    (placeRandomCar s).roadCells = s.roadCells ∧
    (placeRandomCar s).buildingCells = s.buildingCells ∧
    (placeRandomCar s).buildingHeights = s.buildingHeights ∧
    (placeRandomCar s).buildingTypes = s.buildingTypes ∧
    (placeRandomCar s).treeCells = s.treeCells ∧
    (placeRandomCar s).streetLamps = s.streetLamps ∧
    ((placeRandomCar s).pond_cx = s.pond_cx ∧ (placeRandomCar s).pond_cy = s.pond_cy ∧
      (placeRandomCar s).pond_r = s.pond_r) ∧
    (placeRandomCar s).config = s.config ∧
    (placeRandomCar s).gridSize = s.gridSize ∧
    (s.gridSize = 50 ∨ s.gridSize = 70 ∨ s.gridSize = 100 →
      (placeRandomCar s).carPosition ∈
        bresenhamLine 5 (Int.tdiv s.gridSize 2) (s.gridSize - 5) (Int.tdiv s.gridSize 2)) := by
  refine ⟨rfl, fun _ => rfl, rfl, rfl, rfl, rfl, rfl, rfl, rfl, ⟨rfl, rfl, rfl⟩, rfl, rfl, ?_⟩
  intro hg
  have hcar : (placeRandomCar s).carPosition
      = (Int.tdiv s.gridSize 2 - 5, Int.tdiv s.gridSize 2) := rfl
  rw [hcar]
  rcases hg with h | h | h <;> rw [h] <;> decide

/-- Instance of `placeRandomCar_spec` on the 50 x 50 grid after the road step: the
car is put at `(20, 25)`, a cell of the horizontal road that the road step has
already marked occupied. -/
theorem placeRandomCar_spec_witness :
    ((layRoads smallCity).gridSize = 50 ∨ (layRoads smallCity).gridSize = 70 ∨
      (layRoads smallCity).gridSize = 100) ∧
    (placeRandomCar (layRoads smallCity)).carPosition = (20, 25) ∧
    (placeRandomCar (layRoads smallCity)).carPosition ∈
      bresenhamLine 5 (Int.tdiv (layRoads smallCity).gridSize 2)
        ((layRoads smallCity).gridSize - 5) (Int.tdiv (layRoads smallCity).gridSize 2) :=
  ⟨Or.inl (layRoads_keeps smallCity).1,
    (placeRandomCar_spec (layRoads smallCity)).1.trans
      (by rw [(layRoads_keeps smallCity).1]; rfl),
    (placeRandomCar_spec (layRoads smallCity)).2.2.2.2.2.2.2.2.2.2.2.2
      (Or.inl (layRoads_keeps smallCity).1)⟩

/-- C24: for every scene state and every `dt`, `update(dt)` replaces `waterTime`
by `waterTime + dt * 2` and `ripplePhase` by `ripplePhase + dt * 3` (in `float`
arithmetic) and leaves the road, building, tree, lamp, car and pond placements,
the configuration, the grid size and the occupancy grid unchanged. -/
theorem update_frame {F : Type} (ops : FloatOps F) (s : CityScene F) (dt : F) :
    (update ops s dt).waterTime = ops.add s.waterTime (ops.mul dt ops.two) ∧
    (update ops s dt).ripplePhase = ops.add s.ripplePhase (ops.mul dt ops.three) ∧
    (update ops s dt).roadCells = s.roadCells ∧
    (update ops s dt).buildingCells = s.buildingCells ∧
    (update ops s dt).buildingHeights = s.buildingHeights ∧
    (update ops s dt).buildingTypes = s.buildingTypes ∧
    (update ops s dt).treeCells = s.treeCells ∧
    (update ops s dt).streetLamps = s.streetLamps ∧
    (update ops s dt).carPosition = s.carPosition ∧
    ((update ops s dt).pond_cx = s.pond_cx ∧ (update ops s dt).pond_cy = s.pond_cy ∧
      (update ops s dt).pond_r = s.pond_r) ∧
    (update ops s dt).config = s.config ∧
    (update ops s dt).gridSize = s.gridSize ∧
    (update ops s dt).occupiedGrid = s.occupiedGrid :=
  ⟨rfl, rfl, rfl, rfl, rfl, rfl, rfl, rfl, rfl, ⟨rfl, rfl, rfl⟩, rfl, rfl, rfl⟩

/-! ## Rendering and the parallel building vectors -/

/-- A loop that appends one draw call per element appends the image of the list. -/
theorem foldl_snoc_map {α β : Type} (f : α → β) :
    ∀ (l : List α) (t : List β), l.foldl (fun t c => t ++ [f c]) t = t ++ l.map f := by
  intro l
  induction l with
  | nil => intro t; simp
  | cons c l ih => intro t; rw [List.foldl_cons, ih]; simp

/-- A loop that appends two draw calls of one feature per element appends twice as
many draw calls of that feature as the list has elements. -/
theorem foldl_snoc_pair {α β γ : Type} (f g : α → β) (φ : β → γ) (v : γ)
    (hf : ∀ c, φ (f c) = v) (hg : ∀ c, φ (g c) = v) :
    ∀ (l : List α) (t : List β),
      (l.foldl (fun t c => t ++ [f c] ++ [g c]) t).map φ
        = t.map φ ++ List.replicate (2 * l.length) v := by
  intro l
  induction l with
  | nil => intro t; simp
  | cons c l ih =>
    intro t
    rw [List.foldl_cons, ih]
    have h2 : 2 * (c :: l).length = 2 + 2 * l.length := by simp [Nat.mul_add, Nat.add_comm]
    rw [h2, List.replicate_add]
    simp [hf, hg, List.replicate]

/-- The building loop of `render` over the first `n` indices succeeds when the
three vectors have at least `n` entries, and appends `n` building draws. -/
theorem foldl_renderBuilding {F : Type} (s : CityScene F) (t : List (DrawCall F)) :
    ∀ n : Nat, n ≤ s.buildingCells.length → n ≤ s.buildingHeights.length →
      n ≤ s.buildingTypes.length →
      ∃ bs : List (DrawCall F),
        (List.range n).foldl (renderBuilding s) (some t) = some (t ++ bs) ∧
        bs.map DrawCall.feature = List.replicate n Feature.building := by
  intro n
  induction n with
  | zero => intro _ _ _; exact ⟨[], by simp, by simp⟩
  | succ n ih =>
    intro hc hh ht
    obtain ⟨bs, hbs, hfeat⟩ := ih (by omega) (by omega) (by omega)
    rw [List.range_succ, List.foldl_append, hbs]
    obtain ⟨c, hc2⟩ : ∃ c, s.buildingCells[n]? = some c :=
      ⟨_, List.getElem?_eq_getElem (by omega)⟩
    obtain ⟨h, hh2⟩ : ∃ h, s.buildingHeights[n]? = some h :=
      ⟨_, List.getElem?_eq_getElem (by omega)⟩
    obtain ⟨ty, ht2⟩ : ∃ ty, s.buildingTypes[n]? = some ty :=
      ⟨_, List.getElem?_eq_getElem (by omega)⟩
    refine ⟨bs ++ [DrawCall.building c h ty], ?_, ?_⟩
    · simp only [List.foldl_cons, List.foldl_nil, renderBuilding, hc2, hh2, ht2,
        List.append_assoc]
    · rw [List.map_append, hfeat, List.replicate_succ']
      rfl

/-- Refutation of C25 as stated: in `parkScene`, with one road cell, one tree and
one lamp, `render` issues eleven draws: one for the ground, one for the road cell,
one for the pond, two for the tree (trunk, foliage), two for the lamp (pole, head)
and four for the car (body, roof, two headlights); not one each for the tree, the
lamp and the car. -/
theorem render_parkScene_draws :
    parkScene.roadCells.length = 1 ∧ parkScene.buildingCells.length = 0 ∧
    parkScene.treeCells.length = 1 ∧ parkScene.streetLamps.length = 1 ∧
    (render parkScene).map (List.map DrawCall.feature)
      = some [Feature.ground, Feature.road, Feature.pond, Feature.tree, Feature.tree,
          Feature.lamp, Feature.lamp, Feature.car, Feature.car, Feature.car, Feature.car] ∧
    ¬ ((render parkScene).map (List.map DrawCall.feature)
      = some [Feature.ground, Feature.road, Feature.pond, Feature.tree, Feature.lamp,
          Feature.car]) := by
  decide

/-- C25 (amended): for every scene state in which `buildingHeights` and
`buildingTypes` have at least as many entries as `buildingCells`, `render` issues
its draw calls grouped in the order ground, roads, pond, buildings, trees, lamps,
car: one for the ground, one per road cell, one for the pond, one per building,
two per tree, two per lamp and four for the car. -/
theorem render_draw_order {F : Type} (s : CityScene F)
    (hH : s.buildingCells.length ≤ s.buildingHeights.length)
    (hT : s.buildingCells.length ≤ s.buildingTypes.length) :
    ∃ ds : List (DrawCall F), render s = some ds ∧
      ds.map DrawCall.feature
        = [Feature.ground] ++ List.replicate s.roadCells.length Feature.road
          ++ [Feature.pond] ++ List.replicate s.buildingCells.length Feature.building
          ++ List.replicate (2 * s.treeCells.length) Feature.tree
          ++ List.replicate (2 * s.streetLamps.length) Feature.lamp
          ++ List.replicate 4 Feature.car := by
  obtain ⟨bs, hbs, hfeat⟩ := foldl_renderBuilding s
    (s.roadCells.foldl
      (fun t c => t ++ [DrawCall.road c (decide (c.1 = Int.tdiv s.gridSize 2))])
      [DrawCall.ground] ++ [DrawCall.pond])
    s.buildingCells.length le_rfl hH hT
  refine ⟨_, by unfold render; dsimp only; rw [hbs]; rfl, ?_⟩
  rw [List.map_append, List.map_append, List.map_append, List.map_append,
    foldl_snoc_pair DrawCall.lampPole DrawCall.lampHead DrawCall.feature Feature.lamp
      (fun _ => rfl) (fun _ => rfl),
    foldl_snoc_pair DrawCall.treeTrunk DrawCall.treeFoliage DrawCall.feature Feature.tree
      (fun _ => rfl) (fun _ => rfl),
    List.map_append, hfeat, List.map_append, foldl_snoc_map, List.map_append, List.map_map]
  simp [List.replicate, Function.comp_def, DrawCall.feature]

/-- Instance of `render_draw_order` at `parkScene`, which has no building. -/
theorem render_draw_order_witness :
    parkScene.buildingCells.length ≤ parkScene.buildingHeights.length ∧
    parkScene.buildingCells.length ≤ parkScene.buildingTypes.length ∧
    ∃ ds : List (DrawCall Unit), render parkScene = some ds ∧
      ds.map DrawCall.feature
        = [Feature.ground] ++ List.replicate parkScene.roadCells.length Feature.road
          ++ [Feature.pond] ++ List.replicate parkScene.buildingCells.length Feature.building
          ++ List.replicate (2 * parkScene.treeCells.length) Feature.tree
          ++ List.replicate (2 * parkScene.streetLamps.length) Feature.lamp
          ++ List.replicate 4 Feature.car :=
  ⟨by decide, by decide, render_draw_order parkScene (by decide) (by decide)⟩

/-- The type chosen for the next building is 0, 1 or 2. -/
theorem nextBuildingType_range {F : Type} (s : CityScene F) :
    nextBuildingType s = 0 ∨ nextBuildingType s = 1 ∨ nextBuildingType s = 2 := by
  unfold nextBuildingType
  dsimp only
  split_ifs <;> simp

/-- For a type 0, 1 or 2 `getFuturisticHeight` takes one of its first three
branches, never the fallback. -/
theorem getFuturisticHeight_of_range {F : Type} (ops : FloatOps F) (s : CityScene F)
    (type index : Int) (h : type = 0 ∨ type = 1 ∨ type = 2) :
    getFuturisticHeight ops s type index
      = if type = 0 then s.config.skyscraperHeight
        else if type = 1 then s.config.towerHeight
        else ops.mul s.config.buildingHeight ops.point7 := by
  unfold getFuturisticHeight
  rcases h with rfl | rfl | rfl <;> simp

/-- C30: after `placeBuildingsRandomly`, for every configuration and every random
generator, `buildingCells`, `buildingTypes` and `buildingHeights` have the same
length; for every index `i` below that length the three entries exist, the type
is 0, 1 or 2, and the height is the one that `getFuturisticHeight` computes in the
branch for that type (not the fallback); so the building loop of `render` reads
the vectors in bounds and `render` returns its draw calls. -/
theorem placeBuildingsRandomly_parallel_vectors {F R : Type} (ops : FloatOps F)
    (rm : RandModel R) (s : CityScene F) (r : R) :
    (placeBuildingsRandomly ops rm s r).1.buildingTypes.length
      = (placeBuildingsRandomly ops rm s r).1.buildingCells.length ∧
    (placeBuildingsRandomly ops rm s r).1.buildingHeights.length
      = (placeBuildingsRandomly ops rm s r).1.buildingCells.length ∧
    (∀ ty ∈ (placeBuildingsRandomly ops rm s r).1.buildingTypes, ty = 0 ∨ ty = 1 ∨ ty = 2) ∧
    (∀ i : Nat, i < (placeBuildingsRandomly ops rm s r).1.buildingCells.length →
      ∃ (c : Int × Int) (ty : Int) (h : F),
        (placeBuildingsRandomly ops rm s r).1.buildingCells[i]? = some c ∧
        (placeBuildingsRandomly ops rm s r).1.buildingTypes[i]? = some ty ∧
        (placeBuildingsRandomly ops rm s r).1.buildingHeights[i]? = some h ∧
        (ty = 0 ∨ ty = 1 ∨ ty = 2) ∧
        h = (if ty = 0 then s.config.skyscraperHeight
             else if ty = 1 then s.config.towerHeight
             else ops.mul s.config.buildingHeight ops.point7)) ∧
    (∃ ds : List (DrawCall F), render (placeBuildingsRandomly ops rm s r).1 = some ds) := by
  have hinv : (placeBuildingsRandomly ops rm s r).1.buildingTypes.length
        = (placeBuildingsRandomly ops rm s r).1.buildingCells.length ∧
      (placeBuildingsRandomly ops rm s r).1.buildingHeights.length
        = (placeBuildingsRandomly ops rm s r).1.buildingCells.length ∧
      (∀ ty ∈ (placeBuildingsRandomly ops rm s r).1.buildingTypes, ty = 0 ∨ ty = 1 ∨ ty = 2) ∧
      (∀ (i : Nat) (ty : Int) (h : F),
        (placeBuildingsRandomly ops rm s r).1.buildingTypes[i]? = some ty →
        (placeBuildingsRandomly ops rm s r).1.buildingHeights[i]? = some h →
        h = (if ty = 0 then s.config.skyscraperHeight
             else if ty = 1 then s.config.towerHeight
             else ops.mul s.config.buildingHeight ops.point7)) := by
    apply placeBuildingsRandomly_induction ops rm s r
      (fun t =>
        t.buildingTypes.length = t.buildingCells.length ∧
        t.buildingHeights.length = t.buildingCells.length ∧
        (∀ ty ∈ t.buildingTypes, ty = 0 ∨ ty = 1 ∨ ty = 2) ∧
        (∀ (i : Nat) (ty : Int) (h : F),
          t.buildingTypes[i]? = some ty → t.buildingHeights[i]? = some h →
          h = (if ty = 0 then s.config.skyscraperHeight
               else if ty = 1 then s.config.towerHeight
               else ops.mul s.config.buildingHeight ops.point7)))
    · exact ⟨rfl, rfl, by simp, by simp⟩
    · intro t x z i hcfg ⟨hlenT, hlenH, htypes, hheights⟩
      have hrange := nextBuildingType_range (markGridCells
        { t with buildingCells := t.buildingCells ++ [(x, z)] } x z 5)
      have hT : (recordBuilding ops t x z i).buildingTypes = t.buildingTypes ++
          [nextBuildingType (markGridCells
            { t with buildingCells := t.buildingCells ++ [(x, z)] } x z 5)] := rfl
      have hH : (recordBuilding ops t x z i).buildingHeights = t.buildingHeights ++
          [if nextBuildingType (markGridCells
              { t with buildingCells := t.buildingCells ++ [(x, z)] } x z 5) = 0
            then s.config.skyscraperHeight
            else if nextBuildingType (markGridCells
              { t with buildingCells := t.buildingCells ++ [(x, z)] } x z 5) = 1
            then s.config.towerHeight
            else ops.mul s.config.buildingHeight ops.point7] := by
        rw [← hcfg]
        show t.buildingHeights ++ [getFuturisticHeight ops _ _ i] = _
        rw [getFuturisticHeight_of_range ops _ _ i hrange]
        rfl
      rw [hT, hH, recordBuilding_buildingCells]
      refine ⟨by simp only [List.length_append, List.length_singleton, hlenT],
        by simp only [List.length_append, List.length_singleton, hlenH], ?_, ?_⟩
      · intro ty hty
        rcases List.mem_append.1 hty with hty | hty
        · exact htypes ty hty
        · rw [List.mem_singleton] at hty
          rw [hty]; exact hrange
      · intro k ty h hty hh
        by_cases hk : k < t.buildingTypes.length
        · rw [List.getElem?_append_left hk] at hty
          rw [List.getElem?_append_left (by omega)] at hh
          exact hheights k ty h hty hh
        · rw [List.getElem?_append_right (by omega)] at hty
          rw [List.getElem?_append_right (by omega)] at hh
          rw [hlenH, ← hlenT] at hh
          cases hidx : k - t.buildingTypes.length with
          | zero =>
            rw [hidx] at hty hh
            simp only [List.getElem?_cons_zero, Option.some.injEq] at hty hh
            rw [← hty, ← hh]
          | succ m =>
            rw [hidx] at hty
            simp at hty
  obtain ⟨hlenT, hlenH, htypes, hheights⟩ := hinv
  refine ⟨hlenT, hlenH, htypes, ?_, ?_⟩
  · intro i hi
    obtain ⟨c, hc⟩ : ∃ c, (placeBuildingsRandomly ops rm s r).1.buildingCells[i]? = some c :=
      ⟨_, List.getElem?_eq_getElem hi⟩
    obtain ⟨ty, hty⟩ : ∃ ty, (placeBuildingsRandomly ops rm s r).1.buildingTypes[i]? = some ty :=
      ⟨_, List.getElem?_eq_getElem (by omega)⟩
    obtain ⟨h, hh⟩ : ∃ h, (placeBuildingsRandomly ops rm s r).1.buildingHeights[i]? = some h :=
      ⟨_, List.getElem?_eq_getElem (by omega)⟩
    refine ⟨c, ty, h, hc, hty, hh, htypes ty ?_, hheights i ty h hty hh⟩
    exact List.mem_iff_getElem?.2 ⟨i, hty⟩
  · obtain ⟨bs, hbs, _⟩ := foldl_renderBuilding (placeBuildingsRandomly ops rm s r).1
      ((placeBuildingsRandomly ops rm s r).1.roadCells.foldl
        (fun t c => t ++ [DrawCall.road c
          (decide (c.1 = Int.tdiv (placeBuildingsRandomly ops rm s r).1.gridSize 2))])
        [DrawCall.ground] ++ [DrawCall.pond])
      (placeBuildingsRandomly ops rm s r).1.buildingCells.length le_rfl (by omega) (by omega)
    exact ⟨_, by unfold render; dsimp only; rw [hbs]; rfl⟩

/-! ## Independence of the pond radius -/

/-- A loop whose body commutes with `g` commutes with `g`. -/
theorem foldl_commute {σ α : Type} (f : σ → α → σ) (g : σ → σ)
    (h : ∀ a x, f (g a) x = g (f a x)) :
    ∀ (l : List α) (a : σ), l.foldl f (g a) = g (l.foldl f a) := by
  intro l
  induction l with
  | nil => intro a; rfl
  | cons x l ih => intro a; rw [List.foldl_cons, List.foldl_cons, h, ih]

theorem findFreeCell_setPond {F R : Type} (rm : RandModel R) (s : CityScene F) (p : F)
    (lo size : Int) :
    ∀ (n : Nat) (r : R),
      findFreeCell rm (setPond s p) lo size n r = findFreeCell rm s lo size n r := by
  intro n
  induction n with
  | zero => intro r; rfl
  | succ n ih =>
    intro r
    simp only [findFreeCell]
    rw [ih]
    rfl

theorem placeBuildingStep_setPond {F R : Type} (ops : FloatOps F) (rm : RandModel R) (p : F)
    (st : CityScene F × R) (i : Int) :
    placeBuildingStep ops rm (setPond st.1 p, st.2) i
      = (setPond (placeBuildingStep ops rm st i).1 p, (placeBuildingStep ops rm st i).2) := by
  unfold placeBuildingStep
  dsimp only
  rw [findFreeCell_setPond]
  rcases findFreeCell rm st.1 5 5 100 st.2 with ⟨_ | ⟨x, z⟩, q⟩
  · rfl
  · rfl

theorem placeBuildingsRandomly_setPond {F R : Type} (ops : FloatOps F) (rm : RandModel R)
    (s : CityScene F) (r q : R) (p : F) :
    placeBuildingsRandomly ops rm (setPond s p) q
      = (setPond (placeBuildingsRandomly ops rm s r).1 p,
          (placeBuildingsRandomly ops rm s r).2) := by
  unfold placeBuildingsRandomly
  dsimp only
  exact foldl_commute (placeBuildingStep ops rm)
    (fun st : CityScene F × R => (setPond st.1 p, st.2))
    (fun st i => placeBuildingStep_setPond ops rm p st i)
    (intRange 0 (s.config.numBuildings - 1))
    ({ s with buildingCells := [], buildingHeights := [], buildingTypes := [] }, rm.srand 12345)

theorem placeTreeStep_setPond {F R : Type} (rm : RandModel R) (p : F)
    (st : CityScene F × R) (i : Int) :
    placeTreeStep rm (setPond st.1 p, st.2) i
      = (setPond (placeTreeStep rm st i).1 p, (placeTreeStep rm st i).2) := by
  unfold placeTreeStep
  dsimp only
  rw [findFreeCell_setPond]
  rcases findFreeCell rm st.1 3 3 50 st.2 with ⟨_ | ⟨x, z⟩, q⟩
  · rfl
  · rfl

theorem placeTrees_setPond {F R : Type} (rm : RandModel R) (s : CityScene F) (r q : R) (p : F) :
    placeTrees rm (setPond s p) q
      = (setPond (placeTrees rm s r).1 p, (placeTrees rm s r).2) := by
  unfold placeTrees
  dsimp only
  exact foldl_commute (placeTreeStep rm)
    (fun st : CityScene F × R => (setPond st.1 p, st.2))
    (fun st i => placeTreeStep_setPond rm p st i)
    (intRange 0 (s.config.citySize * 8 - 1)) ({ s with treeCells := [] }, rm.srand 54321)

theorem visitLamp_setPond {F : Type} (s : CityScene F) (p : F) (c : Int × Int) :
    visitLamp (setPond s p) c = setPond (visitLamp s c) p := by
  unfold visitLamp
  have hfree : isGridCellFree (setPond s p) c.1 c.2 1 = isGridCellFree s c.1 c.2 1 := rfl
  rw [hfree]
  split
  · rfl
  · rfl

theorem placeStreetLamps_setPond {F : Type} (s : CityScene F) (p : F) :
    placeStreetLamps (setPond s p) = setPond (placeStreetLamps s) p := by
  rw [placeStreetLamps_eq_visits, placeStreetLamps_eq_visits]
  exact foldl_commute visitLamp (fun t => setPond t p) (fun t c => visitLamp_setPond t p c)
    (lampCandidates s.gridSize) { s with streetLamps := [] }

theorem layRoads_setPond {F : Type} (s : CityScene F) (p : F) :
    layRoads (setPond s p) = setPond (layRoads s) p := by
  unfold layRoads
  dsimp only
  exact foldl_commute (fun (t : CityScene F) (cell : Int × Int) => markGridCells t cell.1 cell.2 1)
    (fun t => setPond t p) (fun _ _ => rfl)
    (s.roadCells ++
      bresenhamLine 5 (Int.tdiv s.gridSize 2) (s.gridSize - 5) (Int.tdiv s.gridSize 2) ++
      bresenhamLine (Int.tdiv s.gridSize 2) 5 (Int.tdiv s.gridSize 2) (s.gridSize - 5))
    { s with roadCells := s.roadCells ++
      bresenhamLine 5 (Int.tdiv s.gridSize 2) (s.gridSize - 5) (Int.tdiv s.gridSize 2) ++
      bresenhamLine (Int.tdiv s.gridSize 2) 5 (Int.tdiv s.gridSize 2) (s.gridSize - 5) }

theorem placeRandomCar_setPond {F : Type} (s : CityScene F) (p : F) :
    placeRandomCar (setPond s p) = setPond (placeRandomCar s) p := rfl

/-- The pond step copies the placements of the scene it is given, whatever the
configured radius. -/
theorem markPond_setPond_placements {F : Type} (ops : FloatOps F) (t : CityScene F) (p : F) :
    (markPond ops (setPond t p)).roadCells = (markPond ops t).roadCells ∧
    (markPond ops (setPond t p)).buildingCells = (markPond ops t).buildingCells ∧
    (markPond ops (setPond t p)).buildingTypes = (markPond ops t).buildingTypes ∧
    (markPond ops (setPond t p)).buildingHeights = (markPond ops t).buildingHeights ∧
    (markPond ops (setPond t p)).treeCells = (markPond ops t).treeCells ∧
    (markPond ops (setPond t p)).streetLamps = (markPond ops t).streetLamps ∧
    (markPond ops (setPond t p)).carPosition = (markPond ops t).carPosition ∧
    (setPond t p).occupiedGrid = t.occupiedGrid :=
  ⟨rfl, rfl, rfl, rfl, rfl, rfl, rfl, rfl⟩

theorem generateFuturisticLayout_eq_markPond {F R : Type} (ops : FloatOps F)
    (rm : RandModel R) (s : CityScene F) (r : R) :
    generateFuturisticLayout ops rm s r
      = (markPond ops (beforePond ops rm s r),
          (placeTrees rm (placeBuildingsRandomly ops rm (layRoads s) r).1
            (placeBuildingsRandomly ops rm (layRoads s) r).2).2) := rfl

/-- Everything that `generateFuturisticLayout` does before the pond step is the
same for two pond radii, apart from the stored radius itself. -/
theorem beforePond_setPond {F R : Type} (ops : FloatOps F) (rm : RandModel R)
    (s : CityScene F) (r : R) (p : F) :
    beforePond ops rm (setPond s p) r = setPond (beforePond ops rm s r) p ∧
    (placeTrees rm (placeBuildingsRandomly ops rm (layRoads (setPond s p)) r).1
        (placeBuildingsRandomly ops rm (layRoads (setPond s p)) r).2).2
      = (placeTrees rm (placeBuildingsRandomly ops rm (layRoads s) r).1
        (placeBuildingsRandomly ops rm (layRoads s) r).2).2 := by
  have hB : placeBuildingsRandomly ops rm (layRoads (setPond s p)) r
      = (setPond (placeBuildingsRandomly ops rm (layRoads s) r).1 p,
          (placeBuildingsRandomly ops rm (layRoads s) r).2) := by
    rw [layRoads_setPond]
    exact placeBuildingsRandomly_setPond ops rm (layRoads s) r r p
  have hT : placeTrees rm (placeBuildingsRandomly ops rm (layRoads (setPond s p)) r).1
        (placeBuildingsRandomly ops rm (layRoads (setPond s p)) r).2
      = (setPond (placeTrees rm (placeBuildingsRandomly ops rm (layRoads s) r).1
            (placeBuildingsRandomly ops rm (layRoads s) r).2).1 p,
          (placeTrees rm (placeBuildingsRandomly ops rm (layRoads s) r).1
            (placeBuildingsRandomly ops rm (layRoads s) r).2).2) := by
    rw [hB]
    exact placeTrees_setPond rm _ _ _ p
  refine ⟨?_, ?_⟩
  · unfold beforePond
    rw [hT, placeStreetLamps_setPond, placeRandomCar_setPond]
  · rw [hT]

/-- C28: two runs of `generateFuturisticLayout` whose configurations differ only
in `pondRadius` produce the same road cells, building cells, building types,
building heights, tree cells, lamp cells and car position, and leave the random
generator in the same state; the whole scene before the pond step is the same
apart from the stored radius, so no placement has looked at the pond disc. -/
theorem generateFuturisticLayout_pond_independent {F R : Type} (ops : FloatOps F)
    (rm : RandModel R) (s : CityScene F) (r : R) (p : F) :
    (generateFuturisticLayout ops rm (setPond s p) r).1.roadCells
      = (generateFuturisticLayout ops rm s r).1.roadCells ∧
    (generateFuturisticLayout ops rm (setPond s p) r).1.buildingCells
      = (generateFuturisticLayout ops rm s r).1.buildingCells ∧
    (generateFuturisticLayout ops rm (setPond s p) r).1.buildingTypes
      = (generateFuturisticLayout ops rm s r).1.buildingTypes ∧
    (generateFuturisticLayout ops rm (setPond s p) r).1.buildingHeights
      = (generateFuturisticLayout ops rm s r).1.buildingHeights ∧
    (generateFuturisticLayout ops rm (setPond s p) r).1.treeCells
      = (generateFuturisticLayout ops rm s r).1.treeCells ∧
    (generateFuturisticLayout ops rm (setPond s p) r).1.streetLamps
      = (generateFuturisticLayout ops rm s r).1.streetLamps ∧
    (generateFuturisticLayout ops rm (setPond s p) r).1.carPosition
      = (generateFuturisticLayout ops rm s r).1.carPosition ∧
    (generateFuturisticLayout ops rm (setPond s p) r).2
      = (generateFuturisticLayout ops rm s r).2 ∧
    beforePond ops rm (setPond s p) r = setPond (beforePond ops rm s r) p ∧
    (beforePond ops rm (setPond s p) r).occupiedGrid = (beforePond ops rm s r).occupiedGrid := by
  obtain ⟨hb, hrng⟩ := beforePond_setPond ops rm s r p
  obtain ⟨h1, h2, h3, h4, h5, h6, h7, h8⟩ :=
    markPond_setPond_placements ops (beforePond ops rm s r) p
  rw [generateFuturisticLayout_eq_markPond, generateFuturisticLayout_eq_markPond, hb]
  exact ⟨h1, h2, h3, h4, h5, h6, h7, hrng, rfl, h8⟩

/-! ## What the occupied cells are -/

theorem markedExactly_mark {F : Type} (size : Int) (cells : List (Int × Int))
    (s0 t u : CityScene F) (x z : Int) (h : MarkedExactly size cells s0 t)
    (hgs : u.gridSize = t.gridSize)
    (hgrid : u.occupiedGrid = (markGridCells t x z size).occupiedGrid) :
    MarkedExactly size (cells ++ [(x, z)]) s0 u := by
  obtain ⟨hshape, hsize, hiff⟩ := h
  have hshapeU : GridShape u := by
    have hm := markGridCells_gridShape t x z size hshape
    unfold GridShape at hm ⊢
    rw [hgrid, hgs]
    exact hm
  refine ⟨hshapeU, hgs.trans hsize, ?_⟩
  intro i j hin
  have hinT : InGrid t i j := by
    unfold InGrid at hin ⊢
    rw [hsize]; exact hin
  have hocc : Occupied u i j ↔ Occupied (markGridCells t x z size) i j := by
    unfold Occupied
    rw [hgrid]
  rw [hocc, occupied_markGridCells t x z size i j hshape hinT, hiff i j hin]
  constructor
  · rintro ((h | ⟨c, hc, hsq⟩) | hsq)
    · exact Or.inl h
    · exact Or.inr ⟨c, List.mem_append.2 (Or.inl hc), hsq⟩
    · exact Or.inr ⟨(x, z), List.mem_append.2 (Or.inr (List.mem_singleton.2 rfl)), hsq⟩
  · rintro (h | ⟨c, hc, hsq⟩)
    · exact Or.inl (Or.inl h)
    · rcases List.mem_append.1 hc with hc | hc
      · exact Or.inl (Or.inr ⟨c, hc, hsq⟩)
      · rw [List.mem_singleton] at hc
        subst hc
        exact Or.inr hsq

theorem markedExactly_nil {F : Type} (size : Int) (s0 t : CityScene F) (hs : GridShape s0)
    (hgs : t.gridSize = s0.gridSize) (hgrid : t.occupiedGrid = s0.occupiedGrid) :
    MarkedExactly size [] s0 t := by
  refine ⟨?_, hgs, ?_⟩
  · unfold GridShape at hs ⊢
    rw [hgrid, hgs]; exact hs
  · intro i j _
    unfold Occupied
    rw [hgrid]
    simp

/-- After `placeBuildingsRandomly` a cell of the grid is occupied exactly when it
was occupied before or lies in the 5x5 square of a recorded building. -/
theorem placeBuildingsRandomly_exact {F R : Type} (ops : FloatOps F) (rm : RandModel R)
    (s : CityScene F) (r : R) (hs : GridShape s) :
    MarkedExactly 5 (placeBuildingsRandomly ops rm s r).1.buildingCells s
      (placeBuildingsRandomly ops rm s r).1 := by
  apply placeBuildingsRandomly_induction ops rm s r
    (fun t => MarkedExactly 5 t.buildingCells s t)
  · exact markedExactly_nil 5 s _ hs rfl rfl
  · intro t x z i _ h
    rw [recordBuilding_buildingCells]
    exact markedExactly_mark 5 t.buildingCells s t _ x z h rfl rfl

/-- After `placeTrees` a cell of the grid is occupied exactly when it was occupied
before or lies in the 3x3 square of a recorded tree. -/
theorem placeTrees_exact {F R : Type} (rm : RandModel R) (s : CityScene F) (r : R)
    (hs : GridShape s) :
    MarkedExactly 3 (placeTrees rm s r).1.treeCells s (placeTrees rm s r).1 := by
  apply placeTrees_induction rm s r (fun t => MarkedExactly 3 t.treeCells s t)
  · exact markedExactly_nil 3 s _ hs rfl rfl
  · intro t x z _ _ h
    exact markedExactly_mark 3 t.treeCells s t _ x z h rfl rfl

/-- After `placeStreetLamps` a cell of the grid is occupied exactly when it was
occupied before or is the cell of a recorded lamp. -/
theorem placeStreetLamps_exact {F : Type} (s : CityScene F) (hs : GridShape s) :
    MarkedExactly 1 (placeStreetLamps s).streetLamps s (placeStreetLamps s) := by
  rw [placeStreetLamps_eq_visits]
  apply foldl_invariant (fun u : CityScene F => MarkedExactly 1 u.streetLamps s u) visitLamp
  · intro u c h
    unfold visitLamp
    split
    · exact markedExactly_mark 1 u.streetLamps s u _ c.1 c.2 h rfl rfl
    · exact h
  · exact markedExactly_nil 1 s _ hs rfl rfl

theorem placeRandomCar_fields {F : Type} (t : CityScene F) :
    (placeRandomCar t).occupiedGrid = t.occupiedGrid ∧
    (placeRandomCar t).roadCells = t.roadCells ∧
    (placeRandomCar t).buildingCells = t.buildingCells ∧
    (placeRandomCar t).treeCells = t.treeCells ∧
    (placeRandomCar t).streetLamps = t.streetLamps :=
  ⟨rfl, rfl, rfl, rfl, rfl⟩

theorem markPond_fields {F : Type} (ops : FloatOps F) (t : CityScene F) :
    (markPond ops t).roadCells = t.roadCells ∧
    (markPond ops t).buildingCells = t.buildingCells ∧
    (markPond ops t).treeCells = t.treeCells ∧
    (markPond ops t).streetLamps = t.streetLamps ∧
    (markPond ops t).gridSize = t.gridSize ∧
    (markPond ops t).pond_cx = Int.tdiv t.gridSize 2 + 8 ∧
    (markPond ops t).pond_cy = Int.tdiv t.gridSize 2 - 8 ∧
    (markPond ops t).pond_r = ops.toInt t.config.pondRadius :=
  ⟨rfl, rfl, rfl, rfl, rfl, rfl, rfl, rfl⟩

/-- Just before the pond step a cell of the grid is occupied exactly when it was
occupied on entry, or is a road cell, or lies in the square of a building or of a
tree, or is a lamp cell. -/
theorem beforePond_exact {F R : Type} (ops : FloatOps F) (rm : RandModel R)
    (s : CityScene F) (r : R) (hs : GridShape s) :
    ∀ i j, InGrid s i j →
      (Occupied (beforePond ops rm s r) i j ↔
        Occupied s i j ∨ (i, j) ∈ (beforePond ops rm s r).roadCells ∨
        (∃ b ∈ (beforePond ops rm s r).buildingCells, InSquare b.1 b.2 5 i j) ∨
        (∃ t ∈ (beforePond ops rm s r).treeCells, InSquare t.1 t.2 3 i j) ∨
        (∃ l ∈ (beforePond ops rm s r).streetLamps, InSquare l.1 l.2 1 i j)) := by
  obtain ⟨hgs1, _, hshape1⟩ := layRoads_keeps s
  have hB := placeBuildingsRandomly_exact ops rm (layRoads s) r (hshape1 hs)
  have hkB := placeBuildingsRandomly_keeps ops rm (layRoads s) r
  have hT := placeTrees_exact rm (placeBuildingsRandomly ops rm (layRoads s) r).1
    (placeBuildingsRandomly ops rm (layRoads s) r).2 hB.1
  have hkT := placeTrees_keeps rm (placeBuildingsRandomly ops rm (layRoads s) r).1
    (placeBuildingsRandomly ops rm (layRoads s) r).2
  have hTb := (placeTrees_inv rm (placeBuildingsRandomly ops rm (layRoads s) r).1
    (placeBuildingsRandomly ops rm (layRoads s) r).2 hB.1).2.1
  have hL := placeStreetLamps_exact (placeTrees rm (placeBuildingsRandomly ops rm (layRoads s) r).1
    (placeBuildingsRandomly ops rm (layRoads s) r).2).1 hT.1
  have hkL := placeStreetLamps_keeps (placeTrees rm
    (placeBuildingsRandomly ops rm (layRoads s) r).1
    (placeBuildingsRandomly ops rm (layRoads s) r).2).1
  obtain ⟨_, hLb, hLt, _⟩ := placeStreetLamps_inv (placeTrees rm
    (placeBuildingsRandomly ops rm (layRoads s) r).1
    (placeBuildingsRandomly ops rm (layRoads s) r).2).1 hT.1
  obtain ⟨hCg, hCr, hCb, hCt, hCl⟩ := placeRandomCar_fields (placeStreetLamps (placeTrees rm
    (placeBuildingsRandomly ops rm (layRoads s) r).1
    (placeBuildingsRandomly ops rm (layRoads s) r).2).1)
  intro i j hin
  have hin1 : InGrid (layRoads s) i j := by
    unfold InGrid at hin ⊢; rw [hgs1]; exact hin
  have hinB : InGrid (placeBuildingsRandomly ops rm (layRoads s) r).1 i j := by
    unfold InGrid at hin1 ⊢; rw [hB.2.1]; exact hin1
  have hinT : InGrid (placeTrees rm (placeBuildingsRandomly ops rm (layRoads s) r).1
      (placeBuildingsRandomly ops rm (layRoads s) r).2).1 i j := by
    unfold InGrid at hinB ⊢; rw [hT.2.1]; exact hinB
  have hocc : Occupied (beforePond ops rm s r) i j ↔
      Occupied (placeStreetLamps (placeTrees rm (placeBuildingsRandomly ops rm (layRoads s) r).1
        (placeBuildingsRandomly ops rm (layRoads s) r).2).1) i j := by
    unfold Occupied beforePond
    rw [hCg]
  have hroad : (beforePond ops rm s r).roadCells = (layRoads s).roadCells := by
    unfold beforePond
    rw [hCr, hkL.1, hkT.1, hkB.1]
  have hbuild : (beforePond ops rm s r).buildingCells
      = (placeBuildingsRandomly ops rm (layRoads s) r).1.buildingCells := by
    unfold beforePond
    rw [hCb, hLb, hTb]
  have htree : (beforePond ops rm s r).treeCells
      = (placeTrees rm (placeBuildingsRandomly ops rm (layRoads s) r).1
        (placeBuildingsRandomly ops rm (layRoads s) r).2).1.treeCells := by
    unfold beforePond
    rw [hCt, hLt]
  have hlamp : (beforePond ops rm s r).streetLamps
      = (placeStreetLamps (placeTrees rm (placeBuildingsRandomly ops rm (layRoads s) r).1
        (placeBuildingsRandomly ops rm (layRoads s) r).2).1).streetLamps := by
    unfold beforePond
    rw [hCl]
  rw [hocc, hroad, hbuild, htree, hlamp, hL.2.2 i j hinT, hT.2.2 i j hinB, hB.2.2 i j hin1,
    occupied_layRoads s hs i j hin]
  simp only [or_assoc]

/-- After the pond step, for a scene entered with an all-free grid and a pond
radius `r ≥ 0`: a cell of the grid is occupied exactly when it is a road cell, or
lies in the square of a building or of a tree, or is a lamp cell, or lies in the
pond disc. -/
theorem markPond_beforePond_exact {F R : Type} (ops : FloatOps F) (rm : RandModel R)
    (s : CityScene F) (r : R) (hs : GridShape s)
    (hfree : ∀ i j, gridGet s.occupiedGrid i j = false)
    (hr : 0 ≤ ops.toInt s.config.pondRadius) :
    ∀ i j : Int, (0 ≤ i ∧ i < s.gridSize ∧ 0 ≤ j ∧ j < s.gridSize) →
      (gridGet (markPond ops (beforePond ops rm s r)).occupiedGrid i j = true ↔
        (i, j) ∈ (markPond ops (beforePond ops rm s r)).roadCells ∨
        (∃ b ∈ (markPond ops (beforePond ops rm s r)).buildingCells,
          b.1 - 2 ≤ i ∧ i ≤ b.1 + 2 ∧ b.2 - 2 ≤ j ∧ j ≤ b.2 + 2) ∨
        (∃ t ∈ (markPond ops (beforePond ops rm s r)).treeCells,
          t.1 - 1 ≤ i ∧ i ≤ t.1 + 1 ∧ t.2 - 1 ≤ j ∧ j ≤ t.2 + 1) ∨
        (i, j) ∈ (markPond ops (beforePond ops rm s r)).streetLamps ∨
        (i - (markPond ops (beforePond ops rm s r)).pond_cx) ^ 2
          + (j - (markPond ops (beforePond ops rm s r)).pond_cy) ^ 2
          ≤ (markPond ops (beforePond ops rm s r)).pond_r ^ 2) := by
  obtain ⟨hgsC, hcfgC, hshapeC⟩ := beforePond_keeps ops rm s r
  obtain ⟨f1, f2, f3, f4, _, f6, f7, f8⟩ := markPond_fields ops (beforePond ops rm s r)
  have h5 : Int.tdiv 5 2 = 2 := by decide
  have h3 : Int.tdiv 3 2 = 1 := by decide
  intro i j hin
  have hinC : InGrid (beforePond ops rm s r) i j := by
    unfold InGrid; rw [hgsC]; exact hin
  have hpond := occupied_markPond ops (beforePond ops rm s r) i j (hshapeC hs)
    (by rw [hcfgC]; exact hr) hinC
  have hbefore := beforePond_exact ops rm s r hs i j hin
  have hempty : ¬ Occupied s i j := by
    unfold Occupied; rw [hfree i j]; simp
  unfold Occupied at hpond
  rw [hpond, f1, f2, f3, f4, f6, f7, f8]
  have hb2 : gridGet (beforePond ops rm s r).occupiedGrid i j = true ↔
      Occupied (beforePond ops rm s r) i j := Iff.rfl
  rw [hb2, hbefore]
  have hlampIff : (∃ l ∈ (beforePond ops rm s r).streetLamps, InSquare l.1 l.2 1 i j) ↔
      (i, j) ∈ (beforePond ops rm s r).streetLamps := by
    constructor
    · rintro ⟨l, hl, hsq⟩
      rw [inSquare_one] at hsq
      have : (i, j) = l := Prod.ext hsq.1 hsq.2
      rw [this]; exact hl
    · intro hl
      exact ⟨(i, j), hl, (inSquare_one _ _ _ _).2 ⟨rfl, rfl⟩⟩
  rw [hlampIff]
  simp only [InSquare, h5, h3, pow_two, hempty, false_or, or_assoc]

theorem init_eq {F R : Type} (ops : FloatOps F) (rm : RandModel R) (s : CityScene F) (r : R)
    (citySize numBuildings buildingStyle : Int)
    (towerW towerH buildingW buildingH skyW skyH pondR : F)
    (numSky numTow numOff : Int) :
    (init ops rm s r citySize numBuildings buildingStyle towerW towerH buildingW buildingH
        skyW skyH pondR numSky numTow numOff).1
      = { markPond ops (beforePond ops rm
            (initGrid s citySize numBuildings buildingStyle towerW towerH buildingW buildingH
              skyW skyH pondR numSky numTow numOff) r) with
          waterTime := ops.zero, ripplePhase := ops.zero } := rfl

/-- C29: let `fin` be the scene that `init` produces, with an integer pond radius
`(int)pondRadius ≥ 0`.  Its grid size is 50, 70 or 100, and a cell of the grid is
occupied if and only if it is a road cell, or lies in the 5x5 footprint of a
placed building, or lies in the 3x3 footprint of a placed tree, or is a lamp cell,
or lies in the pond disc; the car position does not occur in the condition. -/
theorem init_occupied_exactly {F R : Type} (ops : FloatOps F) (rm : RandModel R)
    (s : CityScene F) (r : R) (citySize numBuildings buildingStyle : Int)
    (towerW towerH buildingW buildingH skyW skyH pondR : F)
    (numSky numTow numOff : Int) (fin : CityScene F)
    (hfin : fin = (init ops rm s r citySize numBuildings buildingStyle towerW towerH
      buildingW buildingH skyW skyH pondR numSky numTow numOff).1)
    (hr : 0 ≤ ops.toInt pondR) :
    (fin.gridSize = 50 ∨ fin.gridSize = 70 ∨ fin.gridSize = 100) ∧
    fin.pond_r = ops.toInt pondR ∧
    ∀ i j : Int, (0 ≤ i ∧ i < fin.gridSize ∧ 0 ≤ j ∧ j < fin.gridSize) →
      (gridGet fin.occupiedGrid i j = true ↔
        (i, j) ∈ fin.roadCells ∨
        (∃ b ∈ fin.buildingCells, b.1 - 2 ≤ i ∧ i ≤ b.1 + 2 ∧ b.2 - 2 ≤ j ∧ j ≤ b.2 + 2) ∨
        (∃ t ∈ fin.treeCells, t.1 - 1 ≤ i ∧ i ≤ t.1 + 1 ∧ t.2 - 1 ≤ j ∧ j ≤ t.2 + 1) ∨
        (i, j) ∈ fin.streetLamps ∨
        (i - fin.pond_cx) ^ 2 + (j - fin.pond_cy) ^ 2 ≤ fin.pond_r ^ 2) := by
  obtain ⟨hs0, hg0, hfree0, _⟩ := initGrid_spec s citySize numBuildings buildingStyle
    towerW towerH buildingW buildingH skyW skyH pondR numSky numTow numOff
  have hcfg0 : (initGrid s citySize numBuildings buildingStyle towerW towerH buildingW
      buildingH skyW skyH pondR numSky numTow numOff).config.pondRadius = pondR := rfl
  obtain ⟨hgsC, hcfgC, _⟩ := beforePond_keeps ops rm
    (initGrid s citySize numBuildings buildingStyle towerW towerH buildingW buildingH
      skyW skyH pondR numSky numTow numOff) r
  have hexact := markPond_beforePond_exact ops rm
    (initGrid s citySize numBuildings buildingStyle towerW towerH buildingW buildingH
      skyW skyH pondR numSky numTow numOff) r hs0 hfree0 (by rw [hcfg0]; exact hr)
  obtain ⟨_, _, _, _, f5, _, _, f8⟩ := markPond_fields ops (beforePond ops rm
    (initGrid s citySize numBuildings buildingStyle towerW towerH buildingW buildingH
      skyW skyH pondR numSky numTow numOff) r)
  rw [init_eq] at hfin
  subst hfin
  dsimp only
  refine ⟨?_, ?_, ?_⟩
  · rw [f5, hgsC]; exact hg0
  · rw [f8, hcfgC, hcfg0]
  · intro i j hin
    rw [f5, hgsC] at hin
    exact hexact i j hin

/-- Instance of `init_occupied_exactly` for the small city (`citySize = 1`, five
skyscrapers, pond radius 5) generated with `lcgRand`: the grid size is 50, 70 or
100 and the pond radius is 5. -/
theorem init_occupied_exactly_witness :
    (0 : Int) ≤ unitFloatOps.toInt () ∧
    ((init unitFloatOps lcgRand newScene 0 1 5 1 () () () () () () () 5 0 0).1.gridSize = 50 ∨
      (init unitFloatOps lcgRand newScene 0 1 5 1 () () () () () () () 5 0 0).1.gridSize = 70 ∨
      (init unitFloatOps lcgRand newScene 0 1 5 1 () () () () () () () 5 0 0).1.gridSize = 100) ∧
    (init unitFloatOps lcgRand newScene 0 1 5 1 () () () () () () () 5 0 0).1.pond_r = 5 :=
  ⟨by decide,
    (init_occupied_exactly unitFloatOps lcgRand newScene 0 1 5 1 () () () () () () () 5 0 0
      _ rfl (by decide)).1,
    (init_occupied_exactly unitFloatOps lcgRand newScene 0 1 5 1 () () () () () () () 5 0 0
      _ rfl (by decide)).2.1⟩

end CityLayout
